import Mathlib

/-!
# Slave-mode event port (`midp_slavemode_javacall.c`)

A shallow embedding of the event buffer (`javacall_event_send`,
`javacall_event_receive`) and of the blocked-thread matcher
(`eventUnblockJavaThread`), followed by the properties established for them.

Conventions of the embedding.

* C `int` values are unbounded `Int`s.  In every state that satisfies the
  bounds invariant (`BufferInv`) with `MAX_EVENTS < 2 ^ 31` all arithmetic of
  the two buffer functions stays between `-1` and `MAX_EVENTS`, so no
  wrap-around is involved.
* A C array is a `List`; an access outside the array, and a `memcpy` that
  reads or writes outside its operands, is undefined behaviour and makes the
  embedded function return `none`.
* `MAX_EVENTS` and `NO_SIGNAL` are declared in headers that are not part of
  the translated file; they are parameters of the functions that use them.
* A call of the external `midp_thread_unblock` is recorded in a trace of
  thread identifiers.
-/

set_option linter.unusedVariables false

namespace SlaveMode

/-! ## Data model -/

/-- A C `unsigned char`. -/
abbrev UChar := Fin 256

/-- The three `javacall_result` codes the file uses. -/
inductive javacall_result where
  | JAVACALL_OK
  | JAVACALL_FAIL
  | JAVACALL_OUT_OF_MEMORY
  deriving DecidableEq

open javacall_result

/-- Capacity of `Event.data` (`unsigned char data[100]`). -/
def EVENT_DATA_CAPACITY : Nat := 100

/-- The `Event` struct: `unsigned char data[100]; int dataLen;`. -/
structure Event where
  data : List UChar
  dataLen : Int
  deriving DecidableEq

/-- The file-level buffer state: `eventsArray`, `index` and `size`. -/
structure EventBuffer where
  eventsArray : List Event
  index : Int
  size : Int
  deriving DecidableEq

/-- A zero-initialised `Event` (static storage). -/
def zeroEvent : Event :=
  { data := List.replicate EVENT_DATA_CAPACITY 0, dataLen := 0 }

/-- State at program start: `eventsArray` zeroed, `index = 0`, `size = 0`. -/
def initBuffer (MAX_EVENTS : Nat) : EventBuffer :=
  { eventsArray := List.replicate MAX_EVENTS zeroEvent, index := 0, size := 0 }

/-- Reading `arr[i]`; `none` when `i` is outside the array. -/
def arrayGet {α : Type} (arr : List α) (i : Int) : Option α :=
  if 0 ≤ i then arr[i.toNat]? else none

/-- The C library `memcpy(dst, src, n)`: the first `n` bytes of `dst` are
replaced by the first `n` bytes of `src`.  `none` when `n` is negative or
exceeds the size of either operand. -/
def memcpy (dst src : List UChar) (n : Int) : Option (List UChar) :=
  if 0 ≤ n ∧ n.toNat ≤ dst.length ∧ n.toNat ≤ src.length then
    some (src.take n.toNat ++ dst.drop n.toNat)
  else none

/-! ## Event buffer -/

/-- What `javacall_event_receive` leaves behind: the return code, the
caller's `binaryBuffer`, the caller's `*outEventLen` and the buffer state. -/
structure ReceiveResult where
  result : javacall_result
  binaryBuffer : List UChar
  outEventLen : Int
  buffer : EventBuffer
  deriving DecidableEq

/-- Embedding of `javacall_event_receive` (lines 115-145).  `binaryBuffer`
and `outEventLen` are the contents of the caller's two out-parameters before
the call.  `timeTowaitInMillisec` is not used by the body. -/
def javacall_event_receive (MAX_EVENTS : Nat) (s : EventBuffer)
    (timeTowaitInMillisec : Int) (binaryBuffer : List UChar)
    (binaryBufferMaxLen : Int) (outEventLen : Int) : Option ReceiveResult :=
  if s.size = 0 then
    some ⟨JAVACALL_FAIL, binaryBuffer, outEventLen, s⟩
  else
    let index : Int := if s.index = 0 then (MAX_EVENTS : Int) - 1 else s.index - 1
    match arrayGet s.eventsArray index with
    | none => none
    | some ev =>
      if ev.dataLen > binaryBufferMaxLen then
        some ⟨JAVACALL_OUT_OF_MEMORY, binaryBuffer, 0, { s with index := index }⟩
      else
        match memcpy binaryBuffer ev.data ev.dataLen with
        | none => none
        | some buf =>
          some ⟨JAVACALL_OK, buf, ev.dataLen,
            { s with index := index, size := s.size - 1 }⟩

/-- Line 162 of `javacall_event_send`:
`eventsArray[index].dataLen = binaryBufferLen`. -/
def storeDataLen (s : EventBuffer) (binaryBufferLen : Int) : Option EventBuffer :=
  match arrayGet s.eventsArray s.index with
  | none => none
  | some ev =>
    some { s with eventsArray :=
      s.eventsArray.set s.index.toNat { ev with dataLen := binaryBufferLen } }

/-- Line 163 of `javacall_event_send`:
`memcpy(eventsArray[index].data, binaryBuffer, binaryBufferLen)`. -/
def storeData (s : EventBuffer) (binaryBuffer : List UChar)
    (binaryBufferLen : Int) : Option EventBuffer :=
  match arrayGet s.eventsArray s.index with
  | none => none
  | some ev =>
    match memcpy ev.data binaryBuffer binaryBufferLen with
    | none => none
    | some d =>
      some { s with eventsArray := s.eventsArray.set s.index.toNat { ev with data := d } }

/-- Embedding of `javacall_event_send` (lines 157-167). -/
def javacall_event_send (MAX_EVENTS : Nat) (s : EventBuffer)
    (binaryBuffer : List UChar) (binaryBufferLen : Int) :
    Option (javacall_result × EventBuffer) :=
  if s.size = (MAX_EVENTS : Int) then
    some (JAVACALL_FAIL, s)
  else
    match storeDataLen s binaryBufferLen with
    | none => none
    | some s1 =>
      match storeData s1 binaryBuffer binaryBufferLen with
      | none => none
      | some s2 =>
        some (JAVACALL_OK,
          { s2 with index := Int.tmod (s2.index + 1) (MAX_EVENTS : Int),
                    size := s2.size + 1 })

/-! ## Sequences of buffer operations -/

/-- One call made by a client of the buffer, with its arguments. -/
inductive BufferOp where
  | send (binaryBuffer : List UChar) (binaryBufferLen : Int)
  | receive (timeTowaitInMillisec : Int) (binaryBuffer : List UChar)
      (binaryBufferMaxLen : Int) (outEventLen : Int)
  deriving DecidableEq

/-- The buffer state after one call (whatever the call returned). -/
def stepOp (MAX_EVENTS : Nat) (s : EventBuffer) : BufferOp → Option EventBuffer
  | .send b n => (javacall_event_send MAX_EVENTS s b n).map Prod.snd
  | .receive t b m o => (javacall_event_receive MAX_EVENTS s t b m o).map ReceiveResult.buffer

/-- The buffer state after a sequence of calls, made in list order. -/
def runOps (MAX_EVENTS : Nat) (s : EventBuffer) : List BufferOp → Option EventBuffer
  | [] => some s
  | op :: ops =>
    match stepOp MAX_EVENTS s op with
    | none => none
    | some s1 => runOps MAX_EVENTS s1 ops

/-- Consecutive `javacall_event_send` calls, one per record of the list;
the return codes are collected in call order. -/
def sendAll (MAX_EVENTS : Nat) (s : EventBuffer) :
    List (List UChar × Int) → Option (List javacall_result × EventBuffer)
  | [] => some ([], s)
  | r :: rs =>
    match javacall_event_send MAX_EVENTS s r.1 r.2 with
    | none => none
    | some (c, s1) =>
      match sendAll MAX_EVENTS s1 rs with
      | none => none
      | some (cs, s2) => some (c :: cs, s2)

/-- What a caller sees of one receive: the return code, the first
`*outEventLen` bytes of its buffer, and `*outEventLen`. -/
def observed (r : ReceiveResult) : javacall_result × List UChar × Int :=
  (r.result, r.binaryBuffer.take r.outEventLen.toNat, r.outEventLen)

/-- Consecutive `javacall_event_receive` calls (`n` of them) that reuse the
caller's buffer and length variable, as the polling code does; what each call
showed the caller is collected in call order. -/
def receiveAll (MAX_EVENTS : Nat) (s : EventBuffer) (timeTowaitInMillisec : Int)
    (binaryBuffer : List UChar) (binaryBufferMaxLen : Int) (outEventLen : Int) :
    Nat → Option (List (javacall_result × List UChar × Int) × EventBuffer)
  | 0 => some ([], s)
  | n + 1 =>
    match javacall_event_receive MAX_EVENTS s timeTowaitInMillisec binaryBuffer
        binaryBufferMaxLen outEventLen with
    | none => none
    | some r =>
      match receiveAll MAX_EVENTS r.buffer timeTowaitInMillisec r.binaryBuffer
          binaryBufferMaxLen r.outEventLen n with
      | none => none
      | some (outs, s2) => some (observed r :: outs, s2)

/-- The cursor retreat of `javacall_event_receive` (lines 126-131). -/
def prevIndex (MAX_EVENTS : Nat) (i : Int) : Int :=
  if i = 0 then (MAX_EVENTS : Int) - 1 else i - 1

/-- The slots a run of `n` receives reads, starting below cursor `i`. -/
def liveFrom (MAX_EVENTS : Nat) (arr : List Event) (i : Int) : Nat → List (Option Event)
  | 0 => []
  | n + 1 =>
    arrayGet arr (prevIndex MAX_EVENTS i) ::
      liveFrom MAX_EVENTS arr (prevIndex MAX_EVENTS i) n

/-- The record a slot holds: its first `dataLen` bytes and `dataLen`. -/
def recordOf (e : Event) : List UChar × Int :=
  (e.data.take e.dataLen.toNat, e.dataLen)

/-- The record a caller hands to `javacall_event_send`. -/
def sentRecord (r : List UChar × Int) : List UChar × Int :=
  (r.1.take r.2.toNat, r.2)

/-! ## Blocked-thread matcher -/

/-- The fields of `MidpReentryData` the matcher reads or writes.  `waitingFor`
is a `midpSignalType` value, held as an `int`. -/
structure MidpReentryData where
  waitingFor : Int
  descriptor : Int
  status : Int
  pResult : Nat
  deriving DecidableEq

/-- One entry of the blocked-thread array: `thread_id` and the `reentry_data`
pointer (`none` for `NULL`). -/
structure JVMSPI_BlockedThreadInfo where
  thread_id : Nat
  reentry_data : Option MidpReentryData
  deriving DecidableEq

/-- The cast `(midpSignalType)waitingFor` of an `unsigned int` to the
`int`-sized enum type: the 32-bit pattern read as a signed value. -/
def castSignalType (waitingFor : Nat) : Int :=
  if waitingFor % 2 ^ 32 < 2 ^ 31 then ((waitingFor % 2 ^ 32 : Nat) : Int)
  else ((waitingFor % 2 ^ 32 : Nat) : Int) - 2 ^ 32

/-- What a matcher call leaves behind: its return value, the blocked-thread
array, and the `midp_thread_unblock` calls it made, in order. -/
structure UnblockResult where
  ret : Int
  blocked_threads : List JVMSPI_BlockedThreadInfo
  unblocked : List Nat
  deriving DecidableEq

/-- Embedding of `eventUnblockJavaThread` (lines 181-228).  The array and
its count are the list; the loop over `i` is the recursion over the list. -/
def eventUnblockJavaThread (NO_SIGNAL : Nat) :
    List JVMSPI_BlockedThreadInfo → Nat → Int → Int → UnblockResult
  | [], _, _, _ => ⟨0, [], []⟩
  | t :: rest, waitingFor, descriptor, status =>
    match t.reentry_data with
    | none =>
      let r := eventUnblockJavaThread NO_SIGNAL rest waitingFor descriptor status
      ⟨r.ret, t :: r.blocked_threads, r.unblocked⟩
    | some p =>
      if p.descriptor = descriptor ∧ p.waitingFor = castSignalType waitingFor then
        let woken : MidpReentryData := { p with status := status }
        ⟨1, { t with reentry_data := some woken } :: rest, [t.thread_id]⟩
      else if waitingFor = NO_SIGNAL ∧ p.descriptor = descriptor then
        let woken : MidpReentryData := { p with status := status, waitingFor := -1 }
        ⟨1, { t with reentry_data := some woken } :: rest, [t.thread_id]⟩
      else
        let r := eventUnblockJavaThread NO_SIGNAL rest waitingFor descriptor status
        ⟨r.ret, t :: r.blocked_threads, r.unblocked⟩

/-- A context qualifies for the exact match of a signal. -/
def ExactMatch (waitingFor : Nat) (descriptor : Int) (t : JVMSPI_BlockedThreadInfo) : Prop :=
  ∃ p, t.reentry_data = some p ∧ p.descriptor = descriptor ∧
    p.waitingFor = castSignalType waitingFor

/-- The loop body of `eventUnblockJavaThread` fires on a context: its
reentry data is non-null, its descriptor is the signal's, and either its
`waitingFor` is the signal's wait-kind or the signal is `NO_SIGNAL`. -/
def Selects (NO_SIGNAL waitingFor : Nat) (descriptor : Int)
    (t : JVMSPI_BlockedThreadInfo) : Prop :=
  ∃ p, t.reentry_data = some p ∧ p.descriptor = descriptor ∧
    (p.waitingFor = castSignalType waitingFor ∨ waitingFor = NO_SIGNAL)

/-- The reentry data of the context the loop body fires on, after the call:
`status` is stored, and on the `NO_SIGNAL` branch `waitingFor` becomes `-1`. -/
def wokenData (waitingFor : Nat) (status : Int) (p : MidpReentryData) : MidpReentryData :=
  if p.waitingFor = castSignalType waitingFor then { p with status := status }
  else { p with status := status, waitingFor := -1 }

/-- Four blocked contexts: one without reentry data, one waiting on
`(2, 7)`, one waiting on `(3, 7)` and a second one waiting on `(3, 7)`. -/
def sampleThreads : List JVMSPI_BlockedThreadInfo :=
  [⟨10, none⟩, ⟨11, some ⟨2, 7, 0, 0⟩⟩, ⟨12, some ⟨3, 7, 0, 0⟩⟩, ⟨13, some ⟨3, 7, 0, 0⟩⟩]

/-! ## Well-formedness predicates -/

/-- Storage shape fixed by the declarations `Event eventsArray[MAX_EVENTS]`
and `unsigned char data[100]`. -/
def WellFormed (MAX_EVENTS : Nat) (s : EventBuffer) : Prop :=
  s.eventsArray.length = MAX_EVENTS ∧
    ∀ e ∈ s.eventsArray, e.data.length = EVENT_DATA_CAPACITY

instance (MAX_EVENTS : Nat) (s : EventBuffer) : Decidable (WellFormed MAX_EVENTS s) := by
  unfold WellFormed; infer_instance

/-- The bounds on `size` and `index`. -/
def BufferInv (MAX_EVENTS : Nat) (s : EventBuffer) : Prop :=
  0 ≤ s.size ∧ s.size ≤ (MAX_EVENTS : Int) ∧ 0 ≤ s.index ∧ s.index < (MAX_EVENTS : Int)

instance (MAX_EVENTS : Nat) (s : EventBuffer) : Decidable (BufferInv MAX_EVENTS s) := by
  unfold BufferInv; infer_instance

/-- Every slot's `dataLen` lies within the capacity of `data`. -/
def RecordsInv (s : EventBuffer) : Prop :=
  ∀ e ∈ s.eventsArray, 0 ≤ e.dataLen ∧ e.dataLen ≤ (EVENT_DATA_CAPACITY : Int)

instance (s : EventBuffer) : Decidable (RecordsInv s) := by
  unfold RecordsInv; infer_instance

/-- A caller's record `(binaryBuffer, binaryBufferLen)` that fits an `Event`
slot and whose buffer really holds `binaryBufferLen` bytes. -/
def ValidRecord (binaryBuffer : List UChar) (binaryBufferLen : Int) : Prop :=
  0 ≤ binaryBufferLen ∧ binaryBufferLen ≤ (EVENT_DATA_CAPACITY : Int) ∧
    binaryBufferLen.toNat ≤ binaryBuffer.length

instance (b : List UChar) (n : Int) : Decidable (ValidRecord b n) := by
  unfold ValidRecord; infer_instance

/-- The arguments of a call keep every `memcpy` inside its operands: a sent
record fits a slot, and a receive's destination buffer really has
`binaryBufferMaxLen` bytes. -/
def OpInBounds : BufferOp → Prop
  | .send b n => ValidRecord b n
  | .receive _ b m _ => m ≤ (b.length : Int)

instance (op : BufferOp) : Decidable (OpInBounds op) := by
  cases op <;> unfold OpInBounds <;> infer_instance

/-! ## Concrete inputs -/

/-- A five-byte record. -/
def recA : List UChar := [2, 3, 4, 5, 6]

/-- A one-byte record. -/
def recB : List UChar := [1]

/-- An eight-byte destination buffer. -/
def dest8 : List UChar := List.replicate 8 0

/-- The buffer of four slots after `recA` has been sent. -/
def bufAfterA : EventBuffer :=
  { eventsArray :=
      [⟨recA ++ List.replicate 95 0, 5⟩, zeroEvent, zeroEvent, zeroEvent],
    index := 1, size := 1 }

/-- The buffer of four slots after `recB` and then `recA` have been sent. -/
def bufAfterBA : EventBuffer :=
  { eventsArray :=
      [⟨recB ++ List.replicate 99 0, 1⟩, ⟨recA ++ List.replicate 95 0, 5⟩,
        zeroEvent, zeroEvent],
    index := 2, size := 2 }

/-! ## Declarations taken from headers that are not part of the translated file

The enum constants, macros and type layouts below come from `midpServices.h`,
`midpEvents.h`, `midp_jc_event_defs.h`, `javacall_*.h` and the build
configuration.  Their values are parameters, collected in `Platform`. -/

/-- The compile-time switches tested by `#if` and `#ifdef` in the file; a
field is `true` when the guarded block is compiled. -/
structure BuildConfig where
  ENABLE_JSR_75 : Bool
  ENABLE_JSR_120 : Bool
  ENABLE_JSR_205 : Bool
  ENABLE_JSR_135 : Bool
  ENABLE_JSR_234 : Bool
  ENABLE_JSR_179 : Bool
  ENABLE_JSR_177 : Bool
  ENABLE_MULTIPLE_ISOLATES : Bool
  ENABLE_JSR_256 : Bool
  ENABLE_JAVA_DEBUGGER : Bool
  deriving DecidableEq

/-- The `midpSignalType` enumerators the file names, as non-negative `int`
constants. -/
structure SignalTypes where
  NO_SIGNAL : Nat
  UI_SIGNAL : Nat
  AMS_SIGNAL : Nat
  NETWORK_READ_SIGNAL : Nat
  NETWORK_WRITE_SIGNAL : Nat
  NETWORK_EXCEPTION_SIGNAL : Nat
  HOST_NAME_LOOKUP_SIGNAL : Nat
  PUSH_ALARM_SIGNAL : Nat
  PUSH_SIGNAL : Nat
  VM_DEBUG_SIGNAL : Nat
  JSR179_LOCATION_SIGNAL : Nat
  WMA_SMS_READ_SIGNAL : Nat
  WMA_CBS_READ_SIGNAL : Nat
  WMA_MMS_READ_SIGNAL : Nat
  WMA_SMS_WRITE_SIGNAL : Nat
  WMA_MMS_WRITE_SIGNAL : Nat
  CARD_READER_DATA_SIGNAL : Nat
  JSR256_SIGNAL : Nat
  MEDIA_EVENT_SIGNAL : Nat
  MEDIA_START_SIGNAL : Nat
  MEDIA_LONG_MIDI_EVENT_SIGNAL : Nat
  deriving DecidableEq

/-- The `MidpEvent.type` constants the file names. -/
structure EventTypes where
  MIDP_KEY_EVENT : Int
  MIDP_PEN_EVENT : Int
  SHUTDOWN_EVENT : Int
  PAUSE_ALL_EVENT : Int
  ACTIVATE_ALL_EVENT : Int
  ROTATION_EVENT : Int
  MM_EOM_EVENT : Int
  MM_DURATION_EVENT : Int
  MM_RECORD_LIMIT_EVENT : Int
  MM_RECORD_ERROR_EVENT : Int
  MM_BUFFERING_START_EVENT : Int
  MM_BUFFERING_STOP_EVENT : Int
  MM_VOLUME_CHANGED_EVENT : Int
  MM_GENERAL_ERROR_EVENT : Int
  AMMS_EVENT : Int
  SELECT_FOREGROUND_EVENT : Int
  SENSOR_EVENT : Int
  deriving DecidableEq

/-- The `javacall_media_notification_type` enumerators the file names. -/
structure MediaTypes where
  JAVACALL_EVENT_MEDIA_END_OF_MEDIA : Int
  JAVACALL_EVENT_MEDIA_DURATION_UPDATED : Int
  JAVACALL_EVENT_MEDIA_RECORD_SIZE_LIMIT : Int
  JAVACALL_EVENT_MEDIA_RECORD_ERROR : Int
  JAVACALL_EVENT_MEDIA_BUFFERING_STARTED : Int
  JAVACALL_EVENT_MEDIA_BUFFERING_STOPPED : Int
  JAVACALL_EVENT_MEDIA_VOLUME_CHANGED : Int
  JAVACALL_EVENT_MEDIA_ERROR : Int
  deriving DecidableEq

/-- The tag of an event record (`event->eventType`): the enumerators that
label a `case` of `checkForSystemSignal`, and `other` for every other value. -/
inductive midp_jc_event_type where
  | MIDP_JC_EVENT_KEY
  | MIDP_JC_EVENT_PEN
  | MIDP_JC_EVENT_SOCKET
  | MIDP_JC_EVENT_END
  | MIDP_JC_EVENT_PAUSE
  | MIDP_JC_EVENT_RESUME
  | MIDP_JC_EVENT_PUSH
  | MIDP_JC_EVENT_ROTATION
  | JSR75_FC_JC_EVENT_ROOTCHANGED
  | MIDP_JC_EVENT_SMS_INCOMING
  | MIDP_JC_EVENT_CBS_INCOMING
  | MIDP_JC_EVENT_SMS_SENDING_RESULT
  | MIDP_JC_EVENT_MMS_INCOMING
  | MIDP_JC_EVENT_MMS_SENDING_RESULT
  | MIDP_JC_EVENT_MULTIMEDIA
  | MIDP_JC_EVENT_ADVANCED_MULTIMEDIA
  | JSR179_LOCATION_JC_EVENT
  | MIDP_JC_EVENT_CARDDEVICE
  | MIDP_JC_EVENT_SWITCH_FOREGROUND
  | MIDP_JC_EVENT_SELECT_APP
  | JSR256_JC_EVENT_SENSOR_AVAILABLE
  | JSR256_JC_EVENT_SENSOR_OPEN_CLOSE
  | other (code : Nat)
  deriving DecidableEq

open midp_jc_event_type

/-- The `carddeviceEvent.eventType` values of the inner `switch`. -/
inductive carddevice_event_type where
  | MIDP_CARDDEVICE_RESET
  | MIDP_CARDDEVICE_XFER
  | MIDP_CARDDEVICE_UNLOCK
  | other (code : Nat)
  deriving DecidableEq

/-- The `midp_jc_event_multimedia` struct. -/
structure midp_jc_event_multimedia where
  mediaType : Int
  appId : Int
  playerId : Int
  data : Int
  status : Int
  deriving DecidableEq

/-- The members of `midp_jc_event_union` the file reads.  A member
`data.x.y` of the C union is the field `x_y`; `handle` members are given as
the `int` the casts of the file produce, `extraData` as an address. -/
structure midp_jc_event_union where
  eventType : midp_jc_event_type
  keyEvent_key : Int
  keyEvent_keyEventType : Int
  penEvent_type : Int
  penEvent_x : Int
  penEvent_y : Int
  socketEvent_waitingFor : Int
  socketEvent_handle : Int
  socketEvent_status : Int
  socketEvent_extraData : Nat
  pushEvent_alarmHandle : Int
  smsIncomingEvent_stub : Int
  cbsIncomingEvent_stub : Int
  smsSendingResultEvent_handle : Int
  smsSendingResultEvent_result : Int
  mmsIncomingEvent_stub : Int
  mmsSendingResultEvent_handle : Int
  mmsSendingResultEvent_result : Int
  multimediaEvent : midp_jc_event_multimedia
  jsr179LocationEvent_provider : Int
  jsr179LocationEvent_operation_result : Int
  carddeviceEvent_eventType : carddevice_event_type
  carddeviceEvent_handle : Nat
  jsr256SensorAvailable_sensor_type : Int
  jsr256SensorAvailable_is_available : Int
  jsr256_jc_event_sensor_sensor : Int
  deriving DecidableEq

/-- The names through which the file accesses a `MidpEvent`: the member
`type`, the members `intParam1` to `intParam3`, and the accessor macros of
`midpEvents.h`. -/
inductive MidpEventField where
  | type
  | CHR
  | ACTION
  | X_POS
  | Y_POS
  | intParam1
  | intParam2
  | intParam3
  | MM_PLAYER_ID
  | MM_DATA
  | MM_ISOLATE
  | MM_EVT_TYPE
  deriving DecidableEq

/-- A `MidpEvent`, as seen through the names of `MidpEventField`: the value
read through each name. -/
structure MidpEvent where
  type : Int
  CHR : Int
  ACTION : Int
  X_POS : Int
  Y_POS : Int
  intParam1 : Int
  intParam2 : Int
  intParam3 : Int
  MM_PLAYER_ID : Int
  MM_DATA : Int
  MM_ISOLATE : Int
  MM_EVT_TYPE : Int
  deriving DecidableEq

/-- Reading `e.name`. -/
def MidpEvent.read (e : MidpEvent) : MidpEventField → Int
  | .type => e.type
  | .CHR => e.CHR
  | .ACTION => e.ACTION
  | .X_POS => e.X_POS
  | .Y_POS => e.Y_POS
  | .intParam1 => e.intParam1
  | .intParam2 => e.intParam2
  | .intParam3 => e.intParam3
  | .MM_PLAYER_ID => e.MM_PLAYER_ID
  | .MM_DATA => e.MM_DATA
  | .MM_ISOLATE => e.MM_ISOLATE
  | .MM_EVT_TYPE => e.MM_EVT_TYPE

/-- The assignment `e.name = v`.  `slot` tells which struct member each name
denotes; the new value is seen through every name of the member written. -/
def MidpEvent.write (slot : MidpEventField → Nat) (e : MidpEvent)
    (name : MidpEventField) (v : Int) : MidpEvent :=
  { type := if slot .type = slot name then v else e.type
    CHR := if slot .CHR = slot name then v else e.CHR
    ACTION := if slot .ACTION = slot name then v else e.ACTION
    X_POS := if slot .X_POS = slot name then v else e.X_POS
    Y_POS := if slot .Y_POS = slot name then v else e.Y_POS
    intParam1 := if slot .intParam1 = slot name then v else e.intParam1
    intParam2 := if slot .intParam2 = slot name then v else e.intParam2
    intParam3 := if slot .intParam3 = slot name then v else e.intParam3
    MM_PLAYER_ID := if slot .MM_PLAYER_ID = slot name then v else e.MM_PLAYER_ID
    MM_DATA := if slot .MM_DATA = slot name then v else e.MM_DATA
    MM_ISOLATE := if slot .MM_ISOLATE = slot name then v else e.MM_ISOLATE
    MM_EVT_TYPE := if slot .MM_EVT_TYPE = slot name then v else e.MM_EVT_TYPE }

/-- A call of a function defined outside the file, with its arguments (the
blocked-thread array and its count are left out), in the order made.  What
such a function does to the blocked-thread array is not part of this file:
the array in a result is the array as the code of this file leaves it.  These
functions are taken not to write the statics of the file. -/
inductive ExtCall where
  | midp_thread_unblock (thread_id : Nat)
  | StoreMIDPEventInVmThread (event : MidpEvent) (isolateId : Int)
  | midpStoreEventAndSignalAms (event : MidpEvent)
  | midpStoreEventAndSignalForeground (event : MidpEvent)
  | findPushBlockedHandle (descriptor : Int)
  | findPushTimerBlockedHandle (descriptor : Int)
  | midp_thread_signal_list (waitingFor descriptor status : Int)
  | jsr120_check_signal (waitingFor descriptor status : Int)
  | midp_isDebuggerActive
  | JVM_ProcessDebuggerCmds
  | notifyDisksChanged
  deriving DecidableEq

/-- Everything the file takes from outside: the build configuration, the
constants, the member each `MidpEvent` name denotes, the value
`MIDP_EVENT_INITIALIZE` gives an event, the two array sizes, the reading of
the receive buffer as a `midp_jc_event_union` (the cast of line 403), and
the values the external query functions return. -/
structure Platform where
  cfg : BuildConfig
  sig : SignalTypes
  evt : EventTypes
  media : MediaTypes
  SIGNAL_RESET : Int
  SIGNAL_XFER : Int
  SIGNAL_LOCK : Int
  JAVACALL_OK_value : Int
  slot : MidpEventField → Nat
  initEvent : MidpEvent
  MAX_EVENTS : Nat
  BINARY_BUFFER_MAX_LEN : Nat
  view : List UChar → midp_jc_event_union
  findPushBlockedHandle : Int → Int
  findPushTimerBlockedHandle : Int → Int
  jsr120_check_signal : Int → Int → Int → Int
  midp_isDebuggerActive : Int

/-! ## Multimedia matcher and multimedia events -/

/-- Conversion of an `int` to `unsigned int` (an argument passed to an
`unsigned int` parameter): the value modulo `2 ^ 32`. -/
def toUnsigned (x : Int) : Nat := (x % 2 ^ 32).toNat

/-- The 32-bit pattern `n` read as an `int`. -/
def toInt32 (n : Nat) : Int :=
  if n % 2 ^ 32 < 2 ^ 31 then ((n % 2 ^ 32 : Nat) : Int)
  else ((n % 2 ^ 32 : Nat) : Int) - 2 ^ 32

/-- Embedding of `eventUnblockMultimediaJavaThread` (lines 242-278). -/
def eventUnblockMultimediaJavaThread
    (NO_SIGNAL MEDIA_START_SIGNAL MEDIA_LONG_MIDI_EVENT_SIGNAL : Nat) :
    List JVMSPI_BlockedThreadInfo → Nat → Int → Int → UnblockResult
  | [], _, _, _ => ⟨0, [], []⟩
  | t :: rest, waitingFor, descriptor, status =>
    match t.reentry_data with
    | none =>
      let r := eventUnblockMultimediaJavaThread NO_SIGNAL MEDIA_START_SIGNAL
        MEDIA_LONG_MIDI_EVENT_SIGNAL rest waitingFor descriptor status
      ⟨r.ret, t :: r.blocked_threads, r.unblocked⟩
    | some p =>
      if p.descriptor = descriptor
          ∧ (p.waitingFor = castSignalType waitingFor ∨ NO_SIGNAL = waitingFor)
          ∧ p.waitingFor ≥ (MEDIA_START_SIGNAL : Int)
          ∧ p.waitingFor ≤ (MEDIA_LONG_MIDI_EVENT_SIGNAL : Int) then
        let woken : MidpReentryData := { p with status := status }
        ⟨1, { t with reentry_data := some woken } :: rest, [t.thread_id]⟩
      else
        let r := eventUnblockMultimediaJavaThread NO_SIGNAL MEDIA_START_SIGNAL
          MEDIA_LONG_MIDI_EVENT_SIGNAL rest waitingFor descriptor status
        ⟨r.ret, t :: r.blocked_threads, r.unblocked⟩

/-- A context qualifies for the range match of a signal. -/
def RangeMatch (NO_SIGNAL MEDIA_START_SIGNAL MEDIA_LONG_MIDI_EVENT_SIGNAL waitingFor : Nat)
    (descriptor : Int) (t : JVMSPI_BlockedThreadInfo) : Prop :=
  ∃ p, t.reentry_data = some p ∧ p.descriptor = descriptor ∧
    (p.waitingFor = castSignalType waitingFor ∨ NO_SIGNAL = waitingFor) ∧
    (MEDIA_START_SIGNAL : Int) ≤ p.waitingFor ∧
    p.waitingFor ≤ (MEDIA_LONG_MIDI_EVENT_SIGNAL : Int)

/-- The descriptor computed on line 347,
`((appId & 0xFFFF) << 16) | (playerId & 0xFFFF)`, on 32-bit patterns: when
`appId & 0xFFFF` is `0x8000` or more the shifted value is outside the range
of `int`, and the result is the `int` with the same 32 bits. -/
def descriptorLine347 (multimediaEvent : midp_jc_event_multimedia) : Int :=
  toInt32 (((toUnsigned multimediaEvent.appId &&& 0xFFFF) <<< 16) |||
    (toUnsigned multimediaEvent.playerId &&& 0xFFFF))

/-- The descriptor computed on line 355,
`((appId & 0xFFFF) << 16) | (playerId & 0xFFFF)`, on 32-bit patterns. -/
def descriptorLine355 (multimediaEvent : midp_jc_event_multimedia) : Int :=
  toInt32 (((toUnsigned multimediaEvent.appId &&& 0xFFFF) <<< 16) |||
    (toUnsigned multimediaEvent.playerId &&& 0xFFFF))

/-- The spec's packing rule `pack(isolate, player)`, by arithmetic: isolate
id modulo `2 ^ 16` in bits 16 to 31, player id modulo `2 ^ 16` in bits 0 to
15, as a 32-bit pattern. -/
def pack (isolate_id player_id : Int) : Nat :=
  (isolate_id % 2 ^ 16).toNat * 2 ^ 16 + (player_id % 2 ^ 16).toNat

/-- What `midpHandleMultimediaEvent` leaves behind. -/
structure MultimediaResult where
  result : javacall_result
  blocked_threads : List JVMSPI_BlockedThreadInfo
  calls : List ExtCall
  deriving DecidableEq

/-- The `switch` of lines 303-330: the event type for a media type. -/
def mediaEventType (P : Platform) (mediaType : Int) (newMidpEvent : MidpEvent) : MidpEvent :=
  if mediaType = P.media.JAVACALL_EVENT_MEDIA_END_OF_MEDIA then
    newMidpEvent.write P.slot .type P.evt.MM_EOM_EVENT
  else if mediaType = P.media.JAVACALL_EVENT_MEDIA_DURATION_UPDATED then
    newMidpEvent.write P.slot .type P.evt.MM_DURATION_EVENT
  else if mediaType = P.media.JAVACALL_EVENT_MEDIA_RECORD_SIZE_LIMIT then
    newMidpEvent.write P.slot .type P.evt.MM_RECORD_LIMIT_EVENT
  else if mediaType = P.media.JAVACALL_EVENT_MEDIA_RECORD_ERROR then
    newMidpEvent.write P.slot .type P.evt.MM_RECORD_ERROR_EVENT
  else if mediaType = P.media.JAVACALL_EVENT_MEDIA_BUFFERING_STARTED then
    newMidpEvent.write P.slot .type P.evt.MM_BUFFERING_START_EVENT
  else if mediaType = P.media.JAVACALL_EVENT_MEDIA_BUFFERING_STOPPED then
    newMidpEvent.write P.slot .type P.evt.MM_BUFFERING_STOP_EVENT
  else if mediaType = P.media.JAVACALL_EVENT_MEDIA_VOLUME_CHANGED then
    newMidpEvent.write P.slot .type P.evt.MM_VOLUME_CHANGED_EVENT
  else if mediaType = P.media.JAVACALL_EVENT_MEDIA_ERROR then
    newMidpEvent.write P.slot .type P.evt.MM_GENERAL_ERROR_EVENT
  else newMidpEvent

/-- The `midp_thread_unblock` calls of a matcher run, as external calls. -/
def unblockCalls (r : UnblockResult) : List ExtCall :=
  r.unblocked.map ExtCall.midp_thread_unblock

/-- Embedding of `midpHandleMultimediaEvent` (lines 295-362). -/
def midpHandleMultimediaEvent (P : Platform) (multimediaEvent : midp_jc_event_multimedia)
    (blocked_threads : List JVMSPI_BlockedThreadInfo) : MultimediaResult :=
  let signal : Int := (P.sig.NO_SIGNAL : Int)
  let newMidpEvent := mediaEventType P multimediaEvent.mediaType P.initEvent
  if (P.sig.NO_SIGNAL : Int) = signal then
    let e1 := newMidpEvent.write P.slot .intParam1 multimediaEvent.playerId
    let e2 := e1.write P.slot .intParam2 multimediaEvent.data
    let e3 := e2.write P.slot .intParam3 multimediaEvent.appId
    let stored := [ExtCall.StoreMIDPEventInVmThread e3 multimediaEvent.appId]
    if P.evt.MM_GENERAL_ERROR_EVENT = e3.read .type
        ∨ P.evt.MM_RECORD_ERROR_EVENT = e3.read .type
        ∨ P.evt.MM_EOM_EVENT = e3.read .type then
      let descriptor := descriptorLine347 multimediaEvent
      let r := eventUnblockMultimediaJavaThread P.sig.NO_SIGNAL P.sig.MEDIA_START_SIGNAL
        P.sig.MEDIA_LONG_MIDI_EVENT_SIGNAL blocked_threads (toUnsigned signal) descriptor
        multimediaEvent.status
      ⟨JAVACALL_OK, r.blocked_threads, stored ++ unblockCalls r⟩
    else
      ⟨JAVACALL_OK, blocked_threads, stored⟩
  else
    let descriptor := descriptorLine355 multimediaEvent
    let r := eventUnblockMultimediaJavaThread P.sig.NO_SIGNAL P.sig.MEDIA_START_SIGNAL
      P.sig.MEDIA_LONG_MIDI_EVENT_SIGNAL blocked_threads (toUnsigned signal) descriptor
      multimediaEvent.status
    ⟨JAVACALL_OK, r.blocked_threads, unblockCalls r⟩

/-! ## Decoder and dispatch loop -/

/-- What the `switch` of `checkForSystemSignal` leaves behind. -/
structure DecodeResult where
  newSignal : MidpReentryData
  newMidpEvent : MidpEvent
  blocked_threads : List JVMSPI_BlockedThreadInfo
  calls : List ExtCall
  deriving DecidableEq

/-- The inner `switch` of the `MIDP_JC_EVENT_CARDDEVICE` case (lines 514-537). -/
def decodeCarddevice (P : Platform) (event : midp_jc_event_union)
    (pNewSignal : MidpReentryData) : MidpReentryData :=
  match event.carddeviceEvent_eventType with
  | .MIDP_CARDDEVICE_RESET =>
    { waitingFor := P.sig.CARD_READER_DATA_SIGNAL, descriptor := P.SIGNAL_RESET,
      status := P.SIGNAL_RESET, pResult := event.carddeviceEvent_handle }
  | .MIDP_CARDDEVICE_XFER =>
    { waitingFor := P.sig.CARD_READER_DATA_SIGNAL, descriptor := P.SIGNAL_XFER,
      status := P.SIGNAL_XFER, pResult := event.carddeviceEvent_handle }
  | .MIDP_CARDDEVICE_UNLOCK =>
    { waitingFor := P.sig.CARD_READER_DATA_SIGNAL, descriptor := P.SIGNAL_LOCK,
      status := P.SIGNAL_LOCK, pResult := 0 }
  | .other _ => pNewSignal

/-- The `switch (event->eventType)` of `checkForSystemSignal` (lines
405-567).  A `case` inside a disabled `#if` block does not exist, so its tag
takes the `default` branch. -/
def decodeEvent (P : Platform) (event : midp_jc_event_union)
    (pNewSignal : MidpReentryData) (pNewMidpEvent : MidpEvent)
    (blocked_threads : List JVMSPI_BlockedThreadInfo) : DecodeResult :=
  let unchanged : DecodeResult := ⟨pNewSignal, pNewMidpEvent, blocked_threads, []⟩
  match event.eventType with
  | MIDP_JC_EVENT_KEY =>
    ⟨{ pNewSignal with waitingFor := P.sig.UI_SIGNAL },
      ((pNewMidpEvent.write P.slot .type P.evt.MIDP_KEY_EVENT).write P.slot .CHR
        event.keyEvent_key).write P.slot .ACTION event.keyEvent_keyEventType,
      blocked_threads, []⟩
  | MIDP_JC_EVENT_PEN =>
    ⟨{ pNewSignal with waitingFor := P.sig.UI_SIGNAL },
      (((pNewMidpEvent.write P.slot .type P.evt.MIDP_PEN_EVENT).write P.slot .ACTION
        event.penEvent_type).write P.slot .X_POS event.penEvent_x).write P.slot .Y_POS
        event.penEvent_y,
      blocked_threads, []⟩
  | MIDP_JC_EVENT_SOCKET =>
    ⟨{ waitingFor := event.socketEvent_waitingFor, descriptor := event.socketEvent_handle,
       status := event.socketEvent_status, pResult := event.socketEvent_extraData },
      pNewMidpEvent, blocked_threads, []⟩
  | MIDP_JC_EVENT_END =>
    ⟨{ pNewSignal with waitingFor := P.sig.AMS_SIGNAL },
      pNewMidpEvent.write P.slot .type P.evt.SHUTDOWN_EVENT, blocked_threads, []⟩
  | MIDP_JC_EVENT_PAUSE =>
    ⟨{ pNewSignal with waitingFor := P.sig.AMS_SIGNAL },
      pNewMidpEvent.write P.slot .type P.evt.PAUSE_ALL_EVENT, blocked_threads, []⟩
  | MIDP_JC_EVENT_RESUME =>
    ⟨{ pNewSignal with waitingFor := P.sig.AMS_SIGNAL },
      pNewMidpEvent.write P.slot .type P.evt.ACTIVATE_ALL_EVENT, blocked_threads, []⟩
  | MIDP_JC_EVENT_PUSH =>
    ⟨{ pNewSignal with waitingFor := P.sig.PUSH_ALARM_SIGNAL,
                       descriptor := event.pushEvent_alarmHandle },
      pNewMidpEvent, blocked_threads, []⟩
  | MIDP_JC_EVENT_ROTATION =>
    ⟨{ pNewSignal with waitingFor := P.sig.UI_SIGNAL },
      pNewMidpEvent.write P.slot .type P.evt.ROTATION_EVENT, blocked_threads, []⟩
  | JSR75_FC_JC_EVENT_ROOTCHANGED =>
    if P.cfg.ENABLE_JSR_75 then
      ⟨pNewSignal, pNewMidpEvent, blocked_threads, [ExtCall.notifyDisksChanged]⟩
    else unchanged
  | MIDP_JC_EVENT_SMS_INCOMING =>
    if P.cfg.ENABLE_JSR_120 then
      ⟨{ pNewSignal with waitingFor := P.sig.WMA_SMS_READ_SIGNAL,
                         descriptor := event.smsIncomingEvent_stub },
        pNewMidpEvent, blocked_threads, []⟩
    else unchanged
  | MIDP_JC_EVENT_CBS_INCOMING =>
    if P.cfg.ENABLE_JSR_120 then
      ⟨{ pNewSignal with waitingFor := P.sig.WMA_CBS_READ_SIGNAL,
                         descriptor := event.cbsIncomingEvent_stub },
        pNewMidpEvent, blocked_threads, []⟩
    else unchanged
  | MIDP_JC_EVENT_SMS_SENDING_RESULT =>
    if P.cfg.ENABLE_JSR_120 then
      ⟨{ pNewSignal with waitingFor := P.sig.WMA_SMS_WRITE_SIGNAL,
                         descriptor := event.smsSendingResultEvent_handle,
                         status := event.smsSendingResultEvent_result },
        pNewMidpEvent, blocked_threads, []⟩
    else unchanged
  | MIDP_JC_EVENT_MMS_INCOMING =>
    if P.cfg.ENABLE_JSR_205 then
      ⟨{ pNewSignal with waitingFor := P.sig.WMA_MMS_READ_SIGNAL,
                         descriptor := event.mmsIncomingEvent_stub },
        pNewMidpEvent, blocked_threads, []⟩
    else unchanged
  | MIDP_JC_EVENT_MMS_SENDING_RESULT =>
    if P.cfg.ENABLE_JSR_205 then
      ⟨{ pNewSignal with waitingFor := P.sig.WMA_MMS_WRITE_SIGNAL,
                         descriptor := event.mmsSendingResultEvent_handle,
                         status := event.mmsSendingResultEvent_result },
        pNewMidpEvent, blocked_threads, []⟩
    else unchanged
  | MIDP_JC_EVENT_MULTIMEDIA =>
    if P.cfg.ENABLE_JSR_135 then
      let m := midpHandleMultimediaEvent P event.multimediaEvent blocked_threads
      ⟨pNewSignal, pNewMidpEvent, m.blocked_threads, m.calls⟩
    else unchanged
  | MIDP_JC_EVENT_ADVANCED_MULTIMEDIA =>
    if P.cfg.ENABLE_JSR_234 then
      ⟨{ pNewSignal with waitingFor := P.sig.MEDIA_EVENT_SIGNAL,
                         status := P.JAVACALL_OK_value },
        ((((pNewMidpEvent.write P.slot .type P.evt.AMMS_EVENT).write P.slot .MM_PLAYER_ID
          event.multimediaEvent.playerId).write P.slot .MM_DATA
          event.multimediaEvent.data).write P.slot .MM_ISOLATE
          event.multimediaEvent.appId).write P.slot .MM_EVT_TYPE
          event.multimediaEvent.mediaType,
        blocked_threads, []⟩
    else unchanged
  | JSR179_LOCATION_JC_EVENT =>
    if P.cfg.ENABLE_JSR_179 then
      ⟨{ pNewSignal with waitingFor := P.sig.JSR179_LOCATION_SIGNAL,
                         descriptor := event.jsr179LocationEvent_provider,
                         status := event.jsr179LocationEvent_operation_result },
        pNewMidpEvent, blocked_threads, []⟩
    else unchanged
  | MIDP_JC_EVENT_CARDDEVICE =>
    if P.cfg.ENABLE_JSR_177 then
      ⟨decodeCarddevice P event pNewSignal, pNewMidpEvent, blocked_threads, []⟩
    else unchanged
  | MIDP_JC_EVENT_SWITCH_FOREGROUND =>
    if P.cfg.ENABLE_MULTIPLE_ISOLATES then
      ⟨{ pNewSignal with waitingFor := P.sig.AMS_SIGNAL },
        (pNewMidpEvent.write P.slot .type P.evt.SELECT_FOREGROUND_EVENT).write P.slot
          .intParam1 1,
        blocked_threads, []⟩
    else unchanged
  | MIDP_JC_EVENT_SELECT_APP =>
    if P.cfg.ENABLE_MULTIPLE_ISOLATES then
      ⟨{ pNewSignal with waitingFor := P.sig.AMS_SIGNAL },
        (pNewMidpEvent.write P.slot .type P.evt.SELECT_FOREGROUND_EVENT).write P.slot
          .intParam1 0,
        blocked_threads, []⟩
    else unchanged
  | JSR256_JC_EVENT_SENSOR_AVAILABLE =>
    if P.cfg.ENABLE_JSR_256 then
      ⟨{ pNewSignal with waitingFor := P.sig.JSR256_SIGNAL },
        ((pNewMidpEvent.write P.slot .type P.evt.SENSOR_EVENT).write P.slot .intParam1
          event.jsr256SensorAvailable_sensor_type).write P.slot .intParam2
          event.jsr256SensorAvailable_is_available,
        blocked_threads, []⟩
    else unchanged
  | JSR256_JC_EVENT_SENSOR_OPEN_CLOSE =>
    if P.cfg.ENABLE_JSR_256 then
      ⟨{ pNewSignal with waitingFor := P.sig.JSR256_SIGNAL,
                         descriptor := event.jsr256_jc_event_sensor_sensor },
        pNewMidpEvent, blocked_threads, []⟩
    else unchanged
  | other _ => unchanged

/-- The conversion of the `jlong` timeout to `long` (lines 389-395). -/
def timeTowaitInMillisec (timeout : Int) : Int :=
  if timeout > 0x7FFFFFFF then -1
  else if timeout < 0 then -1
  else ((timeout.toNat &&& 0x7FFFFFFF : Nat) : Int)

/-- What `checkForSystemSignal` leaves behind: the return code, the event
buffer, the static receive buffer, the two out-structures, the
blocked-thread array and the external calls made. -/
structure CheckResult where
  result : javacall_result
  buffer : EventBuffer
  binaryBuffer : List UChar
  newSignal : MidpReentryData
  newMidpEvent : MidpEvent
  blocked_threads : List JVMSPI_BlockedThreadInfo
  calls : List ExtCall
  deriving DecidableEq

/-- Embedding of `checkForSystemSignal` (lines 377-571).  `binaryBuffer` is
the function's static receive buffer.  The local `outEventLen` is never read;
it starts as 0 here.  `JAVACALL_SUCCEEDED(res)` is `res == JAVACALL_OK`. -/
def checkForSystemSignal (P : Platform) (buffer : EventBuffer) (binaryBuffer : List UChar)
    (pNewSignal : MidpReentryData) (pNewMidpEvent : MidpEvent)
    (blocked_threads : List JVMSPI_BlockedThreadInfo) (timeout : Int) :
    Option CheckResult :=
  match javacall_event_receive P.MAX_EVENTS buffer (timeTowaitInMillisec timeout)
      binaryBuffer P.BINARY_BUFFER_MAX_LEN 0 with
  | none => none
  | some r =>
    if r.result ≠ JAVACALL_OK then
      some ⟨r.result, r.buffer, r.binaryBuffer, pNewSignal, pNewMidpEvent,
        blocked_threads, []⟩
    else
      let d := decodeEvent P (P.view r.binaryBuffer) pNewSignal pNewMidpEvent blocked_threads
      some ⟨JAVACALL_OK, r.buffer, r.binaryBuffer, d.newSignal, d.newMidpEvent,
        d.blocked_threads, d.calls⟩

/-- What the `switch (newSignal.waitingFor)` of `midp_slavemode_handle_events`
leaves behind. -/
structure DispatchResult where
  blocked_threads : List JVMSPI_BlockedThreadInfo
  calls : List ExtCall
  deriving DecidableEq

/-- The `NETWORK_READ_SIGNAL` case (lines 617-632). -/
def dispatchNetworkRead (P : Platform) (newSignal : MidpReentryData)
    (blocked_threads : List JVMSPI_BlockedThreadInfo) : DispatchResult :=
  let r := eventUnblockJavaThread P.sig.NO_SIGNAL blocked_threads
    (toUnsigned newSignal.waitingFor) newSignal.descriptor newSignal.status
  if r.ret ≠ 0 then
    ⟨r.blocked_threads, unblockCalls r⟩
  else if P.findPushBlockedHandle newSignal.descriptor ≠ 0 then
    ⟨r.blocked_threads, unblockCalls r ++
      [ExtCall.findPushBlockedHandle newSignal.descriptor,
       ExtCall.midp_thread_signal_list P.sig.PUSH_SIGNAL 0 0]⟩
  else if P.cfg.ENABLE_JSR_120 ∨ P.cfg.ENABLE_JSR_205 then
    ⟨r.blocked_threads, unblockCalls r ++
      [ExtCall.findPushBlockedHandle newSignal.descriptor,
       ExtCall.jsr120_check_signal newSignal.waitingFor newSignal.descriptor
         newSignal.status]⟩
  else
    ⟨r.blocked_threads, unblockCalls r ++
      [ExtCall.findPushBlockedHandle newSignal.descriptor]⟩

/-- The `NETWORK_EXCEPTION_SIGNAL` case (lines 644-652). -/
def dispatchNetworkException (P : Platform) (newSignal : MidpReentryData)
    (blocked_threads : List JVMSPI_BlockedThreadInfo) : DispatchResult :=
  let r1 := eventUnblockJavaThread P.sig.NO_SIGNAL blocked_threads
    P.sig.NETWORK_READ_SIGNAL newSignal.descriptor newSignal.status
  let r2 := eventUnblockJavaThread P.sig.NO_SIGNAL r1.blocked_threads
    P.sig.NETWORK_WRITE_SIGNAL newSignal.descriptor newSignal.status
  ⟨r2.blocked_threads, unblockCalls r1 ++ unblockCalls r2⟩

/-- The `switch (newSignal.waitingFor)` of `midp_slavemode_handle_events`
(lines 599-697), case labels tried in source order. -/
def dispatchSignal (P : Platform) (newSignal : MidpReentryData) (newMidpEvent : MidpEvent)
    (blocked_threads : List JVMSPI_BlockedThreadInfo) : DispatchResult :=
  let w := newSignal.waitingFor
  let signalList : DispatchResult :=
    ⟨blocked_threads,
      [ExtCall.midp_thread_signal_list w newSignal.descriptor newSignal.status]⟩
  if P.cfg.ENABLE_JAVA_DEBUGGER ∧ w = P.sig.VM_DEBUG_SIGNAL then
    if P.midp_isDebuggerActive ≠ 0 then
      ⟨blocked_threads, [ExtCall.midp_isDebuggerActive, ExtCall.JVM_ProcessDebuggerCmds]⟩
    else ⟨blocked_threads, [ExtCall.midp_isDebuggerActive]⟩
  else if w = P.sig.AMS_SIGNAL then
    ⟨blocked_threads, [ExtCall.midpStoreEventAndSignalAms newMidpEvent]⟩
  else if w = P.sig.UI_SIGNAL then
    ⟨blocked_threads, [ExtCall.midpStoreEventAndSignalForeground newMidpEvent]⟩
  else if w = P.sig.NETWORK_READ_SIGNAL then
    dispatchNetworkRead P newSignal blocked_threads
  else if w = P.sig.HOST_NAME_LOOKUP_SIGNAL ∨ w = P.sig.NETWORK_WRITE_SIGNAL then
    if P.cfg.ENABLE_JSR_120 ∨ P.cfg.ENABLE_JSR_205 then
      if P.jsr120_check_signal w newSignal.descriptor newSignal.status = 0 then
        ⟨blocked_threads,
          [ExtCall.jsr120_check_signal w newSignal.descriptor newSignal.status,
           ExtCall.midp_thread_signal_list w newSignal.descriptor newSignal.status]⟩
      else
        ⟨blocked_threads,
          [ExtCall.jsr120_check_signal w newSignal.descriptor newSignal.status]⟩
    else signalList
  else if w = P.sig.NETWORK_EXCEPTION_SIGNAL then
    dispatchNetworkException P newSignal blocked_threads
  else if w = P.sig.PUSH_ALARM_SIGNAL then
    if P.findPushTimerBlockedHandle newSignal.descriptor ≠ 0 then
      ⟨blocked_threads,
        [ExtCall.findPushTimerBlockedHandle newSignal.descriptor,
         ExtCall.midp_thread_signal_list P.sig.PUSH_SIGNAL 0 0]⟩
    else
      ⟨blocked_threads, [ExtCall.findPushTimerBlockedHandle newSignal.descriptor]⟩
  else if P.cfg.ENABLE_JSR_179 ∧ w = P.sig.JSR179_LOCATION_SIGNAL then
    ⟨blocked_threads,
      [ExtCall.midp_thread_signal_list P.sig.JSR179_LOCATION_SIGNAL newSignal.descriptor
        newSignal.status]⟩
  else if (P.cfg.ENABLE_JSR_120 ∨ P.cfg.ENABLE_JSR_205)
      ∧ (w = P.sig.WMA_SMS_READ_SIGNAL ∨ w = P.sig.WMA_CBS_READ_SIGNAL
        ∨ w = P.sig.WMA_MMS_READ_SIGNAL ∨ w = P.sig.WMA_SMS_WRITE_SIGNAL
        ∨ w = P.sig.WMA_MMS_WRITE_SIGNAL) then
    ⟨blocked_threads,
      [ExtCall.jsr120_check_signal w newSignal.descriptor newSignal.status]⟩
  else if P.cfg.ENABLE_JSR_177 ∧ w = P.sig.CARD_READER_DATA_SIGNAL then
    signalList
  else if P.cfg.ENABLE_JSR_256 ∧ w = P.sig.JSR256_SIGNAL then
    if newMidpEvent.read .type = P.evt.SENSOR_EVENT then
      ⟨blocked_threads, [ExtCall.StoreMIDPEventInVmThread newMidpEvent (-1)]⟩
    else signalList
  else
    ⟨blocked_threads, []⟩

/-- The static storage the dispatch loop keeps between invocations: the
event buffer, the receive buffer of `checkForSystemSignal`, and `newSignal`
and `newMidpEvent` of `midp_slavemode_handle_events`. -/
structure PortState where
  buffer : EventBuffer
  binaryBuffer : List UChar
  newSignal : MidpReentryData
  newMidpEvent : MidpEvent
  deriving DecidableEq

/-- What `midp_slavemode_handle_events` leaves behind. -/
structure HandleResult where
  ret : Int
  state : PortState
  blocked_threads : List JVMSPI_BlockedThreadInfo
  calls : List ExtCall
  deriving DecidableEq

/-- Embedding of `midp_slavemode_handle_events` (lines 583-702).
`MIDP_EVENT_INITIALIZE(newMidpEvent)` leaves `P.initEvent`. -/
def midp_slavemode_handle_events (P : Platform) (st : PortState)
    (blocked_threads : List JVMSPI_BlockedThreadInfo) (timeout : Int) :
    Option HandleResult :=
  let newSignal : MidpReentryData := { st.newSignal with waitingFor := 0, pResult := 0 }
  let newMidpEvent := P.initEvent
  match checkForSystemSignal P st.buffer st.binaryBuffer newSignal newMidpEvent
      blocked_threads timeout with
  | none => none
  | some c =>
    if c.result = JAVACALL_OK then
      let d := dispatchSignal P c.newSignal c.newMidpEvent c.blocked_threads
      some ⟨0, ⟨c.buffer, c.binaryBuffer, c.newSignal, c.newMidpEvent⟩,
        d.blocked_threads, c.calls ++ d.calls⟩
    else
      some ⟨-1, ⟨c.buffer, c.binaryBuffer, c.newSignal, c.newMidpEvent⟩,
        c.blocked_threads, c.calls⟩

/-- The state at program start: empty event buffer, zeroed statics. -/
def initPortState (P : Platform) : PortState :=
  { buffer := initBuffer P.MAX_EVENTS,
    binaryBuffer := List.replicate P.BINARY_BUFFER_MAX_LEN 0,
    newSignal := ⟨0, 0, 0, 0⟩,
    newMidpEvent := ⟨0, 0, 0, 0, 0, 0, 0, 0, 0, 0, 0, 0⟩ }


/-- The `case` labels of the `switch (newSignal.waitingFor)` of
`midp_slavemode_handle_events` that the build configuration compiles in. -/
def caseLabels (P : Platform) : List Nat :=
  (if P.cfg.ENABLE_JAVA_DEBUGGER then [P.sig.VM_DEBUG_SIGNAL] else []) ++
  [P.sig.AMS_SIGNAL, P.sig.UI_SIGNAL, P.sig.NETWORK_READ_SIGNAL,
    P.sig.HOST_NAME_LOOKUP_SIGNAL, P.sig.NETWORK_WRITE_SIGNAL,
    P.sig.NETWORK_EXCEPTION_SIGNAL, P.sig.PUSH_ALARM_SIGNAL] ++
  (if P.cfg.ENABLE_JSR_179 then [P.sig.JSR179_LOCATION_SIGNAL] else []) ++
  (if P.cfg.ENABLE_JSR_120 ∨ P.cfg.ENABLE_JSR_205 then
    [P.sig.WMA_SMS_READ_SIGNAL, P.sig.WMA_CBS_READ_SIGNAL, P.sig.WMA_MMS_READ_SIGNAL,
      P.sig.WMA_SMS_WRITE_SIGNAL, P.sig.WMA_MMS_WRITE_SIGNAL]
   else []) ++
  (if P.cfg.ENABLE_JSR_177 then [P.sig.CARD_READER_DATA_SIGNAL] else []) ++
  (if P.cfg.ENABLE_JSR_256 then [P.sig.JSR256_SIGNAL] else [])

/-- The tag has a `case` in the `switch (event->eventType)` of
`checkForSystemSignal` under the build configuration; every other tag takes
the `default` branch. -/
def hasCase (P : Platform) : midp_jc_event_type → Bool
  | MIDP_JC_EVENT_KEY => true
  | MIDP_JC_EVENT_PEN => true
  | MIDP_JC_EVENT_SOCKET => true
  | MIDP_JC_EVENT_END => true
  | MIDP_JC_EVENT_PAUSE => true
  | MIDP_JC_EVENT_RESUME => true
  | MIDP_JC_EVENT_PUSH => true
  | MIDP_JC_EVENT_ROTATION => true
  | JSR75_FC_JC_EVENT_ROOTCHANGED => P.cfg.ENABLE_JSR_75
  | MIDP_JC_EVENT_SMS_INCOMING => P.cfg.ENABLE_JSR_120
  | MIDP_JC_EVENT_CBS_INCOMING => P.cfg.ENABLE_JSR_120
  | MIDP_JC_EVENT_SMS_SENDING_RESULT => P.cfg.ENABLE_JSR_120
  | MIDP_JC_EVENT_MMS_INCOMING => P.cfg.ENABLE_JSR_205
  | MIDP_JC_EVENT_MMS_SENDING_RESULT => P.cfg.ENABLE_JSR_205
  | MIDP_JC_EVENT_MULTIMEDIA => true
  | MIDP_JC_EVENT_ADVANCED_MULTIMEDIA => P.cfg.ENABLE_JSR_234
  | JSR179_LOCATION_JC_EVENT => P.cfg.ENABLE_JSR_179
  | MIDP_JC_EVENT_CARDDEVICE => P.cfg.ENABLE_JSR_177
  | MIDP_JC_EVENT_SWITCH_FOREGROUND => P.cfg.ENABLE_MULTIPLE_ISOLATES
  | MIDP_JC_EVENT_SELECT_APP => P.cfg.ENABLE_MULTIPLE_ISOLATES
  | JSR256_JC_EVENT_SENSOR_AVAILABLE => P.cfg.ENABLE_JSR_256
  | JSR256_JC_EVENT_SENSOR_OPEN_CLOSE => P.cfg.ENABLE_JSR_256
  | other _ => false

/-- What `javanotify_inform_event` leaves behind. -/
structure InformResult where
  state : PortState
  blocked_threads : List JVMSPI_BlockedThreadInfo
  calls : List ExtCall
  deriving DecidableEq

/-- Embedding of `javanotify_inform_event` (lines 707-717):
`midp_slavemode_handle_events` is called with timeout 0 for as long as it
returns 0.  `SNI_GetBlockedThreads` is taken to return the blocked-thread
array as the previous invocation left it.  The first argument bounds the
number of invocations; `none` when it is used up. -/
def javanotify_inform_event (P : Platform) :
    Nat → PortState → List JVMSPI_BlockedThreadInfo → Option InformResult
  | 0, _, _ => none
  | fuel + 1, st, blocked_threads =>
    match midp_slavemode_handle_events P st blocked_threads 0 with
    | none => none
    | some h =>
      if h.ret = 0 then
        match javanotify_inform_event P fuel h.state h.blocked_threads with
        | none => none
        | some r => some ⟨r.state, r.blocked_threads, h.calls ++ r.calls⟩
      else
        some ⟨h.state, h.blocked_threads, h.calls⟩

/-- A context waits on the wait-kind `w` and the descriptor `d`. -/
def WaitsOn (w d : Int) (t : JVMSPI_BlockedThreadInfo) : Prop :=
  ∃ p, t.reentry_data = some p ∧ p.waitingFor = w ∧ p.descriptor = d

instance (w d : Int) (t : JVMSPI_BlockedThreadInfo) : Decidable (WaitsOn w d t) := by
  unfold WaitsOn
  cases h : t.reentry_data with
  | none => exact isFalse (by simp)
  | some p =>
    exact decidable_of_iff (p.waitingFor = w ∧ p.descriptor = d) (by simp)

/-- A client step: one record is appended with `javacall_event_send`, then
`midp_slavemode_handle_events` is invoked once. -/
def sendAndHandle (P : Platform) (st : PortState)
    (blocked_threads : List JVMSPI_BlockedThreadInfo) (bytes : List UChar) (len : Int)
    (timeout : Int) : Option HandleResult :=
  match javacall_event_send P.MAX_EVENTS st.buffer bytes len with
  | none => none
  | some (_, s1) => midp_slavemode_handle_events P { st with buffer := s1 } blocked_threads
      timeout

/-- The context at position `i` is the first one in the array that waits on
`(w, d)`. -/
def FirstAt (w d : Int) (threads : List JVMSPI_BlockedThreadInfo) (i : Nat) : Prop :=
  (match threads[i]? with
    | some t => WaitsOn w d t
    | none => False) ∧
  ∀ u ∈ threads.take i, ¬ WaitsOn w d u

instance (w d : Int) (threads : List JVMSPI_BlockedThreadInfo) (i : Nat) :
    Decidable (FirstAt w d threads i) := by
  unfold FirstAt
  cases threads[i]? <;> infer_instance

/-- The context with `status` stored in its reentry data, everything else as
it was. -/
def setStatus (status : Int) (t : JVMSPI_BlockedThreadInfo) : JVMSPI_BlockedThreadInfo :=
  { t with reentry_data := t.reentry_data.map (fun p => { p with status := status }) }


/-! ## A sample platform

Concrete values for the parameters, used to run the definitions on concrete
inputs.  The signal kinds are pairwise distinct with `NO_SIGNAL = 0`, the
event and media types are pairwise distinct, and a record is laid out one
byte per member: byte 0 is the tag and bytes 1 to 5 are the payload members
in declaration order. -/

/-- The tag a sample record carries in byte 0. -/
def sampleTag : Nat → midp_jc_event_type
  | 1 => MIDP_JC_EVENT_KEY
  | 2 => MIDP_JC_EVENT_PEN
  | 3 => MIDP_JC_EVENT_SOCKET
  | 4 => MIDP_JC_EVENT_END
  | 5 => MIDP_JC_EVENT_PAUSE
  | 6 => MIDP_JC_EVENT_RESUME
  | 7 => MIDP_JC_EVENT_PUSH
  | 8 => MIDP_JC_EVENT_ROTATION
  | 9 => JSR75_FC_JC_EVENT_ROOTCHANGED
  | 10 => MIDP_JC_EVENT_SMS_INCOMING
  | 11 => MIDP_JC_EVENT_CBS_INCOMING
  | 12 => MIDP_JC_EVENT_SMS_SENDING_RESULT
  | 13 => MIDP_JC_EVENT_MMS_INCOMING
  | 14 => MIDP_JC_EVENT_MMS_SENDING_RESULT
  | 15 => MIDP_JC_EVENT_MULTIMEDIA
  | 16 => MIDP_JC_EVENT_ADVANCED_MULTIMEDIA
  | 17 => JSR179_LOCATION_JC_EVENT
  | 18 => MIDP_JC_EVENT_CARDDEVICE
  | 19 => MIDP_JC_EVENT_SWITCH_FOREGROUND
  | 20 => MIDP_JC_EVENT_SELECT_APP
  | 21 => JSR256_JC_EVENT_SENSOR_AVAILABLE
  | 22 => JSR256_JC_EVENT_SENSOR_OPEN_CLOSE
  | n => other n

/-- The card-device event kind a sample record carries in byte 1. -/
def sampleCardTag : Nat → carddevice_event_type
  | 1 => .MIDP_CARDDEVICE_RESET
  | 2 => .MIDP_CARDDEVICE_XFER
  | 3 => .MIDP_CARDDEVICE_UNLOCK
  | n => .other n

/-- Byte `i` of a buffer as an `int`. -/
def byteAt (b : List UChar) (i : Nat) : Int := (((b.getD i 0).val : Nat) : Int)

/-- The sample record layout. -/
def sampleView (b : List UChar) : midp_jc_event_union :=
  { eventType := sampleTag (b.getD 0 0).val
    keyEvent_key := byteAt b 1
    keyEvent_keyEventType := byteAt b 2
    penEvent_type := byteAt b 1
    penEvent_x := byteAt b 2
    penEvent_y := byteAt b 3
    socketEvent_waitingFor := byteAt b 1
    socketEvent_handle := byteAt b 2
    socketEvent_status := byteAt b 3
    socketEvent_extraData := (b.getD 4 0).val
    pushEvent_alarmHandle := byteAt b 1
    smsIncomingEvent_stub := byteAt b 1
    cbsIncomingEvent_stub := byteAt b 1
    smsSendingResultEvent_handle := byteAt b 1
    smsSendingResultEvent_result := byteAt b 2
    mmsIncomingEvent_stub := byteAt b 1
    mmsSendingResultEvent_handle := byteAt b 1
    mmsSendingResultEvent_result := byteAt b 2
    multimediaEvent :=
      { mediaType := byteAt b 1, appId := byteAt b 2, playerId := byteAt b 3,
        data := byteAt b 4, status := byteAt b 5 }
    jsr179LocationEvent_provider := byteAt b 1
    jsr179LocationEvent_operation_result := byteAt b 2
    carddeviceEvent_eventType := sampleCardTag (b.getD 1 0).val
    carddeviceEvent_handle := (b.getD 2 0).val
    jsr256SensorAvailable_sensor_type := byteAt b 1
    jsr256SensorAvailable_is_available := byteAt b 2
    jsr256_jc_event_sensor_sensor := byteAt b 1 }

/-- The sample signal kinds. -/
def sampleSignals : SignalTypes :=
  { NO_SIGNAL := 0
    UI_SIGNAL := 1
    NETWORK_READ_SIGNAL := 2
    NETWORK_WRITE_SIGNAL := 3
    NETWORK_EXCEPTION_SIGNAL := 4
    HOST_NAME_LOOKUP_SIGNAL := 5
    AMS_SIGNAL := 6
    PUSH_ALARM_SIGNAL := 7
    PUSH_SIGNAL := 8
    VM_DEBUG_SIGNAL := 9
    JSR179_LOCATION_SIGNAL := 10
    WMA_SMS_READ_SIGNAL := 11
    WMA_CBS_READ_SIGNAL := 12
    WMA_MMS_READ_SIGNAL := 13
    WMA_SMS_WRITE_SIGNAL := 14
    WMA_MMS_WRITE_SIGNAL := 15
    CARD_READER_DATA_SIGNAL := 16
    JSR256_SIGNAL := 17
    MEDIA_EVENT_SIGNAL := 18
    MEDIA_START_SIGNAL := 19
    MEDIA_LONG_MIDI_EVENT_SIGNAL := 25 }

/-- The sample event types. -/
def sampleEvents : EventTypes :=
  { MIDP_KEY_EVENT := 1
    MIDP_PEN_EVENT := 2
    SHUTDOWN_EVENT := 3
    PAUSE_ALL_EVENT := 4
    ACTIVATE_ALL_EVENT := 5
    ROTATION_EVENT := 6
    MM_EOM_EVENT := 7
    MM_DURATION_EVENT := 8
    MM_RECORD_LIMIT_EVENT := 9
    MM_RECORD_ERROR_EVENT := 10
    MM_BUFFERING_START_EVENT := 11
    MM_BUFFERING_STOP_EVENT := 12
    MM_VOLUME_CHANGED_EVENT := 13
    MM_GENERAL_ERROR_EVENT := 14
    AMMS_EVENT := 15
    SELECT_FOREGROUND_EVENT := 16
    SENSOR_EVENT := 17 }

/-- The sample media types. -/
def sampleMedia : MediaTypes :=
  { JAVACALL_EVENT_MEDIA_END_OF_MEDIA := 1
    JAVACALL_EVENT_MEDIA_DURATION_UPDATED := 2
    JAVACALL_EVENT_MEDIA_RECORD_SIZE_LIMIT := 3
    JAVACALL_EVENT_MEDIA_RECORD_ERROR := 4
    JAVACALL_EVENT_MEDIA_BUFFERING_STARTED := 5
    JAVACALL_EVENT_MEDIA_BUFFERING_STOPPED := 6
    JAVACALL_EVENT_MEDIA_VOLUME_CHANGED := 7
    JAVACALL_EVENT_MEDIA_ERROR := 8 }

/-- The sample `MidpEvent` layout: `type` is member 0, `intParam1` to
`intParam3` are members 1 to 3, `ACTION` is `intParam1`, `CHR` and `X_POS`
are `intParam2`, `Y_POS` is `intParam3`, and the multimedia names are
`intParam1` to `intParam4`. -/
def sampleSlot : MidpEventField → Nat
  | .type => 0
  | .ACTION => 1
  | .CHR => 2
  | .X_POS => 2
  | .Y_POS => 3
  | .intParam1 => 1
  | .intParam2 => 2
  | .intParam3 => 3
  | .MM_PLAYER_ID => 1
  | .MM_DATA => 2
  | .MM_ISOLATE => 3
  | .MM_EVT_TYPE => 4

/-- The sample platform: every optional feature compiled in, four event
slots, an eight-byte receive buffer, and external queries that answer 0. -/
def samplePlatform : Platform :=
  { cfg := ⟨true, true, true, true, true, true, true, true, true, true⟩
    sig := sampleSignals
    evt := sampleEvents
    media := sampleMedia
    SIGNAL_RESET := 1
    SIGNAL_XFER := 2
    SIGNAL_LOCK := 3
    JAVACALL_OK_value := 0
    slot := sampleSlot
    initEvent := ⟨0, 0, 0, 0, 0, 0, 0, 0, 0, 0, 0, 0⟩
    MAX_EVENTS := 4
    BINARY_BUFFER_MAX_LEN := 8
    view := sampleView
    findPushBlockedHandle := fun _ => 0
    findPushTimerBlockedHandle := fun _ => 0
    jsr120_check_signal := fun _ _ _ => 0
    midp_isDebuggerActive := 0 }

/-- A sample key record: tag, key code 65, key event type 1. -/
def keyRecord : List UChar := [1, 65, 1]

/-- A sample socket record: tag, wait-kind `NETWORK_READ_SIGNAL`, handle 7,
status 5, extra data 9. -/
def socketRecord : List UChar := [3, 2, 7, 5, 9]

/-- A sample network-exception record for handle 7 with status 5. -/
def exceptionRecord : List UChar := [3, 4, 7, 5, 0]

/-- A sample shutdown record: the tag alone. -/
def endRecord : List UChar := [4]

/-- A sample record whose tag no `case` names. -/
def unknownRecord : List UChar := [99]

/-- A sample incoming-SMS record: tag and stub 9. -/
def smsRecord : List UChar := [10, 9]

/-- The sample port state with `bytes` queued as the only record. -/
def queued (bytes : List UChar) : PortState :=
  { buffer :=
      { eventsArray :=
          [⟨bytes ++ List.replicate (100 - bytes.length) 0, bytes.length⟩, zeroEvent,
            zeroEvent, zeroEvent],
        index := 1, size := 1 },
    binaryBuffer := dest8,
    newSignal := ⟨0, 0, 0, 0⟩,
    newMidpEvent := ⟨0, 0, 0, 0, 0, 0, 0, 0, 0, 0, 0, 0⟩ }


/-! ## Time slice, loop trace and matcher invocations -/

/-- A function `midpTimeSlice` calls on the shutdown path.  `measureStack` is
called with `KNI_FALSE`. -/
inductive TimeSliceCall where
  | measureStack
  | pushcheckinall
  | midpFinalize
  deriving DecidableEq

/-- What `midpTimeSlice` leaves behind: its return value, the local
`toInMillisec` (`none` when no assignment is reached) and the calls made
after `midp_slavemode_time_slice`. -/
structure TimeSliceResult where
  ret : Int
  toInMillisec : Option Int
  calls : List TimeSliceCall
  deriving DecidableEq

/-- Embedding of `midpTimeSlice` (lines 728-749).  `tslice` is the local
`to`, the value `midp_slavemode_time_slice()` returned; `toInMillisec` is the
value assigned, before its conversion to `javacall_time_milliseconds`. -/
def midpTimeSlice (tslice : Int) : TimeSliceResult :=
  if -2 = tslice then
    ⟨tslice, none, [.measureStack, .pushcheckinall, .midpFinalize]⟩
  else if tslice > 0x7FFFFFFF then
    ⟨tslice, some (-1), []⟩
  else if tslice < 0 then
    ⟨tslice, some (-1), []⟩
  else
    ⟨tslice, some ((tslice.toNat &&& 0x7FFFFFFF : Nat) : Int), []⟩

/-- The invocations of `midp_slavemode_handle_events` that the loop of
`javanotify_inform_event` (lines 713-716) makes, in order, each with what it
left behind.  The first argument bounds the number of invocations; `none`
when it is used up. -/
def handleInvocations (P : Platform) :
    Nat → PortState → List JVMSPI_BlockedThreadInfo → Option (List HandleResult)
  | 0, _, _ => none
  | fuel + 1, st, blocked_threads =>
    match midp_slavemode_handle_events P st blocked_threads 0 with
    | none => none
    | some h =>
      if h.ret = 0 then
        match handleInvocations P fuel h.state h.blocked_threads with
        | none => none
        | some rest => some (h :: rest)
      else
        some [h]

/-- The invocations of `eventUnblockMultimediaJavaThread` that
`midpHandleMultimediaEvent` makes (lines 348 and 358), each with its
arguments `waitingFor`, `descriptor` and `status`. -/
def multimediaMatcherCalls (P : Platform) (multimediaEvent : midp_jc_event_multimedia) :
    List (Nat × Int × Int) :=
  let signal : Int := (P.sig.NO_SIGNAL : Int)
  let newMidpEvent := mediaEventType P multimediaEvent.mediaType P.initEvent
  if (P.sig.NO_SIGNAL : Int) = signal then
    let e1 := newMidpEvent.write P.slot .intParam1 multimediaEvent.playerId
    let e2 := e1.write P.slot .intParam2 multimediaEvent.data
    let e3 := e2.write P.slot .intParam3 multimediaEvent.appId
    if P.evt.MM_GENERAL_ERROR_EVENT = e3.read .type
        ∨ P.evt.MM_RECORD_ERROR_EVENT = e3.read .type
        ∨ P.evt.MM_EOM_EVENT = e3.read .type then
      [(toUnsigned signal, descriptorLine347 multimediaEvent, multimediaEvent.status)]
    else []
  else
    [(toUnsigned signal, descriptorLine355 multimediaEvent, multimediaEvent.status)]

/-- The event `midpHandleMultimediaEvent` passes to
`StoreMIDPEventInVmThread` (lines 301-343). -/
def multimediaStoredEvent (P : Platform) (multimediaEvent : midp_jc_event_multimedia) :
    MidpEvent :=
  (((mediaEventType P multimediaEvent.mediaType P.initEvent).write P.slot .intParam1
    multimediaEvent.playerId).write P.slot .intParam2 multimediaEvent.data).write P.slot
    .intParam3 multimediaEvent.appId

/-- A sample end-of-media event: isolate 1, player 2, data 3, status 5. -/
def sampleEndOfMedia : midp_jc_event_multimedia :=
  { mediaType := 1, appId := 1, playerId := 2, data := 3, status := 5 }

/-- A sample duration-update event: isolate 1, player 2, data 3, status 5. -/
def sampleDuration : midp_jc_event_multimedia :=
  { mediaType := 2, appId := 1, playerId := 2, data := 3, status := 5 }

/-- Three blocked contexts: one waiting on `(20, 65538)`, inside the sample
multimedia range, one waiting on `(2, 65538)`, outside it, and one waiting on
`(20, 65539)`. -/
def mediaThreads : List JVMSPI_BlockedThreadInfo :=
  [⟨21, some ⟨2, 65538, 0, 0⟩⟩, ⟨22, some ⟨20, 65538, 0, 0⟩⟩, ⟨23, some ⟨20, 65539, 0, 0⟩⟩]

/-- The sample platform with a push subsystem that reports a blocked handle
for every descriptor. -/
def samplePlatformPush : Platform :=
  { samplePlatform with findPushBlockedHandle := fun _ => 1 }

/-- The sample platform built without JSR 120 and JSR 205. -/
def samplePlatformPlain : Platform :=
  { samplePlatform with
    cfg := ⟨true, false, false, true, true, true, true, true, true, true⟩ }

/-! ## Basic facts about the primitives -/

theorem arrayGet_eq {α : Type} (arr : List α) (i : Int) (h : 0 ≤ i) :
    arrayGet arr i = arr[i.toNat]? := by
  simp [arrayGet, h]

theorem arrayGet_inRange {α : Type} (arr : List α) (i : Int) (h0 : 0 ≤ i)
    (h1 : i < (arr.length : Int)) : ∃ e, arrayGet arr i = some e := by
  have hlt : i.toNat < arr.length := by omega
  exact ⟨arr[i.toNat], by simp [arrayGet, h0, List.getElem?_eq_getElem hlt]⟩

theorem memcpy_eq (dst src : List UChar) (n : Int) (h0 : 0 ≤ n)
    (h1 : n.toNat ≤ dst.length) (h2 : n.toNat ≤ src.length) :
    memcpy dst src n = some (src.take n.toNat ++ dst.drop n.toNat) := by
  simp [memcpy, h0, h1, h2]

theorem memcpy_length (dst src out : List UChar) (n : Int)
    (h : memcpy dst src n = some out) : out.length = dst.length := by
  unfold memcpy at h
  split at h
  · rename_i hc
    obtain ⟨_, h1, h2⟩ := hc
    injection h with h
    subst h
    simp [List.length_take, List.length_drop]
    omega
  · cases h

/-- The successful path of `javacall_event_send`, computed in closed form. -/
theorem javacall_event_send_ok (MAX_EVENTS : Nat) (s : EventBuffer)
    (binaryBuffer : List UChar) (binaryBufferLen : Int) (e : Event)
    (hne : s.size ≠ (MAX_EVENTS : Int)) (hi : 0 ≤ s.index)
    (he : s.eventsArray[s.index.toNat]? = some e)
    (h0 : 0 ≤ binaryBufferLen) (h1 : binaryBufferLen.toNat ≤ e.data.length)
    (h2 : binaryBufferLen.toNat ≤ binaryBuffer.length) :
    javacall_event_send MAX_EVENTS s binaryBuffer binaryBufferLen =
      some (JAVACALL_OK,
        { eventsArray := s.eventsArray.set s.index.toNat
            { data := binaryBuffer.take binaryBufferLen.toNat ++
                        e.data.drop binaryBufferLen.toNat,
              dataLen := binaryBufferLen },
          index := Int.tmod (s.index + 1) (MAX_EVENTS : Int),
          size := s.size + 1 }) := by
  have hlt : s.index.toNat < s.eventsArray.length := by
    rcases Nat.lt_or_ge s.index.toNat s.eventsArray.length with h | h
    · exact h
    · rw [List.getElem?_eq_none h] at he; cases he
  simp [javacall_event_send, hne, storeDataLen, storeData, arrayGet, hi, he,
    List.getElem?_set_self hlt, memcpy, h0, h1, h2, List.set_set]

/-- The full path of `javacall_event_send`. -/
theorem javacall_event_send_full (MAX_EVENTS : Nat) (s : EventBuffer)
    (binaryBuffer : List UChar) (binaryBufferLen : Int)
    (h : s.size = (MAX_EVENTS : Int)) :
    javacall_event_send MAX_EVENTS s binaryBuffer binaryBufferLen =
      some (JAVACALL_FAIL, s) := by
  simp [javacall_event_send, h]

/-! ## The `TooLarge` path of `javacall_event_receive` -/

/-- The `TooLarge` path of `javacall_event_receive` in closed form: the
return code is `JAVACALL_OUT_OF_MEMORY`, `size` is kept, and `index` has
already been moved back by lines 126-131. -/
theorem javacall_event_receive_too_large (MAX_EVENTS : Nat) (s : EventBuffer)
    (t : Int) (buf : List UChar) (maxLen out : Int) (e : Event)
    (hne : s.size ≠ 0)
    (he : arrayGet s.eventsArray (prevIndex MAX_EVENTS s.index) = some e)
    (hbig : e.dataLen > maxLen) :
    javacall_event_receive MAX_EVENTS s t buf maxLen out =
      some ⟨JAVACALL_OUT_OF_MEMORY, buf, 0,
        { s with index := prevIndex MAX_EVENTS s.index }⟩ := by
  unfold prevIndex at he
  simp [javacall_event_receive, hne, prevIndex, he, hbig]

/-- The successful path of `javacall_event_receive` in closed form. -/
theorem javacall_event_receive_ok (MAX_EVENTS : Nat) (s : EventBuffer)
    (t : Int) (buf : List UChar) (maxLen out : Int) (e : Event)
    (hne : s.size ≠ 0)
    (he : arrayGet s.eventsArray (prevIndex MAX_EVENTS s.index) = some e)
    (hfit : e.dataLen ≤ maxLen) (h0 : 0 ≤ e.dataLen)
    (h1 : e.dataLen.toNat ≤ buf.length) (h2 : e.dataLen.toNat ≤ e.data.length) :
    javacall_event_receive MAX_EVENTS s t buf maxLen out =
      some ⟨JAVACALL_OK, e.data.take e.dataLen.toNat ++ buf.drop e.dataLen.toNat,
        e.dataLen,
        { s with index := prevIndex MAX_EVENTS s.index, size := s.size - 1 }⟩ := by
  unfold prevIndex at he
  have hnot : ¬ e.dataLen > maxLen := by omega
  simp [javacall_event_receive, hne, prevIndex, he, hnot, memcpy, h0, h1, h2]

/-- With at least two slots and the cursor in range, a receive that reports
`JAVACALL_OUT_OF_MEMORY` leaves `size` as it was and `index` changed. -/
theorem too_large_moves_index (MAX_EVENTS : Nat) (s : EventBuffer)
    (t : Int) (buf : List UChar) (maxLen out : Int) (r : ReceiveResult)
    (hN : 2 ≤ MAX_EVENTS) (hidx : 0 ≤ s.index ∧ s.index < (MAX_EVENTS : Int))
    (hr : javacall_event_receive MAX_EVENTS s t buf maxLen out = some r)
    (hres : r.result = JAVACALL_OUT_OF_MEMORY) :
    r.buffer.size = s.size ∧ r.buffer.index ≠ s.index := by
  unfold javacall_event_receive at hr
  split at hr
  · injection hr with hr; subst hr; cases hres
  · simp only at hr
    split at hr
    · cases hr
    · split at hr
      · injection hr with hr
        subst hr
        refine ⟨rfl, ?_⟩
        simp only
        split <;> omega
      · split at hr
        · cases hr
        · injection hr with hr; subst hr; cases hres

/-! ## Concrete runs -/

theorem bufAfterA_reached :
    javacall_event_send 4 (initBuffer 4) recA 5 = some (JAVACALL_OK, bufAfterA) := by
  decide

theorem bufAfterBA_reached :
    sendAll 4 (initBuffer 4) [(recB, 1), (recA, 5)] =
      some ([JAVACALL_OK, JAVACALL_OK], bufAfterBA) := by
  decide

/-- C1 (code defect): on the `TooLarge` path the cursor is not preserved.
The buffer holds the single record `recA` (5 bytes, `index = 1`, `size = 1`);
a receive with `binaryBufferMaxLen = 2` returns `JAVACALL_OUT_OF_MEMORY`,
keeps `size = 1`, and leaves `index = 0`. -/
theorem receive_too_large_moves_cursor :
    bufAfterA.index = 1 ∧ bufAfterA.size = 1 ∧
    javacall_event_receive 4 bufAfterA 0 dest8 2 7 =
      some ⟨JAVACALL_OUT_OF_MEMORY, dest8, 0, { bufAfterA with index := 0 }⟩ := by
  decide

/-- C2 (code defect): the retry after `TooLarge` returns another record.
With `recB` then `recA` stored, a receive with `binaryBufferMaxLen = 2`
refuses `recA` (5 bytes); the retry with `binaryBufferMaxLen = 8` succeeds
with length 1 and the byte of `recB`, not with `recA`. -/
theorem retry_after_too_large_returns_other_record :
    javacall_event_receive 4 bufAfterBA 0 dest8 2 7 =
      some ⟨JAVACALL_OUT_OF_MEMORY, dest8, 0, { bufAfterBA with index := 1 }⟩ ∧
    javacall_event_receive 4 { bufAfterBA with index := 1 } 0 dest8 8 0 =
      some ⟨JAVACALL_OK, recB ++ List.replicate 7 0, 1,
        { bufAfterBA with index := 0, size := 1 }⟩ ∧
    (recB ++ List.replicate 7 0 : List UChar).take 1 ≠ recA.take 1 := by
  decide

/-- C3: `javacall_event_send` fails (with `JAVACALL_FAIL`) exactly when
`size = MAX_EVENTS`, and then the state is unchanged; otherwise, for a cursor
inside the array and a record that fits a slot, it returns `JAVACALL_OK`, the
slot at the old cursor holds the given length and bytes, every other slot is
unchanged, the cursor becomes `(index + 1) mod MAX_EVENTS` and `size` grows
by one. -/
theorem javacall_event_send_contract (MAX_EVENTS : Nat) (s : EventBuffer)
    (binaryBuffer : List UChar) (binaryBufferLen : Int)
    (hpre : s.size ≠ (MAX_EVENTS : Int) →
      WellFormed MAX_EVENTS s ∧ (0 ≤ s.index ∧ s.index < (MAX_EVENTS : Int)) ∧
        ValidRecord binaryBuffer binaryBufferLen) :
    ∃ r s1, javacall_event_send MAX_EVENTS s binaryBuffer binaryBufferLen = some (r, s1) ∧
      (r = JAVACALL_FAIL ↔ s.size = (MAX_EVENTS : Int)) ∧
      (s.size = (MAX_EVENTS : Int) → s1 = s) ∧
      (s.size ≠ (MAX_EVENTS : Int) →
        r = JAVACALL_OK ∧
        (∃ e, s1.eventsArray[s.index.toNat]? = some e ∧ e.dataLen = binaryBufferLen ∧
          e.data.take binaryBufferLen.toNat = binaryBuffer.take binaryBufferLen.toNat ∧
          e.data.length = EVENT_DATA_CAPACITY) ∧
        (∀ j, j ≠ s.index.toNat → s1.eventsArray[j]? = s.eventsArray[j]?) ∧
        s1.eventsArray.length = s.eventsArray.length ∧
        s1.index = (s.index + 1) % (MAX_EVENTS : Int) ∧
        s1.size = s.size + 1) := by
  by_cases hfull : s.size = (MAX_EVENTS : Int)
  · exact ⟨JAVACALL_FAIL, s, javacall_event_send_full _ _ _ _ hfull,
      by simp [hfull], fun _ => rfl, fun h => absurd hfull h⟩
  · obtain ⟨⟨hlen, hdata⟩, ⟨hi0, hi1⟩, hv0, hv1, hv2⟩ := hpre hfull
    have hlt : s.index.toNat < s.eventsArray.length := by omega
    have hget : s.eventsArray[s.index.toNat]? = some (s.eventsArray[s.index.toNat]) :=
      List.getElem?_eq_getElem hlt
    have hcap : (s.eventsArray[s.index.toNat]).data.length = EVENT_DATA_CAPACITY :=
      hdata _ (List.getElem_mem hlt)
    have hfit : binaryBufferLen.toNat ≤ (s.eventsArray[s.index.toNat]).data.length := by
      rw [hcap]; omega
    refine ⟨JAVACALL_OK, _, javacall_event_send_ok _ _ _ _ _ hfull hi0 hget hv0 hfit hv2,
      ?_, fun h => absurd h hfull, fun _ => ⟨rfl, ?_, ?_, ?_, ?_, rfl⟩⟩
    · simp [hfull]
    · refine ⟨_, List.getElem?_set_self hlt, rfl, ?_, ?_⟩
      · simp [List.take_append_eq_append_take, List.take_take, hv2]
      · simp [List.length_take, List.length_drop]
        omega
    · intro j hj
      exact List.getElem?_set_ne (Ne.symm hj)
    · simp
    · simp only
      exact Int.tmod_eq_emod (by omega) (by omega)

/-- C3 at a concrete input: `recA` sent to the initial four-slot buffer. -/
theorem javacall_event_send_contract_witness :
    ∃ r s1, javacall_event_send 4 (initBuffer 4) recA 5 = some (r, s1) ∧
      (r = JAVACALL_FAIL ↔ (initBuffer 4).size = ((4 : Nat) : Int)) ∧
      ((initBuffer 4).size = ((4 : Nat) : Int) → s1 = initBuffer 4) ∧
      ((initBuffer 4).size ≠ ((4 : Nat) : Int) →
        r = JAVACALL_OK ∧
        (∃ e, s1.eventsArray[(initBuffer 4).index.toNat]? = some e ∧ e.dataLen = 5 ∧
          e.data.take (5 : Int).toNat = recA.take (5 : Int).toNat ∧
          e.data.length = EVENT_DATA_CAPACITY) ∧
        (∀ j, j ≠ (initBuffer 4).index.toNat →
          s1.eventsArray[j]? = (initBuffer 4).eventsArray[j]?) ∧
        s1.eventsArray.length = (initBuffer 4).eventsArray.length ∧
        s1.index = ((initBuffer 4).index + 1) % ((4 : Nat) : Int) ∧
        s1.size = (initBuffer 4).size + 1) :=
  javacall_event_send_contract 4 (initBuffer 4) recA 5 (fun _ => by decide)

/-- C4: on a buffer with `size = 0`, `javacall_event_receive` returns
`JAVACALL_FAIL` for every argument and leaves `size`, `index`, every slot
and the caller's out-parameters as they were. -/
theorem javacall_event_receive_empty (MAX_EVENTS : Nat) (s : EventBuffer)
    (timeTowaitInMillisec : Int) (binaryBuffer : List UChar)
    (binaryBufferMaxLen outEventLen : Int) (h : s.size = 0) :
    javacall_event_receive MAX_EVENTS s timeTowaitInMillisec binaryBuffer
        binaryBufferMaxLen outEventLen =
      some ⟨JAVACALL_FAIL, binaryBuffer, outEventLen, s⟩ := by
  simp [javacall_event_receive, h]

/-- C4 at a concrete input: the initial four-slot buffer. -/
theorem javacall_event_receive_empty_witness :
    javacall_event_receive 4 (initBuffer 4) 0 dest8 8 7 =
      some ⟨JAVACALL_FAIL, dest8, 7, initBuffer 4⟩ :=
  javacall_event_receive_empty 4 (initBuffer 4) 0 dest8 8 7 (by decide)

/-! ## Last written, first removed -/

theorem prevIndex_inRange (MAX_EVENTS : Nat) (i : Int)
    (h : 0 ≤ i ∧ i < (MAX_EVENTS : Int)) :
    0 ≤ prevIndex MAX_EVENTS i ∧ prevIndex MAX_EVENTS i < (MAX_EVENTS : Int) := by
  unfold prevIndex
  split <;> omega

theorem prevIndex_next (MAX_EVENTS : Nat) (i : Int)
    (h : 0 ≤ i ∧ i < (MAX_EVENTS : Int)) :
    prevIndex MAX_EVENTS (Int.tmod (i + 1) (MAX_EVENTS : Int)) = i := by
  rw [Int.tmod_eq_emod (by omega) (by omega)]
  unfold prevIndex
  by_cases hlast : i + 1 = (MAX_EVENTS : Int)
  · rw [hlast, Int.emod_self]
    simp
    omega
  · have hlt : i + 1 < (MAX_EVENTS : Int) := by omega
    rw [Int.emod_eq_of_lt (by omega) hlt]
    have : i + 1 ≠ 0 := by omega
    simp [this]

theorem next_inRange (MAX_EVENTS : Nat) (i : Int)
    (h : 0 ≤ i ∧ i < (MAX_EVENTS : Int)) :
    0 ≤ Int.tmod (i + 1) (MAX_EVENTS : Int) ∧
      Int.tmod (i + 1) (MAX_EVENTS : Int) < (MAX_EVENTS : Int) := by
  rw [Int.tmod_eq_emod (by omega) (by omega)]
  exact ⟨Int.emod_nonneg _ (by omega), Int.emod_lt_of_pos _ (by omega)⟩

/-- Writing slot `c` does not change what fewer than `MAX_EVENTS` receives
read when they start `j` steps below `c`. -/
theorem liveFrom_set_frame (MAX_EVENTS : Nat) (arr : List Event) (c : Int) (e : Event)
    (hc : 0 ≤ c ∧ c < (MAX_EVENTS : Int)) :
    ∀ (n : Nat) (j p : Int), 0 ≤ j → j + n < (MAX_EVENTS : Int) →
      p = (if j ≤ c then c - j else c - j + (MAX_EVENTS : Int)) →
      liveFrom MAX_EVENTS (arr.set c.toNat e) p n = liveFrom MAX_EVENTS arr p n := by
  intro n
  induction n with
  | zero => intro j p _ _ _; rfl
  | succ n ih =>
    intro j p hj hjn hp
    have hprev : prevIndex MAX_EVENTS p =
        (if j + 1 ≤ c then c - (j + 1) else c - (j + 1) + (MAX_EVENTS : Int)) := by
      unfold prevIndex
      subst hp
      split_ifs <;> omega
    have hne : prevIndex MAX_EVENTS p ≠ c := by
      rw [hprev]; split_ifs <;> omega
    have h0 : 0 ≤ prevIndex MAX_EVENTS p := by
      rw [hprev]; split_ifs <;> omega
    have hget : arrayGet (arr.set c.toNat e) (prevIndex MAX_EVENTS p) =
        arrayGet arr (prevIndex MAX_EVENTS p) := by
      rw [arrayGet_eq _ _ h0, arrayGet_eq _ _ h0]
      apply List.getElem?_set_ne
      omega
    simp only [liveFrom, hget]
    rw [ih (j + 1) (prevIndex MAX_EVENTS p) (by omega) (by push_cast at hjn ⊢; omega) hprev]

theorem sendAll_append (MAX_EVENTS : Nat) (rs : List (List UChar × Int))
    (r : List UChar × Int) :
    ∀ (s s1 : EventBuffer) (cs : List javacall_result) (c : javacall_result)
      (s2 : EventBuffer),
      sendAll MAX_EVENTS s rs = some (cs, s1) →
      javacall_event_send MAX_EVENTS s1 r.1 r.2 = some (c, s2) →
      sendAll MAX_EVENTS s (rs ++ [r]) = some (cs ++ [c], s2) := by
  induction rs with
  | nil =>
    intro s s1 cs c s2 h1 h2
    simp only [sendAll] at h1
    injection h1 with h1
    injection h1 with hcs hs
    subst hcs; subst hs
    simp [sendAll, h2]
  | cons a rs ih =>
    intro s s1 cs c s2 h1 h2
    simp only [sendAll] at h1
    cases ha : javacall_event_send MAX_EVENTS s a.1 a.2 with
    | none => simp [ha] at h1
    | some pa =>
      obtain ⟨ca, sa⟩ := pa
      simp only [ha] at h1
      cases hrest : sendAll MAX_EVENTS sa rs with
      | none => simp [hrest] at h1
      | some pr =>
        obtain ⟨cr, sr⟩ := pr
        simp only [hrest] at h1
        injection h1 with h1
        injection h1 with hcs hs
        subst hcs; subst hs
        have := ih sa sr cr c s2 hrest h2
        simp [sendAll, ha, this]

theorem arrayGet_mem {α : Type} (arr : List α) (i : Int) (e : α)
    (h : arrayGet arr i = some e) : e ∈ arr := by
  unfold arrayGet at h
  split at h
  · exact List.getElem?_mem h
  · cases h

/-- After the records `rs` have been sent to a buffer with room for them,
the slots below the cursor hold them, last sent first. -/
theorem sendAll_live (MAX_EVENTS : Nat) (s : EventBuffer)
    (hwf : WellFormed MAX_EVENTS s)
    (hidx : 0 ≤ s.index ∧ s.index < (MAX_EVENTS : Int)) (hsz : 0 ≤ s.size)
    (rs : List (List UChar × Int)) :
    s.size + rs.length ≤ (MAX_EVENTS : Int) →
    (∀ r ∈ rs, ValidRecord r.1 r.2) →
    ∃ (s1 : EventBuffer) (es : List Event), sendAll MAX_EVENTS s rs = some (List.replicate rs.length JAVACALL_OK, s1) ∧
      WellFormed MAX_EVENTS s1 ∧
      (0 ≤ s1.index ∧ s1.index < (MAX_EVENTS : Int)) ∧
      s1.size = s.size + rs.length ∧
      (prevIndex MAX_EVENTS)^[rs.length] s1.index = s.index ∧
      liveFrom MAX_EVENTS s1.eventsArray s1.index rs.length = es.map some ∧
      es.map recordOf = rs.reverse.map sentRecord := by
  induction rs using List.reverseRecOn with
  | nil =>
    intro _ _
    exact ⟨s, [], rfl, hwf, hidx, by simp, rfl, rfl, rfl⟩
  | append_singleton rs r ih =>
    intro hroom hvalid
    have hlen : (rs ++ [r]).length = rs.length + 1 := by simp
    rw [hlen] at hroom ⊢
    push_cast at hroom
    obtain ⟨s1, es, hsend, hwf1, hidx1, hsz1, hiter, hlive, hrec⟩ :=
      ih (by omega) (fun x hx => hvalid x (List.mem_append_left _ hx))
    obtain ⟨hv0, hv1, hv2⟩ := hvalid r (by simp)
    obtain ⟨hlen1, hdata1⟩ := hwf1
    have hlt : s1.index.toNat < s1.eventsArray.length := by omega
    have hget : s1.eventsArray[s1.index.toNat]? = some (s1.eventsArray[s1.index.toNat]) :=
      List.getElem?_eq_getElem hlt
    have hcap : (s1.eventsArray[s1.index.toNat]).data.length = EVENT_DATA_CAPACITY :=
      hdata1 _ (List.getElem_mem hlt)
    have hcapv : EVENT_DATA_CAPACITY = 100 := rfl
    have hfit : r.2.toNat ≤ (s1.eventsArray[s1.index.toNat]).data.length := by
      rw [hcap]; omega
    have hnf : s1.size ≠ (MAX_EVENTS : Int) := by omega
    have hone := javacall_event_send_ok MAX_EVENTS s1 r.1 r.2 _ hnf hidx1.1 hget hv0 hfit hv2
    have hall := sendAll_append MAX_EVENTS rs r s s1 _ _ _ hsend hone
    have hrep : List.replicate rs.length JAVACALL_OK ++ [JAVACALL_OK] =
        List.replicate (rs.length + 1) JAVACALL_OK := by
      rw [List.replicate_succ']
    rw [hrep] at hall
    refine ⟨_, ⟨r.1.take r.2.toNat ++ (s1.eventsArray[s1.index.toNat]).data.drop r.2.toNat,
      r.2⟩ :: es, hall, ⟨?_, ?_⟩, next_inRange _ _ hidx1, ?_, ?_, ?_, ?_⟩
    · simp [hlen1]
    · intro e he
      rcases List.mem_or_eq_of_mem_set he with h | h
      · exact hdata1 e h
      · subst h
        simp [List.length_take, List.length_drop]
        omega
    · simp only; omega
    · simp only
      rw [Function.iterate_succ_apply, prevIndex_next _ _ hidx1]
      exact hiter
    · simp only [liveFrom, prevIndex_next _ _ hidx1, List.map_cons]
      rw [arrayGet_eq _ _ hidx1.1, List.getElem?_set_self hlt]
      rw [liveFrom_set_frame MAX_EVENTS _ s1.index _ hidx1 rs.length 0 s1.index
        (le_refl _) (by omega) (by simp [hidx1.1]), hlive]
    · simp only [List.map_cons, List.reverse_append, List.reverse_cons, List.reverse_nil,
        List.nil_append, List.singleton_append, hrec]
      congr 1
      simp [recordOf, sentRecord, List.take_append_eq_append_take, List.take_take, hv2]

/-- A run of `k` receives on a buffer whose `k` slots below the cursor hold
records that fit the destination returns those records in that order. -/
theorem receiveAll_live (MAX_EVENTS : Nat) (t maxLen : Int) :
    ∀ (k : Nat) (s : EventBuffer) (buf : List UChar) (out : Int) (es : List Event),
      WellFormed MAX_EVENTS s →
      (k : Int) ≤ s.size →
      maxLen ≤ (buf.length : Int) →
      liveFrom MAX_EVENTS s.eventsArray s.index k = es.map some →
      (∀ e ∈ es, 0 ≤ e.dataLen ∧ e.dataLen ≤ (EVENT_DATA_CAPACITY : Int) ∧
        e.dataLen ≤ maxLen) →
      ∃ s2, receiveAll MAX_EVENTS s t buf maxLen out k =
          some (es.map (fun e => (JAVACALL_OK, recordOf e)), s2) ∧
        s2.size = s.size - k ∧
        s2.index = (prevIndex MAX_EVENTS)^[k] s.index := by
  intro k
  induction k with
  | zero =>
    intro s buf out es _ _ _ hlive _
    cases es with
    | nil => exact ⟨s, rfl, by simp, rfl⟩
    | cons e es => simp [liveFrom] at hlive
  | succ k ih =>
    intro s buf out es hwf hsz hbuf hlive hes
    cases es with
    | nil => simp [liveFrom] at hlive
    | cons e es =>
      simp only [liveFrom, List.map_cons, List.cons.injEq] at hlive
      obtain ⟨hget, hrest⟩ := hlive
      obtain ⟨h0, h100, hmax⟩ := hes e (by simp)
      have hcap : e.data.length = EVENT_DATA_CAPACITY := hwf.2 e (arrayGet_mem _ _ _ hget)
      have hcapv : EVENT_DATA_CAPACITY = 100 := rfl
      push_cast at hsz
      have hne : s.size ≠ 0 := by omega
      have hone := javacall_event_receive_ok MAX_EVENTS s t buf maxLen out e hne hget hmax h0
        (by omega) (by omega)
      obtain ⟨s2, hrun, hsz2, hidx2⟩ :=
        ih { s with index := prevIndex MAX_EVENTS s.index, size := s.size - 1 }
          (e.data.take e.dataLen.toNat ++ buf.drop e.dataLen.toNat) e.dataLen es
          hwf (by simp only; omega)
          (by simp [List.length_take, List.length_drop]; omega)
          hrest (fun x hx => hes x (List.mem_cons_of_mem _ hx))
      refine ⟨s2, ?_, ?_, ?_⟩
      · simp only [receiveAll, hone, hrun, List.map_cons]
        congr 3
        simp only [observed, recordOf]
        rw [List.take_left' (by simp [List.length_take]; omega)]
      · rw [hsz2]; push_cast; omega
      · rw [hidx2, Function.iterate_succ_apply]

/-- C5: removal is last written, first removed.  In a well-formed buffer
with the cursor in range: (1) if `size < MAX_EVENTS`, sending a record that
fits the destination and receiving at once succeeds, shows the caller exactly
that record (same bytes, same length) and restores `size` and `index`;
(2) records sent one after another while there is room (in particular up to
`MAX_EVENTS` of them to an empty buffer) are received in the reverse of the
order they were sent in, after which `size` and `index` are as before. -/
theorem send_receive_last_in_first_out (MAX_EVENTS : Nat) (s : EventBuffer)
    (t : Int) (buf : List UChar) (maxLen out : Int)
    (hwf : WellFormed MAX_EVENTS s) (hinv : BufferInv MAX_EVENTS s)
    (hbuf : maxLen ≤ (buf.length : Int)) :
    (∀ (bytes : List UChar) (len : Int), s.size < (MAX_EVENTS : Int) →
      ValidRecord bytes len → len ≤ maxLen →
      ∃ s1 r, javacall_event_send MAX_EVENTS s bytes len = some (JAVACALL_OK, s1) ∧
        javacall_event_receive MAX_EVENTS s1 t buf maxLen out = some r ∧
        observed r = (JAVACALL_OK, sentRecord (bytes, len)) ∧
        r.buffer.size = s.size ∧ r.buffer.index = s.index) ∧
    (∀ rs : List (List UChar × Int), s.size + rs.length ≤ (MAX_EVENTS : Int) →
      (∀ r ∈ rs, ValidRecord r.1 r.2 ∧ r.2 ≤ maxLen) →
      ∃ s1 s2, sendAll MAX_EVENTS s rs = some (List.replicate rs.length JAVACALL_OK, s1) ∧
        receiveAll MAX_EVENTS s1 t buf maxLen out rs.length =
          some (rs.reverse.map (fun r => (JAVACALL_OK, sentRecord r)), s2) ∧
        s2.size = s.size ∧ s2.index = s.index) := by
  obtain ⟨hs0, hs1, hi0, hi1⟩ := hinv
  have hcapv : EVENT_DATA_CAPACITY = 100 := rfl
  constructor
  · intro bytes len hroom ⟨hv0, hv1, hv2⟩ hfit
    obtain ⟨hlen, hdata⟩ := hwf
    have hlt : s.index.toNat < s.eventsArray.length := by omega
    have hget : s.eventsArray[s.index.toNat]? = some (s.eventsArray[s.index.toNat]) :=
      List.getElem?_eq_getElem hlt
    have hcap : (s.eventsArray[s.index.toNat]).data.length = EVENT_DATA_CAPACITY :=
      hdata _ (List.getElem_mem hlt)
    have hsend := javacall_event_send_ok MAX_EVENTS s bytes len _ (by omega) hi0 hget hv0
      (by rw [hcap]; omega) hv2
    have hgot : arrayGet
        (s.eventsArray.set s.index.toNat
          ⟨bytes.take len.toNat ++ (s.eventsArray[s.index.toNat]).data.drop len.toNat, len⟩)
        (prevIndex MAX_EVENTS (Int.tmod (s.index + 1) (MAX_EVENTS : Int))) =
        some ⟨bytes.take len.toNat ++ (s.eventsArray[s.index.toNat]).data.drop len.toNat,
          len⟩ := by
      rw [prevIndex_next _ _ ⟨hi0, hi1⟩, arrayGet_eq _ _ hi0, List.getElem?_set_self hlt]
    have hrecv := javacall_event_receive_ok MAX_EVENTS
      { eventsArray := s.eventsArray.set s.index.toNat
          ⟨bytes.take len.toNat ++ (s.eventsArray[s.index.toNat]).data.drop len.toNat, len⟩,
        index := Int.tmod (s.index + 1) (MAX_EVENTS : Int), size := s.size + 1 }
      t buf maxLen out _ (by simp only; omega) hgot hfit hv0 (by simp only; omega)
      (by simp [List.length_take, List.length_drop]; omega)
    refine ⟨_, _, hsend, hrecv, ?_, by simp, by simp only [prevIndex_next _ _ ⟨hi0, hi1⟩]⟩
    simp only [observed, sentRecord]
    rw [List.take_left' (by simp [List.length_take]; omega)]
    rw [List.take_left' (by simp [List.length_take]; omega)]
  · intro rs hroom hvalid
    obtain ⟨s1, es, hsend, hwf1, hidx1, hsz1, hiter, hlive, hrec⟩ :=
      sendAll_live MAX_EVENTS s hwf ⟨hi0, hi1⟩ hs0 rs hroom (fun r hr => (hvalid r hr).1)
    have hes : ∀ e ∈ es, 0 ≤ e.dataLen ∧ e.dataLen ≤ (EVENT_DATA_CAPACITY : Int) ∧
        e.dataLen ≤ maxLen := by
      intro e he
      have hmem : recordOf e ∈ rs.reverse.map sentRecord := by
        rw [← hrec]; exact List.mem_map_of_mem _ he
      obtain ⟨r, hr, hreq⟩ := List.mem_map.mp hmem
      have hrmem : r ∈ rs := List.mem_reverse.mp hr
      obtain ⟨⟨hv0, hv1, _⟩, hfit⟩ := hvalid r hrmem
      have hd : e.dataLen = r.2 := by
        have := congrArg Prod.snd hreq
        simpa [recordOf, sentRecord] using this.symm
      rw [hd]; exact ⟨hv0, hv1, hfit⟩
    obtain ⟨s2, hrun, hsz2, hidx2⟩ :=
      receiveAll_live MAX_EVENTS t maxLen rs.length s1 buf out es hwf1 (by omega) hbuf
        hlive hes
    refine ⟨s1, s2, hsend, ?_, by omega, by rw [hidx2, hiter]⟩
    rw [hrun]
    congr 2
    have hl : es.map (fun e => (JAVACALL_OK, recordOf e)) =
        (es.map recordOf).map (fun p => (JAVACALL_OK, p)) := by
      rw [List.map_map]; rfl
    have hr : rs.reverse.map (fun r => (JAVACALL_OK, sentRecord r)) =
        (rs.reverse.map sentRecord).map (fun p => (JAVACALL_OK, p)) := by
      rw [List.map_map]; rfl
    rw [hl, hr, hrec]

/-- C5 at a concrete input: on the initial four-slot buffer, `recA` sent
and received at once, and `recB`, `recA` sent and then received. -/
theorem send_receive_last_in_first_out_witness :
    (∀ (bytes : List UChar) (len : Int), (initBuffer 4).size < ((4 : Nat) : Int) →
      ValidRecord bytes len → len ≤ 8 →
      ∃ s1 r, javacall_event_send 4 (initBuffer 4) bytes len = some (JAVACALL_OK, s1) ∧
        javacall_event_receive 4 s1 0 dest8 8 7 = some r ∧
        observed r = (JAVACALL_OK, sentRecord (bytes, len)) ∧
        r.buffer.size = (initBuffer 4).size ∧ r.buffer.index = (initBuffer 4).index) ∧
    (∀ rs : List (List UChar × Int), (initBuffer 4).size + rs.length ≤ ((4 : Nat) : Int) →
      (∀ r ∈ rs, ValidRecord r.1 r.2 ∧ r.2 ≤ 8) →
      ∃ s1 s2, sendAll 4 (initBuffer 4) rs = some (List.replicate rs.length JAVACALL_OK, s1) ∧
        receiveAll 4 s1 0 dest8 8 7 rs.length =
          some (rs.reverse.map (fun r => (JAVACALL_OK, sentRecord r)), s2) ∧
        s2.size = (initBuffer 4).size ∧ s2.index = (initBuffer 4).index) :=
  send_receive_last_in_first_out 4 (initBuffer 4) 0 dest8 8 7 (by decide) (by decide)
    (by decide)

/-- The order of removal on a concrete run: `recB` then `recA` are sent to
the initial four-slot buffer, and two receives return `recA` then `recB`. -/
theorem last_in_first_out_run :
    receiveAll 4 bufAfterBA 0 dest8 8 7 2 =
      some ([(JAVACALL_OK, recA, 5), (JAVACALL_OK, recB, 1)],
        { bufAfterBA with index := 0, size := 0 }) := by
  decide

/-- C6 (code defect): after a `TooLarge` refusal the buffer hands out
records that were not appended, and hands out a record twice.
(1) Only `recA` (5 bytes) is sent to the initial four-slot buffer; a receive
with `binaryBufferMaxLen = 2` is refused, and the next receive, with room for
8 bytes, succeeds with length 0 from a slot that was never written, leaving
`size = 0` with `recA` never returned.
(2) `recA` then `recB` are sent to the initial two-slot buffer; three receives
with `binaryBufferMaxLen = 2` return `recB`, a refusal, and `recB` again. -/
theorem receive_after_too_large_returns_wrong_records :
    (javacall_event_receive 4 bufAfterA 0 dest8 2 7 =
        some ⟨JAVACALL_OUT_OF_MEMORY, dest8, 0, { bufAfterA with index := 0 }⟩ ∧
      javacall_event_receive 4 { bufAfterA with index := 0 } 0 dest8 8 0 =
        some ⟨JAVACALL_OK, dest8, 0, { bufAfterA with index := 3, size := 0 }⟩) ∧
    (∃ s, sendAll 2 (initBuffer 2) [(recA, 5), (recB, 1)] =
        some ([JAVACALL_OK, JAVACALL_OK], s) ∧
      (receiveAll 2 s 0 dest8 2 7 3).map Prod.fst =
        some [(JAVACALL_OK, recB, 1), (JAVACALL_OUT_OF_MEMORY, [], 0),
          (JAVACALL_OK, recB, 1)]) := by
  refine ⟨by decide, ?_⟩
  exact ⟨{ eventsArray := [⟨recA ++ List.replicate 95 0, 5⟩, ⟨recB ++ List.replicate 99 0, 1⟩],
           index := 0, size := 2 }, by decide, by decide⟩

/-! ## Bounds invariant -/

theorem javacall_event_send_cases (MAX_EVENTS : Nat) (s s1 : EventBuffer)
    (b : List UChar) (n : Int) (r : javacall_result)
    (h : javacall_event_send MAX_EVENTS s b n = some (r, s1)) :
    (r = JAVACALL_FAIL ∧ s1 = s) ∨
    (r = JAVACALL_OK ∧ s.size ≠ (MAX_EVENTS : Int) ∧
      s1.index = Int.tmod (s.index + 1) (MAX_EVENTS : Int) ∧ s1.size = s.size + 1) := by
  unfold javacall_event_send at h
  split at h
  · injection h with h; injection h with h1 h2
    exact Or.inl ⟨h1.symm, h2.symm⟩
  · rename_i hne
    split at h
    · cases h
    · rename_i sa hsa
      split at h
      · cases h
      · rename_i sb hsb
        injection h with h; injection h with h1 h2
        have ha : sa.index = s.index ∧ sa.size = s.size := by
          unfold storeDataLen at hsa
          split at hsa
          · cases hsa
          · injection hsa with hsa; subst hsa; exact ⟨rfl, rfl⟩
        have hb : sb.index = sa.index ∧ sb.size = sa.size := by
          unfold storeData at hsb
          split at hsb
          · cases hsb
          · split at hsb
            · cases hsb
            · injection hsb with hsb; subst hsb; exact ⟨rfl, rfl⟩
        subst h2
        refine Or.inr ⟨h1.symm, hne, ?_, ?_⟩
        · simp only; rw [hb.1, ha.1]
        · simp only; rw [hb.2, ha.2]

theorem javacall_event_receive_cases (MAX_EVENTS : Nat) (s : EventBuffer)
    (t : Int) (buf : List UChar) (maxLen out : Int) (r : ReceiveResult)
    (h : javacall_event_receive MAX_EVENTS s t buf maxLen out = some r) :
    (r.result = JAVACALL_FAIL ∧ r.buffer = s ∧ s.size = 0) ∨
    (s.size ≠ 0 ∧ r.buffer.index = prevIndex MAX_EVENTS s.index ∧
      r.buffer.eventsArray = s.eventsArray ∧
      ((r.result = JAVACALL_OUT_OF_MEMORY ∧ r.buffer.size = s.size) ∨
       (r.result = JAVACALL_OK ∧ r.buffer.size = s.size - 1))) := by
  unfold javacall_event_receive at h
  split at h
  · rename_i h0
    injection h with h; subst h
    exact Or.inl ⟨rfl, rfl, h0⟩
  · rename_i hne
    simp only at h
    split at h
    · cases h
    · split at h
      · injection h with h; subst h
        exact Or.inr ⟨hne, rfl, rfl, Or.inl ⟨rfl, rfl⟩⟩
      · split at h
        · cases h
        · injection h with h; subst h
          exact Or.inr ⟨hne, rfl, rfl, Or.inr ⟨rfl, rfl⟩⟩

/-- Every call that returns keeps the bounds on `size` and `index`. -/
theorem stepOp_keeps_bounds (MAX_EVENTS : Nat) (s s1 : EventBuffer) (op : BufferOp)
    (hinv : BufferInv MAX_EVENTS s) (h : stepOp MAX_EVENTS s op = some s1) :
    BufferInv MAX_EVENTS s1 := by
  obtain ⟨hs0, hs1, hi0, hi1⟩ := hinv
  cases op with
  | send b n =>
    simp only [stepOp, Option.map_eq_some'] at h
    obtain ⟨⟨r, s2⟩, hsend, heq⟩ := h
    simp only at heq
    subst heq
    rcases javacall_event_send_cases _ _ _ _ _ _ hsend with ⟨_, hsame⟩ | ⟨_, hne, hidx, hsz⟩
    · subst hsame; exact ⟨hs0, hs1, hi0, hi1⟩
    · have hrange := next_inRange MAX_EVENTS s.index ⟨hi0, hi1⟩
      refine ⟨by omega, by omega, ?_, ?_⟩
      · rw [hidx]; exact hrange.1
      · rw [hidx]; exact hrange.2
  | receive t b m o =>
    simp only [stepOp, Option.map_eq_some'] at h
    obtain ⟨r, hrecv, heq⟩ := h
    subst heq
    rcases javacall_event_receive_cases _ _ _ _ _ _ _ hrecv with
      ⟨_, hsame, _⟩ | ⟨hne, hidx, _, hsz⟩
    · rw [hsame]; exact ⟨hs0, hs1, hi0, hi1⟩
    · have hrange := prevIndex_inRange MAX_EVENTS s.index ⟨hi0, hi1⟩
      refine ⟨?_, ?_, by rw [hidx]; exact hrange.1, by rw [hidx]; exact hrange.2⟩
      · rcases hsz with ⟨_, h⟩ | ⟨_, h⟩ <;> omega
      · rcases hsz with ⟨_, h⟩ | ⟨_, h⟩ <;> omega

theorem runOps_keeps_bounds (MAX_EVENTS : Nat) (ops : List BufferOp) :
    ∀ s s1 : EventBuffer, BufferInv MAX_EVENTS s →
      runOps MAX_EVENTS s ops = some s1 → BufferInv MAX_EVENTS s1 := by
  induction ops with
  | nil =>
    intro s s1 hinv h
    simp only [runOps] at h
    injection h with h
    subst h; exact hinv
  | cons op ops ih =>
    intro s s1 hinv h
    simp only [runOps] at h
    cases hstep : stepOp MAX_EVENTS s op with
    | none => simp [hstep] at h
    | some s2 =>
      simp only [hstep] at h
      exact ih s2 s1 (stepOp_keeps_bounds _ _ _ _ hinv hstep) h

/-- A call whose arguments are in bounds returns, and keeps the storage
shape, the bounds and the record sizes. -/
theorem stepOp_defined (MAX_EVENTS : Nat) (s : EventBuffer) (op : BufferOp)
    (hwf : WellFormed MAX_EVENTS s) (hinv : BufferInv MAX_EVENTS s)
    (hrec : RecordsInv s) (hop : OpInBounds op) :
    ∃ s1, stepOp MAX_EVENTS s op = some s1 ∧ WellFormed MAX_EVENTS s1 ∧ RecordsInv s1 := by
  obtain ⟨hlen, hdata⟩ := hwf
  obtain ⟨hs0, hs1, hi0, hi1⟩ := hinv
  have hcapv : EVENT_DATA_CAPACITY = 100 := rfl
  cases op with
  | send b n =>
    obtain ⟨hv0, hv1, hv2⟩ := hop
    by_cases hfull : s.size = (MAX_EVENTS : Int)
    · exact ⟨s, by simp [stepOp, javacall_event_send_full _ _ _ _ hfull], ⟨hlen, hdata⟩, hrec⟩
    · have hlt : s.index.toNat < s.eventsArray.length := by omega
      have hget : s.eventsArray[s.index.toNat]? = some (s.eventsArray[s.index.toNat]) :=
        List.getElem?_eq_getElem hlt
      have hcap : (s.eventsArray[s.index.toNat]).data.length = EVENT_DATA_CAPACITY :=
        hdata _ (List.getElem_mem hlt)
      have hsend := javacall_event_send_ok MAX_EVENTS s b n _ hfull hi0 hget hv0
        (by rw [hcap]; omega) hv2
      refine ⟨_, by simp only [stepOp, hsend, Option.map_some']; rfl, ⟨?_, ?_⟩, ?_⟩
      · simp [hlen]
      · intro e he
        rcases List.mem_or_eq_of_mem_set he with h | h
        · exact hdata e h
        · subst h
          simp [List.length_take, List.length_drop]
          omega
      · intro e he
        rcases List.mem_or_eq_of_mem_set he with h | h
        · exact hrec e h
        · subst h; exact ⟨hv0, hv1⟩
  | receive t b m o =>
    by_cases hempty : s.size = 0
    · exact ⟨s, by simp [stepOp, javacall_event_receive, hempty],
        ⟨hlen, hdata⟩, hrec⟩
    · have hrange := prevIndex_inRange MAX_EVENTS s.index ⟨hi0, hi1⟩
      obtain ⟨e, he⟩ := arrayGet_inRange s.eventsArray (prevIndex MAX_EVENTS s.index)
        hrange.1 (by omega)
      have hmem := arrayGet_mem _ _ _ he
      obtain ⟨hd0, hd1⟩ := hrec e hmem
      have hcap := hdata e hmem
      by_cases hbig : e.dataLen > m
      · have hcall := javacall_event_receive_too_large MAX_EVENTS s t b m o e hempty he hbig
        refine ⟨{ s with index := prevIndex MAX_EVENTS s.index }, ?_, ⟨hlen, hdata⟩, hrec⟩
        simp only [stepOp, hcall, Option.map_some']
      · have hop1 : m ≤ (b.length : Int) := hop
        have hcall := javacall_event_receive_ok MAX_EVENTS s t b m o e hempty he
          (by omega) hd0 (by omega) (by omega)
        refine ⟨{ s with index := prevIndex MAX_EVENTS s.index, size := s.size - 1 }, ?_,
          ⟨hlen, hdata⟩, hrec⟩
        simp only [stepOp, hcall, Option.map_some']

theorem runOps_defined (MAX_EVENTS : Nat) (ops : List BufferOp) :
    ∀ s : EventBuffer, WellFormed MAX_EVENTS s → BufferInv MAX_EVENTS s → RecordsInv s →
      (∀ op ∈ ops, OpInBounds op) →
      ∃ s1, runOps MAX_EVENTS s ops = some s1 ∧ BufferInv MAX_EVENTS s1 := by
  induction ops with
  | nil => intro s _ hinv _ _; exact ⟨s, rfl, hinv⟩
  | cons op ops ih =>
    intro s hwf hinv hrec hops
    obtain ⟨s1, hstep, hwf1, hrec1⟩ :=
      stepOp_defined MAX_EVENTS s op hwf hinv hrec (hops op (by simp))
    obtain ⟨s2, hrun, hinv2⟩ := ih s1 hwf1 (stepOp_keeps_bounds _ _ _ _ hinv hstep) hrec1
      (fun x hx => hops x (List.mem_cons_of_mem _ hx))
    exact ⟨s2, by simp only [runOps, hstep, hrun], hinv2⟩

theorem initBuffer_wellFormed (MAX_EVENTS : Nat) :
    WellFormed MAX_EVENTS (initBuffer MAX_EVENTS) ∧ RecordsInv (initBuffer MAX_EVENTS) := by
  refine ⟨⟨by simp [initBuffer], ?_⟩, ?_⟩
  · intro e he
    rw [List.eq_of_mem_replicate he]
    simp [zeroEvent]
  · intro e he
    rw [List.eq_of_mem_replicate he]
    simp [zeroEvent]

/-- C7: starting from the initial state (`index = 0`, `size = 0`), after
every sequence of `javacall_event_send` and `javacall_event_receive` calls,
whatever they return and whatever their arguments, `0 ≤ size ≤ MAX_EVENTS`
and `0 ≤ index < MAX_EVENTS`; and every sequence of calls whose arguments are
in bounds does run to such a state. -/
theorem buffer_bounds_invariant (MAX_EVENTS : Nat) (hN : 0 < MAX_EVENTS) :
    (∀ (ops : List BufferOp) (s : EventBuffer),
      runOps MAX_EVENTS (initBuffer MAX_EVENTS) ops = some s → BufferInv MAX_EVENTS s) ∧
    (∀ ops : List BufferOp, (∀ op ∈ ops, OpInBounds op) →
      ∃ s, runOps MAX_EVENTS (initBuffer MAX_EVENTS) ops = some s ∧
        BufferInv MAX_EVENTS s) := by
  have hinit : BufferInv MAX_EVENTS (initBuffer MAX_EVENTS) := by
    refine ⟨le_refl _, ?_, le_refl _, ?_⟩
    · simp [initBuffer]
    · simp only [initBuffer]; omega
  obtain ⟨hwf, hrec⟩ := initBuffer_wellFormed MAX_EVENTS
  exact ⟨fun ops s h => runOps_keeps_bounds MAX_EVENTS ops _ s hinit h,
    fun ops hops => runOps_defined MAX_EVENTS ops _ hwf hinit hrec hops⟩

/-- C7 at a concrete capacity: four slots. -/
theorem buffer_bounds_invariant_witness :
    (∀ (ops : List BufferOp) (s : EventBuffer),
      runOps 4 (initBuffer 4) ops = some s → BufferInv 4 s) ∧
    (∀ ops : List BufferOp, (∀ op ∈ ops, OpInBounds op) →
      ∃ s, runOps 4 (initBuffer 4) ops = some s ∧ BufferInv 4 s) :=
  buffer_bounds_invariant 4 (by decide)

/-- A concrete run that wraps the cursor: five sends to four slots (the
fifth is refused), a refused receive and two successful ones. -/
theorem runOps_example :
    runOps 4 (initBuffer 4)
      [.send recA 5, .send recB 1, .send recA 5, .send recB 1, .send recA 5,
       .receive 0 dest8 0 7, .receive 0 dest8 8 7, .receive 0 dest8 8 7] =
      some { eventsArray :=
               [⟨recA ++ List.replicate 95 0, 5⟩, ⟨recB ++ List.replicate 99 0, 1⟩,
                ⟨recA ++ List.replicate 95 0, 5⟩, ⟨recB ++ List.replicate 99 0, 1⟩],
             index := 1, size := 2 } := by
  decide

/-- C8 (code defect): `javacall_event_send` does not check the length
against the 100-byte slot.  On the initial four-slot buffer a call with
`binaryBufferLen = 101` is not refused: line 162 stores `dataLen = 101` in
slot 0 and the `memcpy` of line 163 then writes 101 bytes into `data[100]`,
outside the array. -/
theorem javacall_event_send_oversize :
    (storeDataLen (initBuffer 4) 101).map (fun s => s.eventsArray.map Event.dataLen) =
      some [101, 0, 0, 0] ∧
    memcpy zeroEvent.data (List.replicate 101 7) 101 = none ∧
    javacall_event_send 4 (initBuffer 4) (List.replicate 101 7) 101 = none ∧
    javacall_event_send 4 (initBuffer 4) (List.replicate 101 7) 101 ≠
      some (JAVACALL_FAIL, initBuffer 4) := by
  decide

/-! ## Properties of the blocked-thread matcher -/

/-- The outcome of `eventUnblockJavaThread` in closed form: either no
context is selected and nothing happens, or the first selected context is
the one written to and unblocked. -/
theorem eventUnblockJavaThread_shape (NO_SIGNAL waitingFor : Nat) (descriptor status : Int) :
    ∀ threads : List JVMSPI_BlockedThreadInfo,
      (eventUnblockJavaThread NO_SIGNAL threads waitingFor descriptor status =
          ⟨0, threads, []⟩ ∧
        ∀ t ∈ threads, ¬ Selects NO_SIGNAL waitingFor descriptor t) ∨
      (∃ pre t p post, threads = pre ++ t :: post ∧
        (∀ u ∈ pre, ¬ Selects NO_SIGNAL waitingFor descriptor u) ∧
        t.reentry_data = some p ∧ p.descriptor = descriptor ∧
        (p.waitingFor = castSignalType waitingFor ∨ waitingFor = NO_SIGNAL) ∧
        eventUnblockJavaThread NO_SIGNAL threads waitingFor descriptor status =
          ⟨1, pre ++ { t with reentry_data := some (wokenData waitingFor status p) } :: post,
            [t.thread_id]⟩) := by
  intro threads
  induction threads with
  | nil => exact Or.inl ⟨rfl, fun t ht => (by cases ht)⟩
  | cons t rest ih =>
    have hskip : ¬ Selects NO_SIGNAL waitingFor descriptor t →
        eventUnblockJavaThread NO_SIGNAL (t :: rest) waitingFor descriptor status =
          ⟨(eventUnblockJavaThread NO_SIGNAL rest waitingFor descriptor status).ret,
            t :: (eventUnblockJavaThread NO_SIGNAL rest waitingFor descriptor status).blocked_threads,
            (eventUnblockJavaThread NO_SIGNAL rest waitingFor descriptor status).unblocked⟩ := by
      intro hno
      cases hrd : t.reentry_data with
      | none => simp [eventUnblockJavaThread, hrd]
      | some p =>
        have h1 : ¬ (p.descriptor = descriptor ∧ p.waitingFor = castSignalType waitingFor) :=
          fun h => hno ⟨p, hrd, h.1, Or.inl h.2⟩
        have h2 : ¬ (waitingFor = NO_SIGNAL ∧ p.descriptor = descriptor) :=
          fun h => hno ⟨p, hrd, h.2, Or.inr h.1⟩
        simp [eventUnblockJavaThread, hrd, h1, h2]
    by_cases hsel : Selects NO_SIGNAL waitingFor descriptor t
    · obtain ⟨p, hrd, hd, hw⟩ := hsel
      refine Or.inr ⟨[], t, p, rest, rfl, fun u hu => (by cases hu), hrd, hd, hw, ?_⟩
      by_cases hexact : p.waitingFor = castSignalType waitingFor
      · simp [eventUnblockJavaThread, hrd, hd, hexact, wokenData]
      · have hno : waitingFor = NO_SIGNAL := hw.resolve_left hexact
        rw [hno] at hexact
        simp [eventUnblockJavaThread, hrd, hd, hexact, hno, wokenData]
    · rcases ih with ⟨hrest, hnone⟩ | ⟨pre, u, p, post, hsplit, hpre, hrd, hd, hw, hrest⟩
      · refine Or.inl ⟨?_, ?_⟩
        · rw [hskip hsel, hrest]
        · intro x hx
          rcases List.mem_cons.mp hx with h | h
          · rw [h]; exact hsel
          · exact hnone x h
      · refine Or.inr ⟨t :: pre, u, p, post, (by rw [hsplit]; rfl), ?_, hrd, hd, hw, ?_⟩
        · intro x hx
          rcases List.mem_cons.mp hx with h | h
          · rw [h]; exact hsel
          · exact hpre x h
        · rw [hskip hsel, hrest]; rfl

/-- C9: exact match, first match wins.  For a signal whose wait-kind is
not `NO_SIGNAL`, `eventUnblockJavaThread` returns 1 exactly when some context
of the list has non-null reentry data whose descriptor is the signal's and
whose `waitingFor` is the signal's wait-kind (as the code compares it, after
the cast to `midpSignalType`); and when it returns 1, the context that gets
the status and is unblocked is the first such context in list order. -/
theorem eventUnblockJavaThread_exact_first (NO_SIGNAL waitingFor : Nat)
    (descriptor status : Int) (threads : List JVMSPI_BlockedThreadInfo)
    (hw : waitingFor ≠ NO_SIGNAL) :
    ((eventUnblockJavaThread NO_SIGNAL threads waitingFor descriptor status).ret = 1 ↔
      ∃ t ∈ threads, ExactMatch waitingFor descriptor t) ∧
    ((eventUnblockJavaThread NO_SIGNAL threads waitingFor descriptor status).ret = 1 →
      ∃ pre t p post, threads = pre ++ t :: post ∧
        (∀ u ∈ pre, ¬ ExactMatch waitingFor descriptor u) ∧
        t.reentry_data = some p ∧ p.descriptor = descriptor ∧
        p.waitingFor = castSignalType waitingFor ∧
        eventUnblockJavaThread NO_SIGNAL threads waitingFor descriptor status =
          ⟨1, pre ++ { t with reentry_data := some { p with status := status } } :: post,
            [t.thread_id]⟩) := by
  have hiff : ∀ u, Selects NO_SIGNAL waitingFor descriptor u ↔
      ExactMatch waitingFor descriptor u := by
    intro u
    constructor
    · rintro ⟨p, hrd, hd, hx⟩
      exact ⟨p, hrd, hd, hx.resolve_right hw⟩
    · rintro ⟨p, hrd, hd, hx⟩
      exact ⟨p, hrd, hd, Or.inl hx⟩
  rcases eventUnblockJavaThread_shape NO_SIGNAL waitingFor descriptor status threads with
    ⟨hres, hnone⟩ | ⟨pre, t, p, post, hsplit, hpre, hrd, hd, hx, hres⟩
  · refine ⟨⟨fun h => ?_, fun ⟨t, ht, hm⟩ => absurd ((hiff t).mpr hm) (hnone t ht)⟩,
      fun h => ?_⟩
    · rw [hres] at h; cases h
    · rw [hres] at h; cases h
  · have hexact : p.waitingFor = castSignalType waitingFor := hx.resolve_right hw
    have hwoken : wokenData waitingFor status p = { p with status := status } := by
      simp [wokenData, hexact]
    rw [hwoken] at hres
    refine ⟨⟨fun _ => ⟨t, (by rw [hsplit]; simp), p, hrd, hd, hexact⟩, fun _ => (by rw [hres])⟩,
      fun _ => ⟨pre, t, p, post, hsplit, fun u hu hm => hpre u hu ((hiff u).mpr hm), hrd, hd,
        hexact, hres⟩⟩

/-- C9 at a concrete input: signal `(3, 7)` with status 5 on `sampleThreads`,
with `NO_SIGNAL = 0`. -/
theorem eventUnblockJavaThread_exact_first_witness :
    ((eventUnblockJavaThread 0 sampleThreads 3 7 5).ret = 1 ↔
      ∃ t ∈ sampleThreads, ExactMatch 3 7 t) ∧
    ((eventUnblockJavaThread 0 sampleThreads 3 7 5).ret = 1 →
      ∃ pre t p post, sampleThreads = pre ++ t :: post ∧
        (∀ u ∈ pre, ¬ ExactMatch 3 7 u) ∧
        t.reentry_data = some p ∧ p.descriptor = 7 ∧
        p.waitingFor = castSignalType 3 ∧
        eventUnblockJavaThread 0 sampleThreads 3 7 5 =
          ⟨1, pre ++ { t with reentry_data := some { p with status := 5 } } :: post,
            [t.thread_id]⟩) :=
  eventUnblockJavaThread_exact_first 0 3 7 5 sampleThreads (by decide)

/-- The exact match on `sampleThreads`, evaluated: of the two contexts
waiting on `(3, 7)` the first (thread 12) gets status 5 and is unblocked. -/
theorem eventUnblockJavaThread_exact_run :
    eventUnblockJavaThread 0 sampleThreads 3 7 5 =
      ⟨1, [⟨10, none⟩, ⟨11, some ⟨2, 7, 0, 0⟩⟩, ⟨12, some ⟨3, 7, 5, 0⟩⟩,
            ⟨13, some ⟨3, 7, 0, 0⟩⟩], [12]⟩ := by
  decide

/-- C10: one matcher call wakes at most one context.  For every list and
every signal, `eventUnblockJavaThread` returns 0 or 1 and calls
`midp_thread_unblock` at most once; when it returns 1 it calls it exactly
once, for one context of the list, and every other entry of the list is
unchanged; when it returns 0 the list is unchanged and nothing is unblocked. -/
theorem eventUnblockJavaThread_wakes_one (NO_SIGNAL waitingFor : Nat)
    (descriptor status : Int) (threads : List JVMSPI_BlockedThreadInfo) :
    ((eventUnblockJavaThread NO_SIGNAL threads waitingFor descriptor status).ret = 0 ∨
      (eventUnblockJavaThread NO_SIGNAL threads waitingFor descriptor status).ret = 1) ∧
    (eventUnblockJavaThread NO_SIGNAL threads waitingFor descriptor status).unblocked.length ≤ 1 ∧
    ((eventUnblockJavaThread NO_SIGNAL threads waitingFor descriptor status).ret = 1 →
      ∃ pre t post woken, threads = pre ++ t :: post ∧
        (eventUnblockJavaThread NO_SIGNAL threads waitingFor descriptor status).blocked_threads =
          pre ++ woken :: post ∧
        woken.thread_id = t.thread_id ∧
        (eventUnblockJavaThread NO_SIGNAL threads waitingFor descriptor status).unblocked =
          [t.thread_id]) ∧
    ((eventUnblockJavaThread NO_SIGNAL threads waitingFor descriptor status).ret = 0 →
      (eventUnblockJavaThread NO_SIGNAL threads waitingFor descriptor status).blocked_threads =
          threads ∧
        (eventUnblockJavaThread NO_SIGNAL threads waitingFor descriptor status).unblocked =
          []) := by
  rcases eventUnblockJavaThread_shape NO_SIGNAL waitingFor descriptor status threads with
    ⟨hres, _⟩ | ⟨pre, t, p, post, hsplit, _, _, _, _, hres⟩
  · rw [hres]
    exact ⟨Or.inl rfl, (by simp), fun h => (by cases h), fun _ => ⟨rfl, rfl⟩⟩
  · rw [hres]
    exact ⟨Or.inr rfl, (by simp), fun _ => ⟨pre, t, post, _, hsplit, rfl, rfl, rfl⟩,
      fun h => (by cases h)⟩

/-- The wildcard match on `sampleThreads`, evaluated with `NO_SIGNAL = 0`:
three contexts have descriptor 7, and only the first of them (thread 11) is
written to and unblocked. -/
theorem eventUnblockJavaThread_wildcard_run :
    eventUnblockJavaThread 0 sampleThreads 0 7 5 =
      ⟨1, [⟨10, none⟩, ⟨11, some ⟨-1, 7, 5, 0⟩⟩, ⟨12, some ⟨3, 7, 0, 0⟩⟩,
            ⟨13, some ⟨3, 7, 0, 0⟩⟩], [11]⟩ := by
  decide

/-! ## Wildcard match -/

/-- C11 (as stated, fails): a wildcard call (`NO_SIGNAL = 0`) on a single
context that waits on `(0, 7)` returns 1 and gives it status 5 through the
exact-match branch, which leaves its `waitingFor` at 0; so the woken context
does not end with `waitingFor = -1`. -/
theorem eventUnblockJavaThread_wildcard_unmarked :
    eventUnblockJavaThread 0 [⟨11, some ⟨0, 7, 0, 0⟩⟩] 0 7 5 =
      ⟨1, [⟨11, some ⟨0, 7, 5, 0⟩⟩], [11]⟩ ∧
    ¬ (∀ t ∈ (eventUnblockJavaThread 0 [⟨11, some ⟨0, 7, 0, 0⟩⟩] 0 7 5).blocked_threads,
        t.thread_id ∈ (eventUnblockJavaThread 0 [⟨11, some ⟨0, 7, 0, 0⟩⟩] 0 7 5).unblocked →
        ∀ p, t.reentry_data = some p → p.waitingFor = -1) := by
  decide

/-- C11 (amended): for a signal whose wait-kind is `NO_SIGNAL`,
`eventUnblockJavaThread` matches on descriptor alone: it returns 1 exactly
when some context has non-null reentry data with the signal's descriptor,
whatever its `waitingFor`; the context it wakes is the first such context,
which gets the signal's status, and whose `waitingFor` becomes `-1` unless it
was already waiting on `NO_SIGNAL` itself, in which case the exact-match
branch wakes it and leaves `waitingFor` as it was. -/
theorem eventUnblockJavaThread_wildcard (NO_SIGNAL : Nat) (descriptor status : Int)
    (threads : List JVMSPI_BlockedThreadInfo) :
    ((eventUnblockJavaThread NO_SIGNAL threads NO_SIGNAL descriptor status).ret = 1 ↔
      ∃ t ∈ threads, ∃ p, t.reentry_data = some p ∧ p.descriptor = descriptor) ∧
    ((eventUnblockJavaThread NO_SIGNAL threads NO_SIGNAL descriptor status).ret = 1 →
      ∃ pre t p post, threads = pre ++ t :: post ∧
        (∀ u ∈ pre, ∀ q, u.reentry_data = some q → q.descriptor ≠ descriptor) ∧
        t.reentry_data = some p ∧ p.descriptor = descriptor ∧
        eventUnblockJavaThread NO_SIGNAL threads NO_SIGNAL descriptor status =
          ⟨1, pre ++ (⟨t.thread_id, some
                ⟨if p.waitingFor = castSignalType NO_SIGNAL then p.waitingFor else -1,
                  p.descriptor, status, p.pResult⟩⟩ : JVMSPI_BlockedThreadInfo) :: post,
            [t.thread_id]⟩) := by
  have hiff : ∀ u, Selects NO_SIGNAL NO_SIGNAL descriptor u ↔
      ∃ q, u.reentry_data = some q ∧ q.descriptor = descriptor := by
    intro u
    constructor
    · rintro ⟨q, hrd, hd, _⟩
      exact ⟨q, hrd, hd⟩
    · rintro ⟨q, hrd, hd⟩
      exact ⟨q, hrd, hd, Or.inr rfl⟩
  rcases eventUnblockJavaThread_shape NO_SIGNAL NO_SIGNAL descriptor status threads with
    ⟨hres, hnone⟩ | ⟨pre, t, p, post, hsplit, hpre, hrd, hd, _, hres⟩
  · refine ⟨⟨fun h => ?_, fun ⟨t, ht, hm⟩ => absurd ((hiff t).mpr hm) (hnone t ht)⟩,
      fun h => ?_⟩
    · rw [hres] at h; cases h
    · rw [hres] at h; cases h
  · have hwoken : ({ t with reentry_data := some (wokenData NO_SIGNAL status p) } :
          JVMSPI_BlockedThreadInfo) =
        ⟨t.thread_id, some
          ⟨if p.waitingFor = castSignalType NO_SIGNAL then p.waitingFor else -1,
            p.descriptor, status, p.pResult⟩⟩ := by
      unfold wokenData
      split <;> rfl
    rw [hwoken] at hres
    refine ⟨⟨fun _ => ⟨t, (by rw [hsplit]; simp), p, hrd, hd⟩, fun _ => (by rw [hres])⟩,
      fun _ => ⟨pre, t, p, post, hsplit, ?_, hrd, hd, hres⟩⟩
    intro u hu q hq hqd
    exact hpre u hu ((hiff u).mpr ⟨q, hq, hqd⟩)

/-- C12 (code defect): a context consumed by a wildcard match is matched
again by the next wildcard call.  With `NO_SIGNAL = 0`, a wildcard call for
descriptor 7 wakes the context waiting on `(2, 7)` and sets its `waitingFor`
to `-1`; a second wildcard call for descriptor 7 on the resulting list
returns 1 and unblocks the same thread again. -/
theorem eventUnblockJavaThread_consumed_matched_again :
    eventUnblockJavaThread 0 [⟨11, some ⟨2, 7, 0, 0⟩⟩] 0 7 5 =
      ⟨1, [⟨11, some ⟨-1, 7, 5, 0⟩⟩], [11]⟩ ∧
    eventUnblockJavaThread 0 [⟨11, some ⟨-1, 7, 5, 0⟩⟩] 0 7 6 =
      ⟨1, [⟨11, some ⟨-1, 7, 6, 0⟩⟩], [11]⟩ := by
  decide

/-- What the sentinel does achieve: a context whose `waitingFor` is `-1` is
not selected by a call whose wait-kind is neither `NO_SIGNAL` nor the
pattern `0xFFFFFFFF`. -/
theorem consumed_not_selected_by_exact (NO_SIGNAL waitingFor : Nat) (descriptor : Int)
    (t : JVMSPI_BlockedThreadInfo) (p : MidpReentryData)
    (hrd : t.reentry_data = some p) (hp : p.waitingFor = -1)
    (hw : waitingFor ≠ NO_SIGNAL) (hsmall : waitingFor < 2 ^ 32 - 1) :
    ¬ Selects NO_SIGNAL waitingFor descriptor t := by
  rintro ⟨q, hq, _, hsel⟩
  rw [hrd] at hq
  injection hq with hq
  subst hq
  rcases hsel with h | h
  · rw [hp] at h
    unfold castSignalType at h
    split at h <;> omega
  · exact hw h


/-! ## Range match -/

/-- The two outcomes of a multimedia matcher run: no context qualifies and
nothing changes, or the first qualifying context gets the status and is the
only one unblocked. -/
theorem eventUnblockMultimediaJavaThread_shape (NO_SIGNAL lo hi waitingFor : Nat)
    (descriptor status : Int) :
    ∀ threads : List JVMSPI_BlockedThreadInfo,
      (eventUnblockMultimediaJavaThread NO_SIGNAL lo hi threads waitingFor descriptor status =
          ⟨0, threads, []⟩ ∧
        ∀ t ∈ threads, ¬ RangeMatch NO_SIGNAL lo hi waitingFor descriptor t) ∨
      (∃ pre t p post, threads = pre ++ t :: post ∧
        (∀ u ∈ pre, ¬ RangeMatch NO_SIGNAL lo hi waitingFor descriptor u) ∧
        t.reentry_data = some p ∧ RangeMatch NO_SIGNAL lo hi waitingFor descriptor t ∧
        eventUnblockMultimediaJavaThread NO_SIGNAL lo hi threads waitingFor descriptor status =
          ⟨1, pre ++ (⟨t.thread_id, some ⟨p.waitingFor, p.descriptor, status, p.pResult⟩⟩ :
              JVMSPI_BlockedThreadInfo) :: post,
            [t.thread_id]⟩) := by
  intro threads
  induction threads with
  | nil => exact Or.inl ⟨rfl, fun t ht => (by cases ht)⟩
  | cons t rest ih =>
    have hskip : ¬ RangeMatch NO_SIGNAL lo hi waitingFor descriptor t →
        eventUnblockMultimediaJavaThread NO_SIGNAL lo hi (t :: rest) waitingFor descriptor
            status =
          ⟨(eventUnblockMultimediaJavaThread NO_SIGNAL lo hi rest waitingFor descriptor
              status).ret,
            t :: (eventUnblockMultimediaJavaThread NO_SIGNAL lo hi rest waitingFor descriptor
              status).blocked_threads,
            (eventUnblockMultimediaJavaThread NO_SIGNAL lo hi rest waitingFor descriptor
              status).unblocked⟩ := by
      intro hno
      cases hrd : t.reentry_data with
      | none => simp [eventUnblockMultimediaJavaThread, hrd]
      | some p =>
        have hc : ¬ (p.descriptor = descriptor
            ∧ (p.waitingFor = castSignalType waitingFor ∨ NO_SIGNAL = waitingFor)
            ∧ p.waitingFor ≥ (lo : Int) ∧ p.waitingFor ≤ (hi : Int)) := by
          rintro ⟨h1, h2, h3, h4⟩
          exact hno ⟨p, hrd, h1, h2, h3, h4⟩
        simp only [eventUnblockMultimediaJavaThread, hrd, if_neg hc]
    by_cases hsel : RangeMatch NO_SIGNAL lo hi waitingFor descriptor t
    · right
      obtain ⟨p, hrd, h1, h2, h3, h4⟩ := hsel
      refine ⟨[], t, p, rest, rfl, fun u hu => (by cases hu), hrd,
        ⟨p, hrd, h1, h2, h3, h4⟩, ?_⟩
      have hc : (p.descriptor = descriptor
            ∧ (p.waitingFor = castSignalType waitingFor ∨ NO_SIGNAL = waitingFor)
            ∧ p.waitingFor ≥ (lo : Int) ∧ p.waitingFor ≤ (hi : Int)) := ⟨h1, h2, h3, h4⟩
      simp only [eventUnblockMultimediaJavaThread, hrd, if_pos hc, List.nil_append]
    · rw [hskip hsel]
      rcases ih with ⟨hres, hnone⟩ | ⟨pre, u, p, post, hsplit, hpre, hrd, hm, hres⟩
      · left
        rw [hres]
        refine ⟨rfl, ?_⟩
        intro v hv
        rcases List.mem_cons.mp hv with h | h
        · rw [h]; exact hsel
        · exact hnone v h
      · right
        refine ⟨t :: pre, u, p, post, (by rw [hsplit]; rfl), ?_, hrd, hm, ?_⟩
        · intro v hv
          rcases List.mem_cons.mp hv with h | h
          · rw [h]; exact hsel
          · exact hpre v h
        · rw [hres]; rfl

/-- C13: `eventUnblockMultimediaJavaThread` returns 1 exactly when some
context has non-null reentry data whose descriptor is the signal's, whose
`waitingFor` is the signal's wait-kind or the signal's wait-kind is
`NO_SIGNAL`, and whose `waitingFor` lies in
`[MEDIA_START_SIGNAL, MEDIA_LONG_MIDI_EVENT_SIGNAL]`.  When it returns 1 the
first such context in list order gets the signal's status and is the only one
unblocked, its `waitingFor` (and descriptor and result) are as before, and
every other context is unchanged; otherwise it returns 0 and nothing
changes. -/
theorem eventUnblockMultimediaJavaThread_range_match
    (NO_SIGNAL MEDIA_START_SIGNAL MEDIA_LONG_MIDI_EVENT_SIGNAL waitingFor : Nat)
    (descriptor status : Int) (threads : List JVMSPI_BlockedThreadInfo) :
    ((eventUnblockMultimediaJavaThread NO_SIGNAL MEDIA_START_SIGNAL
        MEDIA_LONG_MIDI_EVENT_SIGNAL threads waitingFor descriptor status).ret = 1 ↔
      ∃ t ∈ threads, ∃ p, t.reentry_data = some p ∧ p.descriptor = descriptor ∧
        (p.waitingFor = castSignalType waitingFor ∨ NO_SIGNAL = waitingFor) ∧
        (MEDIA_START_SIGNAL : Int) ≤ p.waitingFor ∧
        p.waitingFor ≤ (MEDIA_LONG_MIDI_EVENT_SIGNAL : Int)) ∧
    ((eventUnblockMultimediaJavaThread NO_SIGNAL MEDIA_START_SIGNAL
        MEDIA_LONG_MIDI_EVENT_SIGNAL threads waitingFor descriptor status).ret = 1 →
      ∃ pre t p post, threads = pre ++ t :: post ∧
        (∀ u ∈ pre, ¬ RangeMatch NO_SIGNAL MEDIA_START_SIGNAL MEDIA_LONG_MIDI_EVENT_SIGNAL
          waitingFor descriptor u) ∧
        t.reentry_data = some p ∧
        RangeMatch NO_SIGNAL MEDIA_START_SIGNAL MEDIA_LONG_MIDI_EVENT_SIGNAL
          waitingFor descriptor t ∧
        eventUnblockMultimediaJavaThread NO_SIGNAL MEDIA_START_SIGNAL
            MEDIA_LONG_MIDI_EVENT_SIGNAL threads waitingFor descriptor status =
          ⟨1, pre ++ (⟨t.thread_id, some ⟨p.waitingFor, p.descriptor, status, p.pResult⟩⟩ :
              JVMSPI_BlockedThreadInfo) :: post,
            [t.thread_id]⟩) ∧
    ((eventUnblockMultimediaJavaThread NO_SIGNAL MEDIA_START_SIGNAL
        MEDIA_LONG_MIDI_EVENT_SIGNAL threads waitingFor descriptor status).ret ≠ 1 →
      eventUnblockMultimediaJavaThread NO_SIGNAL MEDIA_START_SIGNAL
          MEDIA_LONG_MIDI_EVENT_SIGNAL threads waitingFor descriptor status =
        ⟨0, threads, []⟩) := by
  rcases eventUnblockMultimediaJavaThread_shape NO_SIGNAL MEDIA_START_SIGNAL
      MEDIA_LONG_MIDI_EVENT_SIGNAL waitingFor descriptor status threads with
    ⟨hres, hnone⟩ | ⟨pre, t, p, post, hsplit, hpre, hrd, hm, hres⟩
  · refine ⟨⟨fun h => ?_, fun ⟨t, ht, hm⟩ => absurd hm (hnone t ht)⟩, fun h => ?_,
      fun _ => hres⟩
    · rw [hres] at h; cases h
    · rw [hres] at h; cases h
  · refine ⟨⟨fun _ => ⟨t, (by rw [hsplit]; simp), hm⟩, fun _ => (by rw [hres])⟩,
      fun _ => ⟨pre, t, p, post, hsplit, hpre, hrd, hm, hres⟩, fun h => ?_⟩
    rw [hres] at h
    exact absurd rfl h


/-! ## Composite descriptor -/

/-- Masking a 32-bit pattern with `0xFFFF` keeps the value modulo `2 ^ 16`. -/
theorem toUnsigned_mask (x : Int) : toUnsigned x &&& 0xFFFF = (x % 2 ^ 16).toNat := by
  have h : (0xFFFF : Nat) = 2 ^ 16 - 1 := by norm_num
  rw [h, Nat.and_pow_two_sub_one_eq_mod]
  unfold toUnsigned
  omega

/-- The bit expression of lines 347 and 355 is the arithmetic packing. -/
theorem descriptor_bits_eq_pack (appId playerId : Int) :
    ((toUnsigned appId &&& 0xFFFF) <<< 16) ||| (toUnsigned playerId &&& 0xFFFF) =
      pack appId playerId := by
  rw [toUnsigned_mask, toUnsigned_mask, Nat.shiftLeft_eq]
  have hlt : (playerId % 2 ^ 16).toNat < 2 ^ 16 := by omega
  have h := Nat.mul_add_lt_is_or hlt (appId % 2 ^ 16).toNat
  unfold pack
  rw [Nat.mul_comm, ← h, Nat.mul_comm]

/-- The packing is a 32-bit pattern. -/
theorem pack_lt (isolate_id player_id : Int) : pack isolate_id player_id < 2 ^ 32 := by
  unfold pack
  omega

/-- Reading a 32-bit pattern as `int` and back gives the pattern. -/
theorem toUnsigned_toInt32 (n : Nat) (h : n < 2 ^ 32) : toUnsigned (toInt32 n) = n := by
  unfold toUnsigned toInt32
  split <;> omega

/-- C14: the descriptor `midpHandleMultimediaEvent` computes is
`((appId & 0xFFFF) << 16) | (playerId & 0xFFFF)` as a 32-bit value, which is
`pack appId playerId`; lines 347 and 355 compute the same value;
`pack 1 2 = (1 <<< 16) ||| 2 = 65538`; bits 16 to 31 of the descriptor are
`appId & 0xFFFF` and bits 0 to 15 are `playerId & 0xFFFF`; two pairs pack to
the same descriptor exactly when they agree on their low 16 bits; and when the
event type is one of the three for which the handler calls the matcher, the
matcher is called with that descriptor. -/
theorem descriptor_packing (P : Platform) (m : midp_jc_event_multimedia)
    (blocked_threads : List JVMSPI_BlockedThreadInfo)
    (isolate_id player_id isolate_id' player_id' : Int) :
    descriptorLine347 m = toInt32 (pack m.appId m.playerId) ∧
    descriptorLine355 m = descriptorLine347 m ∧
    toUnsigned (descriptorLine347 m) =
      ((toUnsigned m.appId &&& 0xFFFF) <<< 16) ||| (toUnsigned m.playerId &&& 0xFFFF) ∧
    toUnsigned (descriptorLine347 m) >>> 16 = toUnsigned m.appId &&& 0xFFFF ∧
    toUnsigned (descriptorLine347 m) &&& 0xFFFF = toUnsigned m.playerId &&& 0xFFFF ∧
    pack 1 2 = 65538 ∧ ((1 <<< 16) ||| 2 : Nat) = 65538 ∧
    pack isolate_id player_id / 2 ^ 16 = toUnsigned isolate_id &&& 0xFFFF ∧
    pack isolate_id player_id % 2 ^ 16 = toUnsigned player_id &&& 0xFFFF ∧
    (pack isolate_id player_id = pack isolate_id' player_id' ↔
      toUnsigned isolate_id &&& 0xFFFF = toUnsigned isolate_id' &&& 0xFFFF ∧
      toUnsigned player_id &&& 0xFFFF = toUnsigned player_id' &&& 0xFFFF) ∧
    (toInt32 (pack isolate_id player_id) = toInt32 (pack isolate_id' player_id') ↔
      pack isolate_id player_id = pack isolate_id' player_id') ∧
    ((P.evt.MM_GENERAL_ERROR_EVENT =
          (mediaEventType P m.mediaType P.initEvent |>.write P.slot .intParam1 m.playerId
            |>.write P.slot .intParam2 m.data |>.write P.slot .intParam3 m.appId).read .type
        ∨ P.evt.MM_RECORD_ERROR_EVENT =
          (mediaEventType P m.mediaType P.initEvent |>.write P.slot .intParam1 m.playerId
            |>.write P.slot .intParam2 m.data |>.write P.slot .intParam3 m.appId).read .type
        ∨ P.evt.MM_EOM_EVENT =
          (mediaEventType P m.mediaType P.initEvent |>.write P.slot .intParam1 m.playerId
            |>.write P.slot .intParam2 m.data |>.write P.slot .intParam3 m.appId).read .type) →
      (midpHandleMultimediaEvent P m blocked_threads).blocked_threads =
        (eventUnblockMultimediaJavaThread P.sig.NO_SIGNAL P.sig.MEDIA_START_SIGNAL
          P.sig.MEDIA_LONG_MIDI_EVENT_SIGNAL blocked_threads
          (toUnsigned (P.sig.NO_SIGNAL : Int))
          (toInt32 (pack m.appId m.playerId)) m.status).blocked_threads) := by
  have hd : descriptorLine347 m = toInt32 (pack m.appId m.playerId) := by
    unfold descriptorLine347
    rw [descriptor_bits_eq_pack]
  have hu : toUnsigned (descriptorLine347 m) = pack m.appId m.playerId := by
    rw [hd, toUnsigned_toInt32 _ (pack_lt _ _)]
  have hdiv : ∀ a b : Int, pack a b / 2 ^ 16 = (a % 2 ^ 16).toNat := by
    intro a b
    unfold pack
    omega
  have hmod : ∀ a b : Int, pack a b % 2 ^ 16 = (b % 2 ^ 16).toNat := by
    intro a b
    unfold pack
    omega
  have hinj : ∀ x y : Nat, x < 2 ^ 32 → y < 2 ^ 32 → (toInt32 x = toInt32 y ↔ x = y) := by
    intro x y hx hy
    unfold toInt32
    constructor
    · intro h
      split at h <;> split at h <;> omega
    · intro h
      rw [h]
  refine ⟨hd, rfl, ?_, ?_, ?_, by decide, by decide, ?_, ?_, ?_, ?_, ?_⟩
  · rw [hu, descriptor_bits_eq_pack]
  · rw [hu, Nat.shiftRight_eq_div_pow, hdiv, toUnsigned_mask]
  · have h : (0xFFFF : Nat) = 2 ^ 16 - 1 := by norm_num
    rw [hu, toUnsigned_mask]
    nth_rewrite 1 [h]
    rw [Nat.and_pow_two_sub_one_eq_mod, hmod]
  · rw [hdiv, toUnsigned_mask]
  · rw [hmod, toUnsigned_mask]
  · rw [toUnsigned_mask, toUnsigned_mask, toUnsigned_mask, toUnsigned_mask]
    constructor
    · intro h
      have h1 := hdiv isolate_id player_id
      have h2 := hdiv isolate_id' player_id'
      have h3 := hmod isolate_id player_id
      have h4 := hmod isolate_id' player_id'
      rw [h] at h1 h3
      exact ⟨h1.symm.trans h2, h3.symm.trans h4⟩
    · rintro ⟨h1, h2⟩
      unfold pack
      rw [h1, h2]
  · exact hinj _ _ (pack_lt _ _) (pack_lt _ _)
  · intro hty
    unfold midpHandleMultimediaEvent
    simp only [if_true, if_pos hty, hd]


/-! ## Decoder -/

/-- Reading a name after an assignment: the value assigned when the name
denotes the member written, the old value otherwise. -/
theorem MidpEvent.read_write (slot : MidpEventField → Nat) (e : MidpEvent)
    (name n : MidpEventField) (v : Int) :
    (e.write slot name v).read n = if slot n = slot name then v else e.read n := by
  cases n <;> rfl

/-- A record sent to a buffer that is not full is the record the next receive
returns, and the receive puts `index` and `size` back. -/
theorem send_then_receive (MAX_EVENTS : Nat) (s : EventBuffer) (bytes : List UChar)
    (len t : Int) (buf : List UChar) (maxLen out : Int)
    (hwf : WellFormed MAX_EVENTS s) (hinv : BufferInv MAX_EVENTS s)
    (hsize : s.size ≠ (MAX_EVENTS : Int))
    (h0 : 0 ≤ len) (h1 : len.toNat ≤ EVENT_DATA_CAPACITY) (h2 : len.toNat ≤ bytes.length)
    (h3 : len ≤ maxLen) (h4 : len.toNat ≤ buf.length) :
    ∃ s1 s2, javacall_event_send MAX_EVENTS s bytes len = some (JAVACALL_OK, s1) ∧
      javacall_event_receive MAX_EVENTS s1 t buf maxLen out =
        some ⟨JAVACALL_OK, bytes.take len.toNat ++ buf.drop len.toNat, len, s2⟩ ∧
      s2.size = s.size ∧ s2.index = s.index ∧
      s2.eventsArray.length = s.eventsArray.length := by
  obtain ⟨hlen, hdata⟩ := hwf
  obtain ⟨hs0, hs1, hi0, hi1⟩ := hinv
  have hlt : s.index.toNat < s.eventsArray.length := by omega
  have hget : s.eventsArray[s.index.toNat]? = some (s.eventsArray[s.index.toNat]) :=
    List.getElem?_eq_getElem hlt
  have hcap : (s.eventsArray[s.index.toNat]).data.length = EVENT_DATA_CAPACITY :=
    hdata _ (List.getElem_mem hlt)
  have hsend := javacall_event_send_ok MAX_EVENTS s bytes len _ hsize hi0 hget h0
    (by rw [hcap]; exact h1) h2
  have hprev := prevIndex_next MAX_EVENTS s.index ⟨hi0, hi1⟩
  have htake : (bytes.take len.toNat ++ (s.eventsArray[s.index.toNat]).data.drop
      len.toNat).take len.toNat = bytes.take len.toNat := by
    rw [List.take_append_of_le_length (by rw [List.length_take]; omega)]
    rw [List.take_take]
    simp
  have hrecv := javacall_event_receive_ok MAX_EVENTS
    { eventsArray := s.eventsArray.set s.index.toNat
        { data := bytes.take len.toNat ++ (s.eventsArray[s.index.toNat]).data.drop len.toNat,
          dataLen := len },
      index := Int.tmod (s.index + 1) (MAX_EVENTS : Int),
      size := s.size + 1 }
    t buf maxLen out
    { data := bytes.take len.toNat ++ (s.eventsArray[s.index.toNat]).data.drop len.toNat,
      dataLen := len }
    (by show s.size + 1 ≠ 0; omega)
    (by
      show arrayGet (s.eventsArray.set s.index.toNat _)
        (prevIndex MAX_EVENTS (Int.tmod (s.index + 1) (MAX_EVENTS : Int))) = some _
      rw [hprev, arrayGet_eq _ _ hi0, List.getElem?_set_self hlt])
    h3 h0 h4
    (by
      show len.toNat ≤ (bytes.take len.toNat ++ _).length
      rw [List.length_append, List.length_take, List.length_drop, hcap]
      omega)
  refine ⟨_, ⟨s.eventsArray.set s.index.toNat
      { data := bytes.take len.toNat ++ (s.eventsArray[s.index.toNat]).data.drop len.toNat,
        dataLen := len }, s.index, s.size⟩, hsend, ?_, rfl, rfl, ?_⟩
  · rw [hrecv]
    simp only [htake, hprev, Int.add_sub_cancel]
  · show (s.eventsArray.set s.index.toNat _).length = s.eventsArray.length
    rw [List.length_set]


/-- The sample port state `queued bytes` is the start state after one send. -/
theorem queued_reached :
    javacall_event_send 4 (initBuffer 4) keyRecord 3 =
      some (JAVACALL_OK, (queued keyRecord).buffer) ∧
    javacall_event_send 4 (initBuffer 4) socketRecord 5 =
      some (JAVACALL_OK, (queued socketRecord).buffer) ∧
    javacall_event_send 4 (initBuffer 4) exceptionRecord 5 =
      some (JAVACALL_OK, (queued exceptionRecord).buffer) ∧
    javacall_event_send 4 (initBuffer 4) endRecord 1 =
      some (JAVACALL_OK, (queued endRecord).buffer) ∧
    javacall_event_send 4 (initBuffer 4) unknownRecord 1 =
      some (JAVACALL_OK, (queued unknownRecord).buffer) ∧
    javacall_event_send 4 (initBuffer 4) smsRecord 2 =
      some (JAVACALL_OK, (queued smsRecord).buffer) := by
  decide

/-- After a receive that returns `JAVACALL_OK`, `checkForSystemSignal`
returns `JAVACALL_OK` with the outcome of the `switch` on the received
bytes. -/
theorem checkForSystemSignal_ok (P : Platform) (buffer : EventBuffer)
    (binaryBuffer : List UChar) (s : MidpReentryData) (e0 : MidpEvent)
    (threads : List JVMSPI_BlockedThreadInfo) (timeout : Int) (r : ReceiveResult)
    (hrecv : javacall_event_receive P.MAX_EVENTS buffer (timeTowaitInMillisec timeout)
      binaryBuffer P.BINARY_BUFFER_MAX_LEN 0 = some r)
    (hok : r.result = JAVACALL_OK) :
    checkForSystemSignal P buffer binaryBuffer s e0 threads timeout =
      some ⟨JAVACALL_OK, r.buffer, r.binaryBuffer,
        (decodeEvent P (P.view r.binaryBuffer) s e0 threads).newSignal,
        (decodeEvent P (P.view r.binaryBuffer) s e0 threads).newMidpEvent,
        (decodeEvent P (P.view r.binaryBuffer) s e0 threads).blocked_threads,
        (decodeEvent P (P.view r.binaryBuffer) s e0 threads).calls⟩ := by
  simp [checkForSystemSignal, hrecv, hok]

/-- After a receive that does not return `JAVACALL_OK`, `checkForSystemSignal`
returns the receive's code and writes nothing. -/
theorem checkForSystemSignal_fail (P : Platform) (buffer : EventBuffer)
    (binaryBuffer : List UChar) (s : MidpReentryData) (e0 : MidpEvent)
    (threads : List JVMSPI_BlockedThreadInfo) (timeout : Int) (r : ReceiveResult)
    (hrecv : javacall_event_receive P.MAX_EVENTS buffer (timeTowaitInMillisec timeout)
      binaryBuffer P.BINARY_BUFFER_MAX_LEN 0 = some r)
    (hfail : r.result ≠ JAVACALL_OK) :
    checkForSystemSignal P buffer binaryBuffer s e0 threads timeout =
      some ⟨r.result, r.buffer, r.binaryBuffer, s, e0, threads, []⟩ := by
  simp [checkForSystemSignal, hrecv, hfail]

/-- After a receive that returns `JAVACALL_OK`,
`midp_slavemode_handle_events` decodes the received bytes into the reset
statics, dispatches the signal, and returns 0. -/
theorem midp_slavemode_handle_events_ok (P : Platform) (st : PortState)
    (threads : List JVMSPI_BlockedThreadInfo) (timeout : Int) (r : ReceiveResult)
    (hrecv : javacall_event_receive P.MAX_EVENTS st.buffer (timeTowaitInMillisec timeout)
      st.binaryBuffer P.BINARY_BUFFER_MAX_LEN 0 = some r)
    (hok : r.result = JAVACALL_OK) :
    midp_slavemode_handle_events P st threads timeout =
      some ⟨0,
        ⟨r.buffer, r.binaryBuffer,
          (decodeEvent P (P.view r.binaryBuffer)
            ⟨0, st.newSignal.descriptor, st.newSignal.status, 0⟩ P.initEvent
            threads).newSignal,
          (decodeEvent P (P.view r.binaryBuffer)
            ⟨0, st.newSignal.descriptor, st.newSignal.status, 0⟩ P.initEvent
            threads).newMidpEvent⟩,
        (dispatchSignal P
          (decodeEvent P (P.view r.binaryBuffer)
            ⟨0, st.newSignal.descriptor, st.newSignal.status, 0⟩ P.initEvent
            threads).newSignal
          (decodeEvent P (P.view r.binaryBuffer)
            ⟨0, st.newSignal.descriptor, st.newSignal.status, 0⟩ P.initEvent
            threads).newMidpEvent
          (decodeEvent P (P.view r.binaryBuffer)
            ⟨0, st.newSignal.descriptor, st.newSignal.status, 0⟩ P.initEvent
            threads).blocked_threads).blocked_threads,
        (decodeEvent P (P.view r.binaryBuffer)
            ⟨0, st.newSignal.descriptor, st.newSignal.status, 0⟩ P.initEvent
            threads).calls ++
        (dispatchSignal P
          (decodeEvent P (P.view r.binaryBuffer)
            ⟨0, st.newSignal.descriptor, st.newSignal.status, 0⟩ P.initEvent
            threads).newSignal
          (decodeEvent P (P.view r.binaryBuffer)
            ⟨0, st.newSignal.descriptor, st.newSignal.status, 0⟩ P.initEvent
            threads).newMidpEvent
          (decodeEvent P (P.view r.binaryBuffer)
            ⟨0, st.newSignal.descriptor, st.newSignal.status, 0⟩ P.initEvent
            threads).blocked_threads).calls⟩ := by
  unfold midp_slavemode_handle_events
  simp only []
  rw [checkForSystemSignal_ok P st.buffer st.binaryBuffer _ _ threads timeout r hrecv hok]
  simp

/-- When the buffer is empty, `midp_slavemode_handle_events` returns `-1`,
resets `newSignal.waitingFor`, `newSignal.pResult` and `newMidpEvent`, and
does nothing else. -/
theorem midp_slavemode_handle_events_empty (P : Platform) (st : PortState)
    (threads : List JVMSPI_BlockedThreadInfo) (timeout : Int)
    (hempty : st.buffer.size = 0) :
    midp_slavemode_handle_events P st threads timeout =
      some ⟨-1,
        ⟨st.buffer, st.binaryBuffer, ⟨0, st.newSignal.descriptor, st.newSignal.status, 0⟩,
          P.initEvent⟩,
        threads, []⟩ := by
  have hrecv : javacall_event_receive P.MAX_EVENTS st.buffer (timeTowaitInMillisec timeout)
      st.binaryBuffer P.BINARY_BUFFER_MAX_LEN 0 =
        some ⟨JAVACALL_FAIL, st.binaryBuffer, 0, st.buffer⟩ := by
    simp [javacall_event_receive, hempty]
  unfold midp_slavemode_handle_events
  simp only []
  rw [checkForSystemSignal_fail P st.buffer st.binaryBuffer _ _ threads timeout _ hrecv
    (by simp)]
  simp


/-- C20: when the receive inside `checkForSystemSignal` returns a record
(whose bytes, read as a `midp_jc_event_union`, are `ev`), the function returns
`JAVACALL_OK`, wakes no context, makes no external call, and writes exactly
the fields of the tag's row, leaving every other field of `*pNewSignal` and
`*pNewMidpEvent` as passed in:
key -> `waitingFor = UI_SIGNAL`, `type = MIDP_KEY_EVENT`, `CHR` and `ACTION`
from the payload; pen -> `UI_SIGNAL`, `MIDP_PEN_EVENT`, `ACTION`, `X_POS`,
`Y_POS` from the payload; socket -> `waitingFor`, `descriptor`, `status`,
`pResult` from the payload and the event untouched; end, pause, resume ->
`AMS_SIGNAL` with `SHUTDOWN_EVENT`, `PAUSE_ALL_EVENT`, `ACTIVATE_ALL_EVENT`;
rotation -> `UI_SIGNAL` with `ROTATION_EVENT`; push -> `PUSH_ALARM_SIGNAL`
with `descriptor` the alarm handle and the event untouched.  An event name
reads back the value assigned through it when no later assignment of the same
case goes to the same member. -/
theorem checkForSystemSignal_mapping (P : Platform) (buffer : EventBuffer)
    (binaryBuffer : List UChar) (s : MidpReentryData) (e0 : MidpEvent)
    (threads : List JVMSPI_BlockedThreadInfo) (timeout : Int) (r : ReceiveResult)
    (ev : midp_jc_event_union)
    (hrecv : javacall_event_receive P.MAX_EVENTS buffer (timeTowaitInMillisec timeout)
      binaryBuffer P.BINARY_BUFFER_MAX_LEN 0 = some r)
    (hok : r.result = JAVACALL_OK)
    (hev : P.view r.binaryBuffer = ev) :
    ∃ c, checkForSystemSignal P buffer binaryBuffer s e0 threads timeout = some c ∧
      c.result = JAVACALL_OK ∧ c.buffer = r.buffer ∧ c.binaryBuffer = r.binaryBuffer ∧
      (ev.eventType = MIDP_JC_EVENT_KEY →
        c.newSignal = ⟨P.sig.UI_SIGNAL, s.descriptor, s.status, s.pResult⟩ ∧
        c.newMidpEvent.read .ACTION = ev.keyEvent_keyEventType ∧
        (P.slot .CHR ≠ P.slot .ACTION → c.newMidpEvent.read .CHR = ev.keyEvent_key) ∧
        (P.slot .type ≠ P.slot .CHR → P.slot .type ≠ P.slot .ACTION →
          c.newMidpEvent.read .type = P.evt.MIDP_KEY_EVENT) ∧
        (∀ n, P.slot n ≠ P.slot .type → P.slot n ≠ P.slot .CHR →
          P.slot n ≠ P.slot .ACTION → c.newMidpEvent.read n = e0.read n) ∧
        c.blocked_threads = threads ∧ c.calls = []) ∧
      (ev.eventType = MIDP_JC_EVENT_PEN →
        c.newSignal = ⟨P.sig.UI_SIGNAL, s.descriptor, s.status, s.pResult⟩ ∧
        c.newMidpEvent.read .Y_POS = ev.penEvent_y ∧
        (P.slot .X_POS ≠ P.slot .Y_POS → c.newMidpEvent.read .X_POS = ev.penEvent_x) ∧
        (P.slot .ACTION ≠ P.slot .X_POS → P.slot .ACTION ≠ P.slot .Y_POS →
          c.newMidpEvent.read .ACTION = ev.penEvent_type) ∧
        (P.slot .type ≠ P.slot .ACTION → P.slot .type ≠ P.slot .X_POS →
          P.slot .type ≠ P.slot .Y_POS →
          c.newMidpEvent.read .type = P.evt.MIDP_PEN_EVENT) ∧
        (∀ n, P.slot n ≠ P.slot .type → P.slot n ≠ P.slot .ACTION →
          P.slot n ≠ P.slot .X_POS → P.slot n ≠ P.slot .Y_POS →
          c.newMidpEvent.read n = e0.read n) ∧
        c.blocked_threads = threads ∧ c.calls = []) ∧
      (ev.eventType = MIDP_JC_EVENT_SOCKET →
        c.newSignal = ⟨ev.socketEvent_waitingFor, ev.socketEvent_handle,
          ev.socketEvent_status, ev.socketEvent_extraData⟩ ∧
        c.newMidpEvent = e0 ∧ c.blocked_threads = threads ∧ c.calls = []) ∧
      (ev.eventType = MIDP_JC_EVENT_END →
        c.newSignal = ⟨P.sig.AMS_SIGNAL, s.descriptor, s.status, s.pResult⟩ ∧
        c.newMidpEvent.read .type = P.evt.SHUTDOWN_EVENT ∧
        (∀ n, P.slot n ≠ P.slot .type → c.newMidpEvent.read n = e0.read n) ∧
        c.blocked_threads = threads ∧ c.calls = []) ∧
      (ev.eventType = MIDP_JC_EVENT_PAUSE →
        c.newSignal = ⟨P.sig.AMS_SIGNAL, s.descriptor, s.status, s.pResult⟩ ∧
        c.newMidpEvent.read .type = P.evt.PAUSE_ALL_EVENT ∧
        (∀ n, P.slot n ≠ P.slot .type → c.newMidpEvent.read n = e0.read n) ∧
        c.blocked_threads = threads ∧ c.calls = []) ∧
      (ev.eventType = MIDP_JC_EVENT_RESUME →
        c.newSignal = ⟨P.sig.AMS_SIGNAL, s.descriptor, s.status, s.pResult⟩ ∧
        c.newMidpEvent.read .type = P.evt.ACTIVATE_ALL_EVENT ∧
        (∀ n, P.slot n ≠ P.slot .type → c.newMidpEvent.read n = e0.read n) ∧
        c.blocked_threads = threads ∧ c.calls = []) ∧
      (ev.eventType = MIDP_JC_EVENT_ROTATION →
        c.newSignal = ⟨P.sig.UI_SIGNAL, s.descriptor, s.status, s.pResult⟩ ∧
        c.newMidpEvent.read .type = P.evt.ROTATION_EVENT ∧
        (∀ n, P.slot n ≠ P.slot .type → c.newMidpEvent.read n = e0.read n) ∧
        c.blocked_threads = threads ∧ c.calls = []) ∧
      (ev.eventType = MIDP_JC_EVENT_PUSH →
        c.newSignal = ⟨P.sig.PUSH_ALARM_SIGNAL, ev.pushEvent_alarmHandle, s.status,
          s.pResult⟩ ∧
        c.newMidpEvent = e0 ∧ c.blocked_threads = threads ∧ c.calls = []) := by
  subst hev
  rw [checkForSystemSignal_ok P buffer binaryBuffer s e0 threads timeout r hrecv hok]
  refine ⟨_, rfl, rfl, rfl, rfl, ?_, ?_, ?_, ?_, ?_, ?_, ?_, ?_⟩
  · intro h
    simp only [decodeEvent, h]
    refine ⟨?_, ?_, ?_, ?_, ?_, ?_, ?_⟩
    · trivial
    · simp [MidpEvent.read_write]
    · intro h1
      simp [MidpEvent.read_write, h1]
    · intro h1 h2
      simp [MidpEvent.read_write, h1, h2]
    · intro n h1 h2 h3
      simp [MidpEvent.read_write, h1, h2, h3]
    · trivial
    · trivial
  · intro h
    simp only [decodeEvent, h]
    refine ⟨?_, ?_, ?_, ?_, ?_, ?_, ?_, ?_⟩
    · trivial
    · simp [MidpEvent.read_write]
    · intro h1
      simp [MidpEvent.read_write, h1]
    · intro h1 h2
      simp [MidpEvent.read_write, h1, h2]
    · intro h1 h2 h3
      simp [MidpEvent.read_write, h1, h2, h3]
    · intro n h1 h2 h3 h4
      simp [MidpEvent.read_write, h1, h2, h3, h4]
    · trivial
    · trivial
  · intro h
    simp [decodeEvent, h]
  · intro h
    simp only [decodeEvent, h]
    refine ⟨?_, ?_, ?_, ?_, ?_⟩
    · trivial
    · simp [MidpEvent.read_write]
    · intro n h1
      simp [MidpEvent.read_write, h1]
    · trivial
    · trivial
  · intro h
    simp only [decodeEvent, h]
    refine ⟨?_, ?_, ?_, ?_, ?_⟩
    · trivial
    · simp [MidpEvent.read_write]
    · intro n h1
      simp [MidpEvent.read_write, h1]
    · trivial
    · trivial
  · intro h
    simp only [decodeEvent, h]
    refine ⟨?_, ?_, ?_, ?_, ?_⟩
    · trivial
    · simp [MidpEvent.read_write]
    · intro n h1
      simp [MidpEvent.read_write, h1]
    · trivial
    · trivial
  · intro h
    simp only [decodeEvent, h]
    refine ⟨?_, ?_, ?_, ?_, ?_⟩
    · trivial
    · simp [MidpEvent.read_write]
    · intro n h1
      simp [MidpEvent.read_write, h1]
    · trivial
    · trivial
  · intro h
    simp [decodeEvent, h]

/-- C20 at a concrete input: the sample platform receiving the queued key
record `[1, 65, 1]`. -/
theorem checkForSystemSignal_mapping_witness :
    javacall_event_receive samplePlatform.MAX_EVENTS (queued keyRecord).buffer
      (timeTowaitInMillisec 0) dest8 samplePlatform.BINARY_BUFFER_MAX_LEN 0 =
      some ⟨JAVACALL_OK, [1, 65, 1, 0, 0, 0, 0, 0], 3,
        { (queued keyRecord).buffer with index := 0, size := 0 }⟩ ∧
    ∃ c, checkForSystemSignal samplePlatform (queued keyRecord).buffer dest8 ⟨0, 0, 0, 0⟩
        samplePlatform.initEvent sampleThreads 0 = some c ∧
      c.result = JAVACALL_OK ∧
      c.newSignal = ⟨1, 0, 0, 0⟩ ∧
      c.newMidpEvent.read .type = 1 ∧ c.newMidpEvent.read .CHR = 65 ∧
      c.newMidpEvent.read .ACTION = 1 ∧ c.blocked_threads = sampleThreads ∧
      c.calls = [] := by
  have hrecv : javacall_event_receive samplePlatform.MAX_EVENTS (queued keyRecord).buffer
      (timeTowaitInMillisec 0) dest8 samplePlatform.BINARY_BUFFER_MAX_LEN 0 =
      some ⟨JAVACALL_OK, [1, 65, 1, 0, 0, 0, 0, 0], 3,
        { (queued keyRecord).buffer with index := 0, size := 0 }⟩ := by decide
  obtain ⟨c, hc, hres, _, _, hkey, _⟩ :=
    checkForSystemSignal_mapping samplePlatform (queued keyRecord).buffer dest8 ⟨0, 0, 0, 0⟩
      samplePlatform.initEvent sampleThreads 0 _ _ hrecv rfl rfl
  obtain ⟨hsig, hact, hchr, hty, _, hthreads, hcalls⟩ := hkey (by decide)
  exact ⟨hrecv, c, hc, hres, hsig, hty (by decide) (by decide), hchr (by decide), hact,
    hthreads, hcalls⟩


/-! ## Dispatch -/

/-- A record appended to a buffer that is not full and fits the receive
buffer is the record the next `midp_slavemode_handle_events` invocation
decodes and dispatches; the invocation returns 0 and leaves the buffer with
the `index` and `size` it had before the append. -/
theorem sendAndHandle_ok (P : Platform) (st : PortState)
    (threads : List JVMSPI_BlockedThreadInfo) (bytes : List UChar) (len timeout : Int)
    (hwf : WellFormed P.MAX_EVENTS st.buffer) (hinv : BufferInv P.MAX_EVENTS st.buffer)
    (hsize : st.buffer.size ≠ (P.MAX_EVENTS : Int))
    (h0 : 0 ≤ len) (h1 : len.toNat ≤ EVENT_DATA_CAPACITY) (h2 : len.toNat ≤ bytes.length)
    (hfit : len ≤ (P.BINARY_BUFFER_MAX_LEN : Int))
    (hbin : st.binaryBuffer.length = P.BINARY_BUFFER_MAX_LEN) :
    ∃ s2 : EventBuffer, s2.size = st.buffer.size ∧ s2.index = st.buffer.index ∧
      sendAndHandle P st threads bytes len timeout =
        some ⟨0,
          ⟨s2, bytes.take len.toNat ++ st.binaryBuffer.drop len.toNat,
            (decodeEvent P (P.view (bytes.take len.toNat ++ st.binaryBuffer.drop len.toNat))
              ⟨0, st.newSignal.descriptor, st.newSignal.status, 0⟩ P.initEvent
              threads).newSignal,
            (decodeEvent P (P.view (bytes.take len.toNat ++ st.binaryBuffer.drop len.toNat))
              ⟨0, st.newSignal.descriptor, st.newSignal.status, 0⟩ P.initEvent
              threads).newMidpEvent⟩,
          (dispatchSignal P
            (decodeEvent P (P.view (bytes.take len.toNat ++ st.binaryBuffer.drop len.toNat))
              ⟨0, st.newSignal.descriptor, st.newSignal.status, 0⟩ P.initEvent
              threads).newSignal
            (decodeEvent P (P.view (bytes.take len.toNat ++ st.binaryBuffer.drop len.toNat))
              ⟨0, st.newSignal.descriptor, st.newSignal.status, 0⟩ P.initEvent
              threads).newMidpEvent
            (decodeEvent P (P.view (bytes.take len.toNat ++ st.binaryBuffer.drop len.toNat))
              ⟨0, st.newSignal.descriptor, st.newSignal.status, 0⟩ P.initEvent
              threads).blocked_threads).blocked_threads,
          (decodeEvent P (P.view (bytes.take len.toNat ++ st.binaryBuffer.drop len.toNat))
              ⟨0, st.newSignal.descriptor, st.newSignal.status, 0⟩ P.initEvent
              threads).calls ++
          (dispatchSignal P
            (decodeEvent P (P.view (bytes.take len.toNat ++ st.binaryBuffer.drop len.toNat))
              ⟨0, st.newSignal.descriptor, st.newSignal.status, 0⟩ P.initEvent
              threads).newSignal
            (decodeEvent P (P.view (bytes.take len.toNat ++ st.binaryBuffer.drop len.toNat))
              ⟨0, st.newSignal.descriptor, st.newSignal.status, 0⟩ P.initEvent
              threads).newMidpEvent
            (decodeEvent P (P.view (bytes.take len.toNat ++ st.binaryBuffer.drop len.toNat))
              ⟨0, st.newSignal.descriptor, st.newSignal.status, 0⟩ P.initEvent
              threads).blocked_threads).calls⟩ := by
  obtain ⟨s1, s2, hsend, hrecv, hsz, hidx, _⟩ :=
    send_then_receive P.MAX_EVENTS st.buffer bytes len (timeTowaitInMillisec timeout)
      st.binaryBuffer P.BINARY_BUFFER_MAX_LEN 0 hwf hinv hsize h0 h1 h2 hfit
      (by rw [hbin]; omega)
  refine ⟨s2, hsz, hidx, ?_⟩
  unfold sendAndHandle
  rw [hsend]
  simp only []
  rw [midp_slavemode_handle_events_ok P { st with buffer := s1 } threads timeout _ hrecv rfl]

/-- A signal whose wait-kind is `AMS_SIGNAL` is handed, with the event, to
`midpStoreEventAndSignalAms`, and the blocked-thread array is not touched. -/
theorem dispatchSignal_ams (P : Platform) (s : MidpReentryData) (e : MidpEvent)
    (threads : List JVMSPI_BlockedThreadInfo)
    (hw : s.waitingFor = P.sig.AMS_SIGNAL)
    (hdbg : P.cfg.ENABLE_JAVA_DEBUGGER = true → P.sig.AMS_SIGNAL ≠ P.sig.VM_DEBUG_SIGNAL) :
    dispatchSignal P s e threads = ⟨threads, [ExtCall.midpStoreEventAndSignalAms e]⟩ := by
  have h1 : ¬ (P.cfg.ENABLE_JAVA_DEBUGGER = true ∧
      s.waitingFor = (P.sig.VM_DEBUG_SIGNAL : Int)) := by
    rintro ⟨ha, hb⟩
    rw [hw] at hb
    exact hdbg ha (by exact_mod_cast hb)
  unfold dispatchSignal
  simp only [if_neg h1, if_pos hw]

/-- A signal whose wait-kind is 0, when no compiled-in `case` label is 0,
takes the `default` branch: nothing is called and nothing is touched. -/
theorem dispatchSignal_zero (P : Platform) (s : MidpReentryData) (e : MidpEvent)
    (threads : List JVMSPI_BlockedThreadInfo)
    (hw : s.waitingFor = 0) (hlabels : 0 ∉ caseLabels P) :
    dispatchSignal P s e threads = ⟨threads, []⟩ := by
  unfold caseLabels at hlabels
  simp only [List.mem_append, List.mem_cons, List.mem_singleton, not_or] at hlabels
  obtain ⟨⟨⟨⟨⟨hdbg, hcore⟩, h179⟩, hwma⟩, h177⟩, h256⟩ := hlabels
  have hz : ∀ n : Nat, (0 : Int) = (n : Int) ↔ 0 = n := by
    intro n
    omega
  unfold dispatchSignal
  simp only [hw, hz]
  cases hcd : P.cfg.ENABLE_JAVA_DEBUGGER <;> cases hc179 : P.cfg.ENABLE_JSR_179 <;>
    cases hc120 : P.cfg.ENABLE_JSR_120 <;> cases hc205 : P.cfg.ENABLE_JSR_205 <;>
    cases hc177 : P.cfg.ENABLE_JSR_177 <;> cases hc256 : P.cfg.ENABLE_JSR_256 <;>
    simp [hcd, hc179, hc120, hc205, hc177, hc256] at hdbg hcore h179 hwma h177 h256 ⊢ <;>
    simp [*]


/-- A tag without a compiled-in `case` leaves both out-structures and the
blocked-thread array as they were and makes no external call. -/
theorem decodeEvent_noCase (P : Platform) (ev : midp_jc_event_union)
    (s : MidpReentryData) (e : MidpEvent) (threads : List JVMSPI_BlockedThreadInfo)
    (h : hasCase P ev.eventType = false) :
    decodeEvent P ev s e threads = ⟨s, e, threads, []⟩ := by
  unfold decodeEvent
  cases htag : ev.eventType <;> rw [htag] at h <;> simp_all [hasCase]

/-! ## Shutdown -/

/-- C17 (as stated, fails): on the sample platform, where `NO_SIGNAL = 0` and
`AMS_SIGNAL = 6`, appending the shutdown record to the empty buffer and
invoking `midp_slavemode_handle_events` once leaves `newSignal.waitingFor`
at `AMS_SIGNAL`, not at the no-signal value. -/
theorem shutdown_signal_is_ams :
    (sendAndHandle samplePlatform (initPortState samplePlatform) sampleThreads endRecord 1
        0).map (fun h => (h.ret, h.state.newSignal.waitingFor, h.state.newMidpEvent.type,
          h.blocked_threads, h.calls)) =
      some (0, 6, 3, sampleThreads,
        [ExtCall.midpStoreEventAndSignalAms ⟨3, 0, 0, 0, 0, 0, 0, 0, 0, 0, 0, 0⟩]) ∧
    (6 : Int) ≠ (samplePlatform.sig.NO_SIGNAL : Int) ∧
    (6 : Int) = (samplePlatform.sig.AMS_SIGNAL : Int) := by
  decide

/-- C17 (amended): appending a record tagged `MIDP_JC_EVENT_END` to an empty
buffer and invoking `midp_slavemode_handle_events` once returns 0 and yields
an event of type `SHUTDOWN_EVENT`, every other event member as initialised,
and a signal whose wait-kind is `AMS_SIGNAL`; the event is handed to
`midpStoreEventAndSignalAms`, no other external call is made, and no blocked
context is woken or changed.  The buffer is empty again afterwards, so the
next invocation returns `-1` and does nothing. -/
theorem shutdown_end_to_end (P : Platform) (st : PortState)
    (threads : List JVMSPI_BlockedThreadInfo) (bytes : List UChar) (len timeout : Int)
    (hwf : WellFormed P.MAX_EVENTS st.buffer) (hinv : BufferInv P.MAX_EVENTS st.buffer)
    (hempty : st.buffer.size = 0)
    (h0 : 0 ≤ len) (h1 : len.toNat ≤ EVENT_DATA_CAPACITY) (h2 : len.toNat ≤ bytes.length)
    (hfit : len ≤ (P.BINARY_BUFFER_MAX_LEN : Int))
    (hbin : st.binaryBuffer.length = P.BINARY_BUFFER_MAX_LEN)
    (htag : (P.view (bytes.take len.toNat ++ st.binaryBuffer.drop len.toNat)).eventType =
      MIDP_JC_EVENT_END)
    (hdbg : P.cfg.ENABLE_JAVA_DEBUGGER = true → P.sig.AMS_SIGNAL ≠ P.sig.VM_DEBUG_SIGNAL) :
    ∃ h, sendAndHandle P st threads bytes len timeout = some h ∧
      h.ret = 0 ∧
      h.state.newSignal.waitingFor = P.sig.AMS_SIGNAL ∧
      h.state.newMidpEvent.read .type = P.evt.SHUTDOWN_EVENT ∧
      (∀ n, P.slot n ≠ P.slot .type → h.state.newMidpEvent.read n = P.initEvent.read n) ∧
      h.blocked_threads = threads ∧
      h.calls = [ExtCall.midpStoreEventAndSignalAms h.state.newMidpEvent] ∧
      h.state.buffer.size = 0 ∧
      ∃ h2, midp_slavemode_handle_events P h.state h.blocked_threads timeout = some h2 ∧
        h2.ret = -1 ∧ h2.blocked_threads = threads ∧ h2.calls = [] := by
  have hsize : st.buffer.size ≠ (P.MAX_EVENTS : Int) := by
    obtain ⟨_, _, hi0, hi1⟩ := hinv
    omega
  obtain ⟨s2, hsz, hidx, hrun⟩ := sendAndHandle_ok P st threads bytes len timeout hwf hinv
    hsize h0 h1 h2 hfit hbin
  have hdec : decodeEvent P (P.view (bytes.take len.toNat ++ st.binaryBuffer.drop len.toNat))
      ⟨0, st.newSignal.descriptor, st.newSignal.status, 0⟩ P.initEvent threads =
      ⟨⟨P.sig.AMS_SIGNAL, st.newSignal.descriptor, st.newSignal.status, 0⟩,
        P.initEvent.write P.slot .type P.evt.SHUTDOWN_EVENT, threads, []⟩ := by
    simp only [decodeEvent, htag]
  rw [hdec] at hrun
  rw [dispatchSignal_ams P _ _ threads rfl hdbg] at hrun
  refine ⟨_, hrun, rfl, rfl, ?_, ?_, rfl, rfl, ?_, ?_⟩
  · simp [MidpEvent.read_write]
  · intro n hn
    simp [MidpEvent.read_write, hn]
  · show s2.size = 0
    rw [hsz, hempty]
  · refine ⟨_, midp_slavemode_handle_events_empty P _ threads timeout ?_, rfl, rfl, rfl⟩
    show s2.size = 0
    rw [hsz, hempty]

/-- C17 (amended) at a concrete input: the sample platform, the start state
and the one-byte shutdown record. -/
theorem shutdown_end_to_end_witness :
    (samplePlatform.view (endRecord.take 1 ++ dest8.drop 1)).eventType = MIDP_JC_EVENT_END ∧
    ∃ h, sendAndHandle samplePlatform (initPortState samplePlatform) sampleThreads endRecord
        1 0 = some h ∧
      h.ret = 0 ∧
      h.state.newSignal.waitingFor = samplePlatform.sig.AMS_SIGNAL ∧
      h.state.newMidpEvent.read .type = samplePlatform.evt.SHUTDOWN_EVENT ∧
      (∀ n, samplePlatform.slot n ≠ samplePlatform.slot .type →
        h.state.newMidpEvent.read n = samplePlatform.initEvent.read n) ∧
      h.blocked_threads = sampleThreads ∧
      h.calls = [ExtCall.midpStoreEventAndSignalAms h.state.newMidpEvent] ∧
      h.state.buffer.size = 0 ∧
      ∃ h2, midp_slavemode_handle_events samplePlatform h.state h.blocked_threads 0 =
          some h2 ∧
        h2.ret = -1 ∧ h2.blocked_threads = sampleThreads ∧ h2.calls = [] :=
  ⟨by decide,
    shutdown_end_to_end samplePlatform (initPortState samplePlatform) sampleThreads endRecord
      1 0 (by decide) (by decide) (by decide) (by decide) (by decide) (by decide) (by decide)
      (by decide) (by decide) (by decide)⟩


/-! ## Absent and unrecognized records -/

/-- C19 (as stated, fails): on the sample platform a queued record whose tag
(99) no `case` names makes `midp_slavemode_handle_events` return 0, not
`-1`; nothing is called and no context is touched, and the loop of
`javanotify_inform_event` goes on to a second invocation, which finds the
buffer empty. -/
theorem unrecognized_tag_returns_zero :
    (samplePlatform.view (unknownRecord ++ dest8.drop 1)).eventType = other 99 ∧
    hasCase samplePlatform (other 99) = false ∧
    (midp_slavemode_handle_events samplePlatform (queued unknownRecord) sampleThreads 0).map
        (fun h => (h.ret, h.state.newSignal, h.state.newMidpEvent, h.blocked_threads,
          h.calls)) =
      some (0, ⟨0, 0, 0, 0⟩, samplePlatform.initEvent, sampleThreads, []) ∧
    javanotify_inform_event samplePlatform 1 (queued unknownRecord) sampleThreads = none ∧
    (javanotify_inform_event samplePlatform 2 (queued unknownRecord) sampleThreads).map
        (fun r => (r.blocked_threads, r.calls)) = some (sampleThreads, []) :=
  ⟨by decide, by decide, by decide, by decide, by decide⟩

/-- C19 (amended): with an empty buffer `midp_slavemode_handle_events`
returns `-1`, wakes no context and calls nothing, and the loop of
`javanotify_inform_event` stops at that invocation.  With a received record
whose tag has no compiled-in `case` (and no compiled-in `case` label of the
dispatch `switch` being 0) it returns 0, produces no signal
(`newSignal.waitingFor` stays 0) and no event (`newMidpEvent` stays as
initialised), wakes no context and calls nothing, and the loop of
`javanotify_inform_event` goes on with the next invocation. -/
theorem absent_or_unrecognized (P : Platform) (st : PortState)
    (threads : List JVMSPI_BlockedThreadInfo) (timeout : Int) (fuel : Nat) :
    (st.buffer.size = 0 →
      midp_slavemode_handle_events P st threads timeout =
        some ⟨-1,
          ⟨st.buffer, st.binaryBuffer,
            ⟨0, st.newSignal.descriptor, st.newSignal.status, 0⟩, P.initEvent⟩,
          threads, []⟩ ∧
      javanotify_inform_event P (fuel + 1) st threads =
        some ⟨⟨st.buffer, st.binaryBuffer,
            ⟨0, st.newSignal.descriptor, st.newSignal.status, 0⟩, P.initEvent⟩,
          threads, []⟩) ∧
    (∀ r, javacall_event_receive P.MAX_EVENTS st.buffer (timeTowaitInMillisec timeout)
        st.binaryBuffer P.BINARY_BUFFER_MAX_LEN 0 = some r →
      r.result = JAVACALL_OK →
      hasCase P (P.view r.binaryBuffer).eventType = false →
      0 ∉ caseLabels P →
      midp_slavemode_handle_events P st threads timeout =
        some ⟨0,
          ⟨r.buffer, r.binaryBuffer,
            ⟨0, st.newSignal.descriptor, st.newSignal.status, 0⟩, P.initEvent⟩,
          threads, []⟩ ∧
      (timeout = 0 →
        javanotify_inform_event P (fuel + 1) st threads =
          javanotify_inform_event P fuel
            ⟨r.buffer, r.binaryBuffer,
              ⟨0, st.newSignal.descriptor, st.newSignal.status, 0⟩, P.initEvent⟩
            threads)) := by
  constructor
  · intro hempty
    have h := fun t => midp_slavemode_handle_events_empty P st threads t hempty
    refine ⟨h timeout, ?_⟩
    simp [javanotify_inform_event, h 0]
  · intro r hrecv hok hcase hlabels
    have hdec := decodeEvent_noCase P (P.view r.binaryBuffer)
      ⟨0, st.newSignal.descriptor, st.newSignal.status, 0⟩ P.initEvent threads hcase
    have h := midp_slavemode_handle_events_ok P st threads timeout r hrecv hok
    rw [hdec, dispatchSignal_zero P _ _ threads rfl hlabels] at h
    refine ⟨h, ?_⟩
    intro ht
    subst ht
    simp only [javanotify_inform_event, h, List.append_nil, if_true]
    cases javanotify_inform_event P fuel
      ⟨r.buffer, r.binaryBuffer,
        ⟨0, st.newSignal.descriptor, st.newSignal.status, 0⟩, P.initEvent⟩ threads <;> simp

/-- C19 (amended) at concrete inputs: the sample platform with the empty
start state, and with the queued record of tag 99. -/
theorem absent_or_unrecognized_witness :
    (initPortState samplePlatform).buffer.size = 0 ∧
    midp_slavemode_handle_events samplePlatform (initPortState samplePlatform) sampleThreads
        0 =
      some ⟨-1,
        ⟨(initPortState samplePlatform).buffer, (initPortState samplePlatform).binaryBuffer,
          ⟨0, 0, 0, 0⟩, samplePlatform.initEvent⟩,
        sampleThreads, []⟩ ∧
    javacall_event_receive samplePlatform.MAX_EVENTS (queued unknownRecord).buffer
        (timeTowaitInMillisec 0) (queued unknownRecord).binaryBuffer
        samplePlatform.BINARY_BUFFER_MAX_LEN 0 =
      some ⟨JAVACALL_OK, [99, 0, 0, 0, 0, 0, 0, 0], 1,
        { (queued unknownRecord).buffer with index := 0, size := 0 }⟩ ∧
    midp_slavemode_handle_events samplePlatform (queued unknownRecord) sampleThreads 0 =
      some ⟨0,
        ⟨{ (queued unknownRecord).buffer with index := 0, size := 0 },
          [99, 0, 0, 0, 0, 0, 0, 0], ⟨0, 0, 0, 0⟩, samplePlatform.initEvent⟩,
        sampleThreads, []⟩ :=
  ⟨by decide,
    ((absent_or_unrecognized samplePlatform (initPortState samplePlatform) sampleThreads 0
      0).1 (by decide)).1,
    by decide,
    ((absent_or_unrecognized samplePlatform (queued unknownRecord) sampleThreads 0 0).2
      ⟨JAVACALL_OK, [99, 0, 0, 0, 0, 0, 0, 0], 1,
        { (queued unknownRecord).buffer with index := 0, size := 0 }⟩
      (by decide) (by decide) (by decide) (by decide)).1⟩

/-! ## Dependence on earlier records -/

/-- C18 (code defect): `midp_slavemode_handle_events` resets only
`newSignal.waitingFor` and `newSignal.pResult`, so a decoder case that does
not write `descriptor` or `status` leaves the values of an earlier record in
the signal.  On the sample platform the same incoming-SMS record `[10, 9]`
gives the signal `(11, 9, 0)` and the call `jsr120_check_signal(11, 9, 0)`
when it is the first record processed, and the signal `(11, 9, 5)` and the
call `jsr120_check_signal(11, 9, 5)` when the socket record with status 5
was processed before it. -/
theorem signal_depends_on_earlier_records :
    (sendAndHandle samplePlatform (initPortState samplePlatform) [] smsRecord 2 0).map
        (fun h => (h.ret, h.state.newSignal, h.calls)) =
      some (0, ⟨11, 9, 0, 0⟩, [ExtCall.jsr120_check_signal 11 9 0]) ∧
    ((sendAndHandle samplePlatform (initPortState samplePlatform) [] socketRecord 5 0).bind
        (fun h1 => sendAndHandle samplePlatform h1.state h1.blocked_threads smsRecord 2
          0)).map
        (fun h => (h.ret, h.state.newSignal, h.calls)) =
      some (0, ⟨11, 9, 5, 0⟩, [ExtCall.jsr120_check_signal 11 9 5]) ∧
    (sendAndHandle samplePlatform (initPortState samplePlatform) [] socketRecord 5 0).map
        (fun h => (h.ret, h.state.newSignal, h.state.buffer.size)) =
      some (0, ⟨2, 7, 5, 9⟩, 0) := by
  decide


/-! ## Network signals -/

/-- A wait-kind below `2 ^ 31` is unchanged by the cast to `midpSignalType`. -/
theorem castSignalType_small (W : Nat) (hlt : W < 2 ^ 31) : castSignalType W = (W : Int) := by
  unfold castSignalType
  have h : W % 2 ^ 32 = W := Nat.mod_eq_of_lt (by omega)
  rw [h, if_pos hlt]

/-- A wait-kind below `2 ^ 31` passed as `unsigned int` keeps its value. -/
theorem toUnsigned_small (W : Nat) (hlt : W < 2 ^ 31) : toUnsigned (W : Int) = W := by
  unfold toUnsigned
  omega

theorem FirstAt_zero (w d : Int) (t : JVMSPI_BlockedThreadInfo)
    (rest : List JVMSPI_BlockedThreadInfo) :
    FirstAt w d (t :: rest) 0 ↔ WaitsOn w d t := by
  simp [FirstAt]

theorem FirstAt_succ (w d : Int) (t : JVMSPI_BlockedThreadInfo)
    (rest : List JVMSPI_BlockedThreadInfo) (i : Nat) :
    FirstAt w d (t :: rest) (i + 1) ↔ ¬ WaitsOn w d t ∧ FirstAt w d rest i := by
  simp only [FirstAt, List.getElem?_cons_succ, List.take_succ_cons, List.mem_cons,
    forall_eq_or_imp]
  tauto

theorem WaitsOn_setStatus (w d status : Int) (t : JVMSPI_BlockedThreadInfo) :
    WaitsOn w d (setStatus status t) ↔ WaitsOn w d t := by
  unfold WaitsOn setStatus
  cases h : t.reentry_data <;> simp

/-- The loop body on a context that waits on the signal's own wait-kind and
descriptor: the status is stored, the thread is unblocked, the loop ends. -/
theorem eventUnblockJavaThread_cons_hit (NO_SIGNAL W : Nat) (D status : Int)
    (t : JVMSPI_BlockedThreadInfo) (rest : List JVMSPI_BlockedThreadInfo)
    (hlt : W < 2 ^ 31) (hsel : WaitsOn W D t) :
    eventUnblockJavaThread NO_SIGNAL (t :: rest) W D status =
      ⟨1, setStatus status t :: rest, [t.thread_id]⟩ := by
  obtain ⟨p, hrd, hw, hd⟩ := hsel
  have hc : p.descriptor = D ∧ p.waitingFor = castSignalType W :=
    ⟨hd, by rw [castSignalType_small W hlt]; exact hw⟩
  simp only [eventUnblockJavaThread, hrd, if_pos hc, setStatus, Option.map_some']

/-- The loop body on a context that does not wait on the signal's wait-kind
and descriptor, for a signal that is not the wildcard: the loop goes on. -/
theorem eventUnblockJavaThread_cons_skip (NO_SIGNAL W : Nat) (D status : Int)
    (t : JVMSPI_BlockedThreadInfo) (rest : List JVMSPI_BlockedThreadInfo)
    (hW : W ≠ NO_SIGNAL) (hlt : W < 2 ^ 31) (hsel : ¬ WaitsOn W D t) :
    eventUnblockJavaThread NO_SIGNAL (t :: rest) W D status =
      ⟨(eventUnblockJavaThread NO_SIGNAL rest W D status).ret,
        t :: (eventUnblockJavaThread NO_SIGNAL rest W D status).blocked_threads,
        (eventUnblockJavaThread NO_SIGNAL rest W D status).unblocked⟩ := by
  cases hrd : t.reentry_data with
  | none => simp [eventUnblockJavaThread, hrd]
  | some p =>
    have hc1 : ¬ (p.descriptor = D ∧ p.waitingFor = castSignalType W) := by
      rintro ⟨hd, hw⟩
      rw [castSignalType_small W hlt] at hw
      exact hsel ⟨p, hrd, hw, hd⟩
    have hc2 : ¬ (W = NO_SIGNAL ∧ p.descriptor = D) := fun h => hW h.1
    simp only [eventUnblockJavaThread, hrd, if_neg hc1, if_neg hc2]

/-- Position by position, a matcher run for a wait-kind other than the
wildcard: the array keeps its length; the first context that waits on the
signal's wait-kind and descriptor gets the status and is unblocked; every
other context is as it was; and no other thread is unblocked. -/
theorem eventUnblockJavaThread_exact_pointwise (NO_SIGNAL W : Nat) (D status : Int)
    (hW : W ≠ NO_SIGNAL) (hlt : W < 2 ^ 31) :
    ∀ threads : List JVMSPI_BlockedThreadInfo,
      (eventUnblockJavaThread NO_SIGNAL threads W D status).blocked_threads.length =
        threads.length ∧
      (∀ i t, threads[i]? = some t →
        (FirstAt W D threads i →
          (eventUnblockJavaThread NO_SIGNAL threads W D status).blocked_threads[i]? =
            some (setStatus status t) ∧
          (eventUnblockJavaThread NO_SIGNAL threads W D status).unblocked =
            [t.thread_id] ∧
          (eventUnblockJavaThread NO_SIGNAL threads W D status).ret = 1) ∧
        (¬ FirstAt W D threads i →
          (eventUnblockJavaThread NO_SIGNAL threads W D status).blocked_threads[i]? =
            some t)) ∧
      (∀ id ∈ (eventUnblockJavaThread NO_SIGNAL threads W D status).unblocked,
        ∃ i t, threads[i]? = some t ∧ FirstAt W D threads i ∧ t.thread_id = id) ∧
      ((∀ i, ¬ FirstAt W D threads i) →
        eventUnblockJavaThread NO_SIGNAL threads W D status = ⟨0, threads, []⟩) := by
  intro threads
  induction threads with
  | nil =>
    refine ⟨rfl, ?_, ?_, ?_⟩
    · intro i t h
      simp at h
    · intro id h
      simp [eventUnblockJavaThread] at h
    · intro _
      rfl
  | cons t rest ih =>
    obtain ⟨ihlen, ihpt, ihun, ihnone⟩ := ih
    by_cases hsel : WaitsOn W D t
    · rw [eventUnblockJavaThread_cons_hit NO_SIGNAL W D status t rest hlt hsel]
      refine ⟨rfl, ?_, ?_, ?_⟩
      · intro i u hu
        cases i with
        | zero =>
          simp only [List.getElem?_cons_zero, Option.some.injEq] at hu
          subst hu
          refine ⟨fun _ => ⟨(by simp), rfl, rfl⟩, fun hn => ?_⟩
          exact absurd ((FirstAt_zero _ _ _ _).mpr hsel) hn
        | succ k =>
          refine ⟨fun hf => ?_, fun _ => ?_⟩
          · exact absurd hsel ((FirstAt_succ _ _ _ _ _).mp hf).1
          · simpa using hu
      · intro id hid
        simp only [List.mem_singleton] at hid
        exact ⟨0, t, (by simp), (FirstAt_zero _ _ _ _).mpr hsel, hid.symm⟩
      · intro hnone
        exact absurd ((FirstAt_zero _ _ _ _).mpr hsel) (hnone 0)
    · rw [eventUnblockJavaThread_cons_skip NO_SIGNAL W D status t rest hW hlt hsel]
      refine ⟨by simp [ihlen], ?_, ?_, ?_⟩
      · intro i u hu
        cases i with
        | zero =>
          simp only [List.getElem?_cons_zero, Option.some.injEq] at hu
          subst hu
          refine ⟨fun hf => ?_, fun _ => (by simp)⟩
          exact absurd ((FirstAt_zero _ _ _ _).mp hf) hsel
        | succ k =>
          have hu' : rest[k]? = some u := by simpa using hu
          obtain ⟨h1, h2⟩ := ihpt k u hu'
          refine ⟨fun hf => ?_, fun hn => ?_⟩
          · obtain ⟨ha, hb, hc⟩ := h1 ((FirstAt_succ _ _ _ _ _).mp hf).2
            exact ⟨by simpa using ha, hb, hc⟩
          · have hn' : ¬ FirstAt W D rest k := fun hf =>
              hn ((FirstAt_succ _ _ _ _ _).mpr ⟨hsel, hf⟩)
            simpa using h2 hn'
      · intro id hid
        obtain ⟨i, u, hu, hf, hid'⟩ := ihun id hid
        exact ⟨i + 1, u, by simpa using hu, (FirstAt_succ _ _ _ _ _).mpr ⟨hsel, hf⟩, hid'⟩
      · intro hnone
        have hrest : ∀ i, ¬ FirstAt W D rest i := fun i hf =>
          hnone (i + 1) ((FirstAt_succ _ _ _ _ _).mpr ⟨hsel, hf⟩)
        rw [ihnone hrest]


theorem FirstAt_nil (w d : Int) (i : Nat) : ¬ FirstAt w d [] i := by
  simp [FirstAt]

theorem FirstAt_unique (w d : Int) :
    ∀ (l : List JVMSPI_BlockedThreadInfo) (i k : Nat),
      FirstAt w d l i → FirstAt w d l k → i = k := by
  intro l
  induction l with
  | nil => intro i k h; exact absurd h (FirstAt_nil w d i)
  | cons a rest ih =>
    intro i k hi hk
    cases i with
    | zero =>
      cases k with
      | zero => rfl
      | succ k =>
        exact absurd ((FirstAt_zero _ _ _ _).mp hi) ((FirstAt_succ _ _ _ _ _).mp hk).1
    | succ i =>
      cases k with
      | zero =>
        exact absurd ((FirstAt_zero _ _ _ _).mp hk) ((FirstAt_succ _ _ _ _ _).mp hi).1
      | succ k =>
        rw [ih i k ((FirstAt_succ _ _ _ _ _).mp hi).2 ((FirstAt_succ _ _ _ _ _).mp hk).2]

/-- The context at the first waiting position waits on the pair. -/
theorem FirstAt_waits (w d : Int) (l : List JVMSPI_BlockedThreadInfo) (i : Nat)
    (t : JVMSPI_BlockedThreadInfo) (ht : l[i]? = some t) (h : FirstAt w d l i) :
    WaitsOn w d t := by
  have h1 := h.1
  rw [ht] at h1
  exact h1

theorem FirstAt_get (w d : Int) (l : List JVMSPI_BlockedThreadInfo) (i : Nat)
    (h : FirstAt w d l i) : ∃ t, l[i]? = some t ∧ WaitsOn w d t := by
  have h1 := h.1
  cases ht : l[i]? with
  | none => rw [ht] at h1; exact absurd h1 id
  | some t => rw [ht] at h1; exact ⟨t, rfl, h1⟩

/-- When some context waits on the pair, there is a first one. -/
theorem exists_FirstAt (w d : Int) :
    ∀ l : List JVMSPI_BlockedThreadInfo, (∃ t ∈ l, WaitsOn w d t) →
      ∃ i t, l[i]? = some t ∧ FirstAt w d l i := by
  intro l
  induction l with
  | nil => rintro ⟨t, ht, _⟩; cases ht
  | cons a rest ih =>
    rintro ⟨t, ht, hw⟩
    by_cases ha : WaitsOn w d a
    · exact ⟨0, a, by simp, (FirstAt_zero _ _ _ _).mpr ha⟩
    · rcases List.mem_cons.mp ht with h | h
      · rw [h] at hw; exact absurd hw ha
      · obtain ⟨i, u, hu, hf⟩ := ih ⟨t, h, hw⟩
        exact ⟨i + 1, u, by simpa using hu, (FirstAt_succ _ _ _ _ _).mpr ⟨ha, hf⟩⟩

/-- Storing a status in one context does not change which position is the
first to wait on a pair. -/
theorem FirstAt_set (w d status : Int) :
    ∀ (l : List JVMSPI_BlockedThreadInfo) (i k : Nat) (t : JVMSPI_BlockedThreadInfo),
      l[i]? = some t →
      (FirstAt w d (l.set i (setStatus status t)) k ↔ FirstAt w d l k) := by
  intro l
  induction l with
  | nil => intro i k t h; simp at h
  | cons a rest ih =>
    intro i k t h
    cases i with
    | zero =>
      simp only [List.getElem?_cons_zero, Option.some.injEq] at h
      subst h
      cases k with
      | zero => simp only [List.set_cons_zero, FirstAt_zero, WaitsOn_setStatus]
      | succ k => simp only [List.set_cons_zero, FirstAt_succ, WaitsOn_setStatus]
    | succ i =>
      have h' : rest[i]? = some t := by simpa using h
      cases k with
      | zero => simp only [List.set_cons_succ, FirstAt_zero]
      | succ k => simp only [List.set_cons_succ, FirstAt_succ, ih i k t h']

/-- A matcher run for a wait-kind other than the wildcard, when position `i`
is the first to wait on the signal's pair: exactly that context gets the
status and exactly that thread is unblocked. -/
theorem eventUnblockJavaThread_exact_set (NO_SIGNAL W : Nat) (D status : Int)
    (hW : W ≠ NO_SIGNAL) (hlt : W < 2 ^ 31) :
    ∀ (threads : List JVMSPI_BlockedThreadInfo) (i : Nat) (t : JVMSPI_BlockedThreadInfo),
      threads[i]? = some t → FirstAt W D threads i →
      eventUnblockJavaThread NO_SIGNAL threads W D status =
        ⟨1, threads.set i (setStatus status t), [t.thread_id]⟩ := by
  intro threads
  induction threads with
  | nil => intro i t h; simp at h
  | cons a rest ih =>
    intro i t h hf
    cases i with
    | zero =>
      simp only [List.getElem?_cons_zero, Option.some.injEq] at h
      subst h
      rw [eventUnblockJavaThread_cons_hit NO_SIGNAL W D status a rest hlt
        ((FirstAt_zero _ _ _ _).mp hf)]
      rfl
    | succ i =>
      have h' : rest[i]? = some t := by simpa using h
      obtain ⟨hna, hfr⟩ := (FirstAt_succ _ _ _ _ _).mp hf
      rw [eventUnblockJavaThread_cons_skip NO_SIGNAL W D status a rest hW hlt hna,
        ih i t h' hfr]
      rfl

/-- A matcher run for a wait-kind other than the wildcard, when no context
waits on the signal's pair: nothing changes. -/
theorem eventUnblockJavaThread_exact_none (NO_SIGNAL W : Nat) (D status : Int)
    (hW : W ≠ NO_SIGNAL) (hlt : W < 2 ^ 31) (threads : List JVMSPI_BlockedThreadInfo)
    (hnone : ∀ i, ¬ FirstAt W D threads i) :
    eventUnblockJavaThread NO_SIGNAL threads W D status = ⟨0, threads, []⟩ :=
  (eventUnblockJavaThread_exact_pointwise NO_SIGNAL W D status hW hlt threads).2.2.2 hnone


/-- A signal whose wait-kind is `NETWORK_READ_SIGNAL` reaches the
`NETWORK_READ_SIGNAL` case. -/
theorem dispatchSignal_read (P : Platform) (s : MidpReentryData) (e : MidpEvent)
    (threads : List JVMSPI_BlockedThreadInfo)
    (hw : s.waitingFor = P.sig.NETWORK_READ_SIGNAL)
    (hdbg : P.cfg.ENABLE_JAVA_DEBUGGER = true →
      P.sig.NETWORK_READ_SIGNAL ≠ P.sig.VM_DEBUG_SIGNAL)
    (hams : P.sig.NETWORK_READ_SIGNAL ≠ P.sig.AMS_SIGNAL)
    (hui : P.sig.NETWORK_READ_SIGNAL ≠ P.sig.UI_SIGNAL) :
    dispatchSignal P s e threads = dispatchNetworkRead P s threads := by
  have h1 : ¬ (P.cfg.ENABLE_JAVA_DEBUGGER = true ∧
      s.waitingFor = (P.sig.VM_DEBUG_SIGNAL : Int)) := by
    rintro ⟨ha, hb⟩
    rw [hw] at hb
    exact hdbg ha (by exact_mod_cast hb)
  have h2 : ¬ s.waitingFor = (P.sig.AMS_SIGNAL : Int) := by
    rw [hw]; exact_mod_cast hams
  have h3 : ¬ s.waitingFor = (P.sig.UI_SIGNAL : Int) := by
    rw [hw]; exact_mod_cast hui
  unfold dispatchSignal
  simp only [if_neg h1, if_neg h2, if_neg h3, if_pos hw]

/-- C16: a socket record with wait-kind `NETWORK_READ_SIGNAL` and handle `h`
is appended to an empty buffer, and `midp_slavemode_handle_events` is invoked
once with a blocked-thread array in which some context waits on
`(NETWORK_READ_SIGNAL, h)`.  The invocation returns 0; the first context that
waits on `(NETWORK_READ_SIGNAL, h)` gets the record's status and is unblocked;
every other context is as it was; the only external call is that
`midp_thread_unblock` (so neither `findPushBlockedHandle`,
`midp_thread_signal_list` nor `jsr120_check_signal` is called); and the buffer
is empty again. -/
theorem socket_read_end_to_end (P : Platform) (st : PortState)
    (threads : List JVMSPI_BlockedThreadInfo) (bytes : List UChar) (len timeout h : Int)
    (hwf : WellFormed P.MAX_EVENTS st.buffer) (hinv : BufferInv P.MAX_EVENTS st.buffer)
    (hempty : st.buffer.size = 0)
    (h0 : 0 ≤ len) (h1 : len.toNat ≤ EVENT_DATA_CAPACITY) (h2 : len.toNat ≤ bytes.length)
    (hfit : len ≤ (P.BINARY_BUFFER_MAX_LEN : Int))
    (hbin : st.binaryBuffer.length = P.BINARY_BUFFER_MAX_LEN)
    (htag : (P.view (bytes.take len.toNat ++ st.binaryBuffer.drop len.toNat)).eventType =
      MIDP_JC_EVENT_SOCKET)
    (hkind : (P.view (bytes.take len.toNat ++
      st.binaryBuffer.drop len.toNat)).socketEvent_waitingFor = P.sig.NETWORK_READ_SIGNAL)
    (hhandle : (P.view (bytes.take len.toNat ++
      st.binaryBuffer.drop len.toNat)).socketEvent_handle = h)
    (hno : P.sig.NETWORK_READ_SIGNAL ≠ P.sig.NO_SIGNAL)
    (hlt : P.sig.NETWORK_READ_SIGNAL < 2 ^ 31)
    (hdbg : P.cfg.ENABLE_JAVA_DEBUGGER = true →
      P.sig.NETWORK_READ_SIGNAL ≠ P.sig.VM_DEBUG_SIGNAL)
    (hams : P.sig.NETWORK_READ_SIGNAL ≠ P.sig.AMS_SIGNAL)
    (hui : P.sig.NETWORK_READ_SIGNAL ≠ P.sig.UI_SIGNAL)
    (hwait : ∃ t ∈ threads, WaitsOn P.sig.NETWORK_READ_SIGNAL h t) :
    ∃ i t res, threads[i]? = some t ∧ FirstAt P.sig.NETWORK_READ_SIGNAL h threads i ∧
      sendAndHandle P st threads bytes len timeout = some res ∧
      res.ret = 0 ∧
      res.blocked_threads = threads.set i (setStatus (P.view (bytes.take len.toNat ++
        st.binaryBuffer.drop len.toNat)).socketEvent_status t) ∧
      res.calls = [ExtCall.midp_thread_unblock t.thread_id] ∧
      res.state.newSignal.waitingFor = P.sig.NETWORK_READ_SIGNAL ∧
      res.state.newSignal.descriptor = h ∧
      res.state.buffer.size = 0 := by
  have hsize : st.buffer.size ≠ (P.MAX_EVENTS : Int) := by
    obtain ⟨_, _, hi0, hi1⟩ := hinv
    omega
  obtain ⟨s2, hsz, hidx, hrun⟩ := sendAndHandle_ok P st threads bytes len timeout hwf hinv
    hsize h0 h1 h2 hfit hbin
  obtain ⟨i, t, hti, hfirst⟩ := exists_FirstAt _ _ threads hwait
  have hdec : decodeEvent P (P.view (bytes.take len.toNat ++ st.binaryBuffer.drop len.toNat))
      ⟨0, st.newSignal.descriptor, st.newSignal.status, 0⟩ P.initEvent threads =
      ⟨⟨P.sig.NETWORK_READ_SIGNAL, h,
          (P.view (bytes.take len.toNat ++ st.binaryBuffer.drop len.toNat)).socketEvent_status,
          (P.view (bytes.take len.toNat ++
            st.binaryBuffer.drop len.toNat)).socketEvent_extraData⟩,
        P.initEvent, threads, []⟩ := by
    simp only [decodeEvent, htag, hkind, hhandle]
  have hmatch := eventUnblockJavaThread_exact_set P.sig.NO_SIGNAL P.sig.NETWORK_READ_SIGNAL h
    (P.view (bytes.take len.toNat ++ st.binaryBuffer.drop len.toNat)).socketEvent_status
    hno hlt threads i t hti hfirst
  have hdisp : dispatchNetworkRead P
      ⟨P.sig.NETWORK_READ_SIGNAL, h,
        (P.view (bytes.take len.toNat ++ st.binaryBuffer.drop len.toNat)).socketEvent_status,
        (P.view (bytes.take len.toNat ++
          st.binaryBuffer.drop len.toNat)).socketEvent_extraData⟩ threads =
      ⟨threads.set i (setStatus (P.view (bytes.take len.toNat ++
          st.binaryBuffer.drop len.toNat)).socketEvent_status t),
        [ExtCall.midp_thread_unblock t.thread_id]⟩ := by
    unfold dispatchNetworkRead
    simp only [toUnsigned_small _ hlt, hmatch]
    simp [unblockCalls]
  rw [hdec, dispatchSignal_read P _ _ threads rfl hdbg hams hui, hdisp] at hrun
  refine ⟨i, t, _, hti, hfirst, hrun, rfl, rfl, rfl, rfl, rfl, ?_⟩
  show s2.size = 0
  rw [hsz, hempty]

/-- C16 at a concrete input: the sample platform, the start state, the socket
record `[3, 2, 7, 5, 9]` (wait-kind 2, handle 7, status 5) and the four sample
contexts, of which the second waits on `(2, 7)`. -/
theorem socket_read_end_to_end_witness :
    (∃ t ∈ sampleThreads, WaitsOn samplePlatform.sig.NETWORK_READ_SIGNAL 7 t) ∧
    sendAndHandle samplePlatform (initPortState samplePlatform) sampleThreads socketRecord 5
        0 =
      some ⟨0,
        ⟨{ (queued socketRecord).buffer with index := 0, size := 0 },
          [3, 2, 7, 5, 9, 0, 0, 0], ⟨2, 7, 5, 9⟩, samplePlatform.initEvent⟩,
        [⟨10, none⟩, ⟨11, some ⟨2, 7, 5, 0⟩⟩, ⟨12, some ⟨3, 7, 0, 0⟩⟩,
          ⟨13, some ⟨3, 7, 0, 0⟩⟩],
        [ExtCall.midp_thread_unblock 11]⟩ ∧
    ∃ i t res, sampleThreads[i]? = some t ∧
      FirstAt samplePlatform.sig.NETWORK_READ_SIGNAL 7 sampleThreads i ∧
      sendAndHandle samplePlatform (initPortState samplePlatform) sampleThreads socketRecord
        5 0 = some res ∧
      res.ret = 0 ∧
      res.blocked_threads = sampleThreads.set i (setStatus
        (samplePlatform.view (socketRecord.take (5 : Int).toNat ++
          (initPortState samplePlatform).binaryBuffer.drop
            (5 : Int).toNat)).socketEvent_status t) ∧
      res.calls = [ExtCall.midp_thread_unblock t.thread_id] ∧
      res.state.newSignal.waitingFor = samplePlatform.sig.NETWORK_READ_SIGNAL ∧
      res.state.newSignal.descriptor = 7 ∧
      res.state.buffer.size = 0 :=
  ⟨by decide, by decide,
    socket_read_end_to_end samplePlatform (initPortState samplePlatform) sampleThreads
      socketRecord 5 0 7 (by decide) (by decide) (by decide) (by decide) (by decide)
      (by decide) (by decide) (by decide) (by decide) (by decide) (by decide) (by decide)
      (by decide) (by decide) (by decide) (by decide) (by decide)⟩


/-- A signal whose wait-kind is `NETWORK_EXCEPTION_SIGNAL` reaches the
`NETWORK_EXCEPTION_SIGNAL` case. -/
theorem dispatchSignal_exception (P : Platform) (s : MidpReentryData) (e : MidpEvent)
    (threads : List JVMSPI_BlockedThreadInfo)
    (hw : s.waitingFor = P.sig.NETWORK_EXCEPTION_SIGNAL)
    (hdbg : P.cfg.ENABLE_JAVA_DEBUGGER = true →
      P.sig.NETWORK_EXCEPTION_SIGNAL ≠ P.sig.VM_DEBUG_SIGNAL)
    (hams : P.sig.NETWORK_EXCEPTION_SIGNAL ≠ P.sig.AMS_SIGNAL)
    (hui : P.sig.NETWORK_EXCEPTION_SIGNAL ≠ P.sig.UI_SIGNAL)
    (hread : P.sig.NETWORK_EXCEPTION_SIGNAL ≠ P.sig.NETWORK_READ_SIGNAL)
    (hhost : P.sig.NETWORK_EXCEPTION_SIGNAL ≠ P.sig.HOST_NAME_LOOKUP_SIGNAL)
    (hwrite : P.sig.NETWORK_EXCEPTION_SIGNAL ≠ P.sig.NETWORK_WRITE_SIGNAL) :
    dispatchSignal P s e threads = dispatchNetworkException P s threads := by
  have h1 : ¬ (P.cfg.ENABLE_JAVA_DEBUGGER = true ∧
      s.waitingFor = (P.sig.VM_DEBUG_SIGNAL : Int)) := by
    rintro ⟨ha, hb⟩
    rw [hw] at hb
    exact hdbg ha (by exact_mod_cast hb)
  have h2 : ¬ s.waitingFor = (P.sig.AMS_SIGNAL : Int) := by
    rw [hw]; exact_mod_cast hams
  have h3 : ¬ s.waitingFor = (P.sig.UI_SIGNAL : Int) := by
    rw [hw]; exact_mod_cast hui
  have h4 : ¬ s.waitingFor = (P.sig.NETWORK_READ_SIGNAL : Int) := by
    rw [hw]; exact_mod_cast hread
  have h5 : ¬ (s.waitingFor = (P.sig.HOST_NAME_LOOKUP_SIGNAL : Int) ∨
      s.waitingFor = (P.sig.NETWORK_WRITE_SIGNAL : Int)) := by
    rw [hw]
    rintro (h | h)
    · exact hhost (by exact_mod_cast h)
    · exact hwrite (by exact_mod_cast h)
  unfold dispatchSignal
  simp only [if_neg h1, if_neg h2, if_neg h3, if_neg h4, if_neg h5, if_pos hw]

/-- Position by position, the `NETWORK_EXCEPTION_SIGNAL` case: the first
context that waits on `(NETWORK_READ_SIGNAL, D)` and the first that waits on
`(NETWORK_WRITE_SIGNAL, D)` get the status and are unblocked; every other
context is as it was; no other thread is unblocked. -/
theorem dispatchNetworkException_pointwise (P : Platform) (s : MidpReentryData)
    (threads : List JVMSPI_BlockedThreadInfo)
    (hrno : P.sig.NETWORK_READ_SIGNAL ≠ P.sig.NO_SIGNAL)
    (hwno : P.sig.NETWORK_WRITE_SIGNAL ≠ P.sig.NO_SIGNAL)
    (hrlt : P.sig.NETWORK_READ_SIGNAL < 2 ^ 31)
    (hwlt : P.sig.NETWORK_WRITE_SIGNAL < 2 ^ 31)
    (hrw : P.sig.NETWORK_READ_SIGNAL ≠ P.sig.NETWORK_WRITE_SIGNAL) :
    (dispatchNetworkException P s threads).blocked_threads.length = threads.length ∧
    (∀ k t, threads[k]? = some t →
      ((FirstAt P.sig.NETWORK_READ_SIGNAL s.descriptor threads k ∨
          FirstAt P.sig.NETWORK_WRITE_SIGNAL s.descriptor threads k) →
        (dispatchNetworkException P s threads).blocked_threads[k]? =
          some (setStatus s.status t) ∧
        ExtCall.midp_thread_unblock t.thread_id ∈
          (dispatchNetworkException P s threads).calls) ∧
      (¬ (FirstAt P.sig.NETWORK_READ_SIGNAL s.descriptor threads k ∨
          FirstAt P.sig.NETWORK_WRITE_SIGNAL s.descriptor threads k) →
        (dispatchNetworkException P s threads).blocked_threads[k]? = some t)) ∧
    (∀ c ∈ (dispatchNetworkException P s threads).calls,
      ∃ k t, threads[k]? = some t ∧
        (FirstAt P.sig.NETWORK_READ_SIGNAL s.descriptor threads k ∨
          FirstAt P.sig.NETWORK_WRITE_SIGNAL s.descriptor threads k) ∧
        c = ExtCall.midp_thread_unblock t.thread_id) := by
  have hcast : ((P.sig.NETWORK_READ_SIGNAL : Nat) : Int) ≠ (P.sig.NETWORK_WRITE_SIGNAL : Int) := by
    exact_mod_cast hrw
  by_cases hR : ∃ i, FirstAt P.sig.NETWORK_READ_SIGNAL s.descriptor threads i
  · obtain ⟨i, hfi⟩ := hR
    obtain ⟨tr, htr, hwr⟩ := FirstAt_get _ _ _ _ hfi
    have hilt : i < threads.length := by
      rcases Nat.lt_or_ge i threads.length with h | h
      · exact h
      · rw [List.getElem?_eq_none h] at htr; cases htr
    have hr1 := eventUnblockJavaThread_exact_set P.sig.NO_SIGNAL P.sig.NETWORK_READ_SIGNAL
      s.descriptor s.status hrno hrlt threads i tr htr hfi
    obtain ⟨hlen2, hpt2, hun2, _⟩ := eventUnblockJavaThread_exact_pointwise P.sig.NO_SIGNAL
      P.sig.NETWORK_WRITE_SIGNAL s.descriptor s.status hwno hwlt
      (threads.set i (setStatus s.status tr))
    have hnw : ¬ WaitsOn P.sig.NETWORK_WRITE_SIGNAL s.descriptor tr := by
      rintro ⟨p, hp, hpw, _⟩
      obtain ⟨q, hq, hqw, _⟩ := hwr
      rw [hp] at hq
      injection hq with hq
      subst hq
      rw [hpw] at hqw
      exact hcast hqw.symm
    have hnfw : ¬ FirstAt P.sig.NETWORK_WRITE_SIGNAL s.descriptor threads i := fun hf =>
      hnw (FirstAt_waits _ _ _ _ _ htr hf)
    unfold dispatchNetworkException
    simp only [hr1]
    refine ⟨?_, ?_, ?_⟩
    · rw [hlen2, List.length_set]
    · intro k t hk
      by_cases hki : k = i
      · subst hki
        rw [htr] at hk
        injection hk with hk
        subst hk
        have hget : (threads.set k (setStatus s.status tr))[k]? =
            some (setStatus s.status tr) := List.getElem?_set_self hilt
        have hnf : ¬ FirstAt P.sig.NETWORK_WRITE_SIGNAL s.descriptor
            (threads.set k (setStatus s.status tr)) k := fun hf =>
          hnfw ((FirstAt_set _ _ _ _ _ _ _ htr).mp hf)
        refine ⟨fun _ => ⟨(hpt2 k _ hget).2 hnf, ?_⟩, fun hn => absurd (Or.inl hfi) hn⟩
        simp [unblockCalls]
      · have hget : (threads.set i (setStatus s.status tr))[k]? = some t := by
          rw [List.getElem?_set_ne (fun h => hki h.symm)]
          exact hk
        refine ⟨fun hor => ?_, fun hn => ?_⟩
        · rcases hor with hf | hf
          · exact absurd (FirstAt_unique _ _ _ _ _ hf hfi) hki
          · obtain ⟨ha, hb, _⟩ := (hpt2 k t hget).1
              ((FirstAt_set _ _ _ _ _ _ _ htr).mpr hf)
            refine ⟨ha, ?_⟩
            simp [unblockCalls, hb]
        · have hnf : ¬ FirstAt P.sig.NETWORK_WRITE_SIGNAL s.descriptor
              (threads.set i (setStatus s.status tr)) k := fun hf =>
            hn (Or.inr ((FirstAt_set _ _ _ _ _ _ _ htr).mp hf))
          exact (hpt2 k t hget).2 hnf
    · intro c hc
      simp only [unblockCalls, List.map_cons, List.map_nil, List.mem_append, List.mem_cons,
        List.mem_map, List.not_mem_nil, or_false] at hc
      rcases hc with h | ⟨id, hid, h⟩
      · exact ⟨i, tr, htr, Or.inl hfi, h⟩
      · obtain ⟨k, u, hu, hf, hid'⟩ := hun2 id hid
        have hfk := (FirstAt_set _ _ _ _ _ _ _ htr).mp hf
        have hki : k ≠ i := fun h => hnfw (h ▸ hfk)
        have hget : threads[k]? = some u := by
          rw [List.getElem?_set_ne (fun h => hki h.symm)] at hu
          exact hu
        exact ⟨k, u, hget, Or.inr hfk, by rw [← h, hid']⟩
  · have hnone : ∀ i, ¬ FirstAt P.sig.NETWORK_READ_SIGNAL s.descriptor threads i :=
      fun i hf => hR ⟨i, hf⟩
    have hr1 := eventUnblockJavaThread_exact_none P.sig.NO_SIGNAL P.sig.NETWORK_READ_SIGNAL
      s.descriptor s.status hrno hrlt threads hnone
    obtain ⟨hlen2, hpt2, hun2, _⟩ := eventUnblockJavaThread_exact_pointwise P.sig.NO_SIGNAL
      P.sig.NETWORK_WRITE_SIGNAL s.descriptor s.status hwno hwlt threads
    unfold dispatchNetworkException
    simp only [hr1]
    refine ⟨hlen2, ?_, ?_⟩
    · intro k t hk
      refine ⟨fun hor => ?_, fun hn => (hpt2 k t hk).2 (fun hf => hn (Or.inr hf))⟩
      rcases hor with hf | hf
      · exact absurd hf (hnone k)
      · obtain ⟨ha, hb, _⟩ := (hpt2 k t hk).1 hf
        refine ⟨ha, ?_⟩
        simp [unblockCalls, hb]
    · intro c hc
      simp only [unblockCalls, List.map_nil, List.nil_append, List.mem_map] at hc
      obtain ⟨id, hid, h⟩ := hc
      obtain ⟨k, u, hu, hf, hid'⟩ := hun2 id hid
      exact ⟨k, u, hu, Or.inr hf, by rw [← h, hid']⟩


/-- C15: `midp_slavemode_handle_events` receives a socket record whose
wait-kind is `NETWORK_EXCEPTION_SIGNAL`, whose handle is `D` and whose status
is `status`.  It returns 0 and the blocked-thread array keeps its length.
When some context waits on `(NETWORK_READ_SIGNAL, D)`, the first such context
gets `status` and is unblocked; when some context waits on
`(NETWORK_WRITE_SIGNAL, D)`, the first such context gets `status` and is
unblocked.  Every context other than these two is as it was, in particular
every context whose descriptor is not `D`; and every external call is a
`midp_thread_unblock` of a context that waits on `D` for reading or
writing. -/
theorem network_exception_dispatch (P : Platform) (st : PortState)
    (threads : List JVMSPI_BlockedThreadInfo) (timeout : Int) (r : ReceiveResult)
    (D status : Int)
    (hrecv : javacall_event_receive P.MAX_EVENTS st.buffer (timeTowaitInMillisec timeout)
      st.binaryBuffer P.BINARY_BUFFER_MAX_LEN 0 = some r)
    (hok : r.result = JAVACALL_OK)
    (htag : (P.view r.binaryBuffer).eventType = MIDP_JC_EVENT_SOCKET)
    (hkind : (P.view r.binaryBuffer).socketEvent_waitingFor =
      P.sig.NETWORK_EXCEPTION_SIGNAL)
    (hhandle : (P.view r.binaryBuffer).socketEvent_handle = D)
    (hstatus : (P.view r.binaryBuffer).socketEvent_status = status)
    (hdbg : P.cfg.ENABLE_JAVA_DEBUGGER = true →
      P.sig.NETWORK_EXCEPTION_SIGNAL ≠ P.sig.VM_DEBUG_SIGNAL)
    (hams : P.sig.NETWORK_EXCEPTION_SIGNAL ≠ P.sig.AMS_SIGNAL)
    (hui : P.sig.NETWORK_EXCEPTION_SIGNAL ≠ P.sig.UI_SIGNAL)
    (hread : P.sig.NETWORK_EXCEPTION_SIGNAL ≠ P.sig.NETWORK_READ_SIGNAL)
    (hhost : P.sig.NETWORK_EXCEPTION_SIGNAL ≠ P.sig.HOST_NAME_LOOKUP_SIGNAL)
    (hwrite : P.sig.NETWORK_EXCEPTION_SIGNAL ≠ P.sig.NETWORK_WRITE_SIGNAL)
    (hrno : P.sig.NETWORK_READ_SIGNAL ≠ P.sig.NO_SIGNAL)
    (hwno : P.sig.NETWORK_WRITE_SIGNAL ≠ P.sig.NO_SIGNAL)
    (hrlt : P.sig.NETWORK_READ_SIGNAL < 2 ^ 31)
    (hwlt : P.sig.NETWORK_WRITE_SIGNAL < 2 ^ 31)
    (hrw : P.sig.NETWORK_READ_SIGNAL ≠ P.sig.NETWORK_WRITE_SIGNAL) :
    ∃ res, midp_slavemode_handle_events P st threads timeout = some res ∧
      res.ret = 0 ∧
      res.blocked_threads.length = threads.length ∧
      ((∃ t ∈ threads, WaitsOn P.sig.NETWORK_READ_SIGNAL D t) →
        ∃ k t, threads[k]? = some t ∧ FirstAt P.sig.NETWORK_READ_SIGNAL D threads k ∧
          res.blocked_threads[k]? = some (setStatus status t) ∧
          ExtCall.midp_thread_unblock t.thread_id ∈ res.calls) ∧
      ((∃ t ∈ threads, WaitsOn P.sig.NETWORK_WRITE_SIGNAL D t) →
        ∃ k t, threads[k]? = some t ∧ FirstAt P.sig.NETWORK_WRITE_SIGNAL D threads k ∧
          res.blocked_threads[k]? = some (setStatus status t) ∧
          ExtCall.midp_thread_unblock t.thread_id ∈ res.calls) ∧
      (∀ k t, threads[k]? = some t →
        ¬ (FirstAt P.sig.NETWORK_READ_SIGNAL D threads k ∨
          FirstAt P.sig.NETWORK_WRITE_SIGNAL D threads k) →
        res.blocked_threads[k]? = some t) ∧
      (∀ (k : Nat) (t : JVMSPI_BlockedThreadInfo), threads[k]? = some t →
        (∀ p : MidpReentryData, t.reentry_data = some p → p.descriptor ≠ D) →
        res.blocked_threads[k]? = some t) ∧
      (∀ c ∈ res.calls, ∃ (k : Nat) (t : JVMSPI_BlockedThreadInfo) (p : MidpReentryData),
        threads[k]? = some t ∧ t.reentry_data = some p ∧
        p.descriptor = D ∧
        (p.waitingFor = P.sig.NETWORK_READ_SIGNAL ∨
          p.waitingFor = P.sig.NETWORK_WRITE_SIGNAL) ∧
        c = ExtCall.midp_thread_unblock t.thread_id) := by
  have hrun := midp_slavemode_handle_events_ok P st threads timeout r hrecv hok
  have hdec : decodeEvent P (P.view r.binaryBuffer)
      ⟨0, st.newSignal.descriptor, st.newSignal.status, 0⟩ P.initEvent threads =
      ⟨⟨P.sig.NETWORK_EXCEPTION_SIGNAL, D, status,
          (P.view r.binaryBuffer).socketEvent_extraData⟩, P.initEvent, threads, []⟩ := by
    simp only [decodeEvent, htag, hkind, hhandle, hstatus]
  rw [hdec, dispatchSignal_exception P _ _ threads rfl hdbg hams hui hread hhost hwrite]
    at hrun
  obtain ⟨hlen, hpt, hcalls⟩ := dispatchNetworkException_pointwise P
    ⟨P.sig.NETWORK_EXCEPTION_SIGNAL, D, status,
      (P.view r.binaryBuffer).socketEvent_extraData⟩ threads hrno hwno hrlt hwlt hrw
  refine ⟨_, hrun, rfl, hlen, ?_, ?_, ?_, ?_, ?_⟩
  · intro hw
    obtain ⟨k, t, hk, hf⟩ := exists_FirstAt _ _ threads hw
    obtain ⟨ha, hb⟩ := (hpt k t hk).1 (Or.inl hf)
    exact ⟨k, t, hk, hf, ha, by simpa using hb⟩
  · intro hw
    obtain ⟨k, t, hk, hf⟩ := exists_FirstAt _ _ threads hw
    obtain ⟨ha, hb⟩ := (hpt k t hk).1 (Or.inr hf)
    exact ⟨k, t, hk, hf, ha, by simpa using hb⟩
  · intro k t hk hn
    exact (hpt k t hk).2 hn
  · intro k t hk hd
    refine (hpt k t hk).2 ?_
    rintro (hf | hf)
    · obtain ⟨p, hp, _, hpd⟩ := FirstAt_waits _ _ _ _ _ hk hf
      exact hd p hp hpd
    · obtain ⟨p, hp, _, hpd⟩ := FirstAt_waits _ _ _ _ _ hk hf
      exact hd p hp hpd
  · intro c hc
    obtain ⟨k, t, hk, hor, hceq⟩ := hcalls c (by simpa using hc)
    rcases hor with hf | hf
    · obtain ⟨p, hp, hpw, hpd⟩ := FirstAt_waits _ _ _ _ _ hk hf
      exact ⟨k, t, p, hk, hp, hpd, Or.inl hpw, hceq⟩
    · obtain ⟨p, hp, hpw, hpd⟩ := FirstAt_waits _ _ _ _ _ hk hf
      exact ⟨k, t, p, hk, hp, hpd, Or.inr hpw, hceq⟩

/-- C15 at a concrete input: the sample platform with the queued record
`[3, 4, 7, 5, 0]` (wait-kind `NETWORK_EXCEPTION_SIGNAL = 4`, handle 7, status
5) and the four sample contexts: thread 11, which waits on `(2, 7)`, and
thread 12, the first to wait on `(3, 7)`, are woken; thread 13 is not. -/
theorem network_exception_dispatch_witness :
    javacall_event_receive samplePlatform.MAX_EVENTS (queued exceptionRecord).buffer
        (timeTowaitInMillisec 0) (queued exceptionRecord).binaryBuffer
        samplePlatform.BINARY_BUFFER_MAX_LEN 0 =
      some ⟨JAVACALL_OK, [3, 4, 7, 5, 0, 0, 0, 0], 5,
        { (queued exceptionRecord).buffer with index := 0, size := 0 }⟩ ∧
    (midp_slavemode_handle_events samplePlatform (queued exceptionRecord) sampleThreads
        0).map (fun res => (res.ret, res.blocked_threads, res.calls)) =
      some (0,
        [⟨10, none⟩, ⟨11, some ⟨2, 7, 5, 0⟩⟩, ⟨12, some ⟨3, 7, 5, 0⟩⟩,
          ⟨13, some ⟨3, 7, 0, 0⟩⟩],
        [ExtCall.midp_thread_unblock 11, ExtCall.midp_thread_unblock 12]) ∧
    ∃ res, midp_slavemode_handle_events samplePlatform (queued exceptionRecord)
        sampleThreads 0 = some res ∧
      res.ret = 0 ∧
      res.blocked_threads.length = sampleThreads.length ∧
      ((∃ t ∈ sampleThreads, WaitsOn samplePlatform.sig.NETWORK_READ_SIGNAL 7 t) →
        ∃ k t, sampleThreads[k]? = some t ∧
          FirstAt samplePlatform.sig.NETWORK_READ_SIGNAL 7 sampleThreads k ∧
          res.blocked_threads[k]? = some (setStatus 5 t) ∧
          ExtCall.midp_thread_unblock t.thread_id ∈ res.calls) ∧
      ((∃ t ∈ sampleThreads, WaitsOn samplePlatform.sig.NETWORK_WRITE_SIGNAL 7 t) →
        ∃ k t, sampleThreads[k]? = some t ∧
          FirstAt samplePlatform.sig.NETWORK_WRITE_SIGNAL 7 sampleThreads k ∧
          res.blocked_threads[k]? = some (setStatus 5 t) ∧
          ExtCall.midp_thread_unblock t.thread_id ∈ res.calls) ∧
      (∀ k t, sampleThreads[k]? = some t →
        ¬ (FirstAt samplePlatform.sig.NETWORK_READ_SIGNAL 7 sampleThreads k ∨
          FirstAt samplePlatform.sig.NETWORK_WRITE_SIGNAL 7 sampleThreads k) →
        res.blocked_threads[k]? = some t) ∧
      (∀ (k : Nat) (t : JVMSPI_BlockedThreadInfo), sampleThreads[k]? = some t →
        (∀ p : MidpReentryData, t.reentry_data = some p → p.descriptor ≠ 7) →
        res.blocked_threads[k]? = some t) ∧
      (∀ c ∈ res.calls, ∃ (k : Nat) (t : JVMSPI_BlockedThreadInfo) (p : MidpReentryData),
        sampleThreads[k]? = some t ∧ t.reentry_data = some p ∧
        p.descriptor = 7 ∧
        (p.waitingFor = samplePlatform.sig.NETWORK_READ_SIGNAL ∨
          p.waitingFor = samplePlatform.sig.NETWORK_WRITE_SIGNAL) ∧
        c = ExtCall.midp_thread_unblock t.thread_id) :=
  ⟨by decide, by decide,
    network_exception_dispatch samplePlatform (queued exceptionRecord) sampleThreads 0
      ⟨JAVACALL_OK, [3, 4, 7, 5, 0, 0, 0, 0], 5,
        { (queued exceptionRecord).buffer with index := 0, size := 0 }⟩ 7 5
      (by decide) (by decide) (by decide) (by decide) (by decide) (by decide) (by decide)
      (by decide) (by decide) (by decide) (by decide) (by decide) (by decide) (by decide)
      (by decide) (by decide) (by decide)⟩


/-! ## Timeout conversion -/

/-- Masking a value of at most `0x7FFFFFFF` with `0x7FFFFFFF` keeps it. -/
theorem mask31_small (n : Nat) (h : n ≤ 0x7FFFFFFF) : n &&& 0x7FFFFFFF = n := by
  have hm : (0x7FFFFFFF : Nat) = 2 ^ 31 - 1 := by norm_num
  rw [hm, Nat.and_pow_two_sub_one_eq_mod]
  exact Nat.mod_eq_of_lt (by omega)

/-- C21: the wait value `checkForSystemSignal` computes from `timeout` (lines
389-395) and passes to `javacall_event_receive` is `-1` when
`timeout > 0x7FFFFFFF` or `timeout < 0`, and is `timeout` itself when
`0 ≤ timeout ≤ 0x7FFFFFFF`; it is therefore always `-1` or a value in
`[0, 2 ^ 31 - 1]`.  `midpTimeSlice` applies the same conversion to its local
`toInMillisec` whenever the time slice is not `-2`, and returns the time slice
itself. -/
theorem timeout_normalization (timeout : Int) :
    ((timeout > 0x7FFFFFFF ∨ timeout < 0) → timeTowaitInMillisec timeout = -1) ∧
    ((0 ≤ timeout ∧ timeout ≤ 0x7FFFFFFF) → timeTowaitInMillisec timeout = timeout) ∧
    (timeTowaitInMillisec timeout = -1 ∨
      (0 ≤ timeTowaitInMillisec timeout ∧ timeTowaitInMillisec timeout ≤ 2 ^ 31 - 1)) ∧
    (timeout ≠ -2 →
      (midpTimeSlice timeout).toInMillisec = some (timeTowaitInMillisec timeout)) ∧
    (midpTimeSlice timeout).ret = timeout := by
  have hin : (0 ≤ timeout ∧ timeout ≤ 0x7FFFFFFF) → timeTowaitInMillisec timeout = timeout := by
    rintro ⟨h0, h1⟩
    unfold timeTowaitInMillisec
    rw [if_neg (by omega), if_neg (by omega), mask31_small _ (by omega)]
    omega
  have hout : (timeout > 0x7FFFFFFF ∨ timeout < 0) → timeTowaitInMillisec timeout = -1 := by
    intro h
    unfold timeTowaitInMillisec
    split
    · rfl
    · rw [if_pos (by omega)]
  refine ⟨hout, hin, ?_, ?_, ?_⟩
  · by_cases h : timeout > 0x7FFFFFFF ∨ timeout < 0
    · exact Or.inl (hout h)
    · right
      have h' : 0 ≤ timeout ∧ timeout ≤ 0x7FFFFFFF := by omega
      rw [hin h']
      omega
  · intro hne
    unfold midpTimeSlice timeTowaitInMillisec
    rw [if_neg (fun h => hne h.symm)]
    split
    · rfl
    · split <;> rfl
  · unfold midpTimeSlice
    split
    · rfl
    · split
      · rfl
      · split <;> rfl

/-! ## Reported event length -/

/-- The value `javacall_event_receive` leaves in `*outEventLen`, for each
return code: the stored `dataLen` on `JAVACALL_OK` (and the first `dataLen`
bytes of the destination are the first `dataLen` bytes of the record), 0 on
`JAVACALL_OUT_OF_MEMORY`, and the value it held before the call on
`JAVACALL_FAIL`. -/
theorem javacall_event_receive_outEventLen (MAX_EVENTS : Nat) (s : EventBuffer)
    (t : Int) (buf : List UChar) (maxLen out : Int) (r : ReceiveResult)
    (h : javacall_event_receive MAX_EVENTS s t buf maxLen out = some r) :
    (r.result = JAVACALL_OK →
      ∃ ev, arrayGet s.eventsArray (prevIndex MAX_EVENTS s.index) = some ev ∧
        r.outEventLen = ev.dataLen ∧
        r.binaryBuffer.take ev.dataLen.toNat = ev.data.take ev.dataLen.toNat) ∧
    (r.result = JAVACALL_OUT_OF_MEMORY → r.outEventLen = 0 ∧ r.binaryBuffer = buf) ∧
    (r.result = JAVACALL_FAIL → r.outEventLen = out ∧ r.binaryBuffer = buf ∧ s.size = 0) := by
  unfold javacall_event_receive at h
  split at h
  · rename_i h0
    injection h with h; subst h
    exact ⟨fun hr => (by cases hr), fun hr => (by cases hr), fun _ => ⟨rfl, rfl, h0⟩⟩
  · simp only at h
    split at h
    · cases h
    · rename_i ev hev
      split at h
      · injection h with h; subst h
        exact ⟨fun hr => (by cases hr), fun _ => ⟨rfl, rfl⟩, fun hr => (by cases hr)⟩
      · split at h
        · cases h
        · rename_i out1 hcpy
          injection h with h; subst h
          refine ⟨fun _ => ⟨ev, hev, rfl, ?_⟩, fun hr => (by cases hr),
            fun hr => (by cases hr)⟩
          unfold memcpy at hcpy
          split at hcpy
          · rename_i hc
            injection hcpy with hcpy
            subst hcpy
            simp only
            rw [List.take_append_of_le_length (by rw [List.length_take]; omega),
              List.take_take]
            simp
          · cases hcpy

/-- C22 (code defect): on an empty buffer `javacall_event_receive` returns
`JAVACALL_FAIL` and leaves `*outEventLen` as it was: called with
`*outEventLen = 77` on the start state, it returns with `*outEventLen = 77`,
not 0. -/
theorem receive_empty_keeps_outEventLen :
    javacall_event_receive 4 (initBuffer 4) 0 dest8 8 77 =
      some ⟨JAVACALL_FAIL, dest8, 77, initBuffer 4⟩ ∧
    (77 : Int) ≠ 0 := by
  decide


/-! ## The draining loop -/

/-- After a receive that does not return `JAVACALL_OK`,
`midp_slavemode_handle_events` returns `-1`, wakes no context and calls
nothing. -/
theorem midp_slavemode_handle_events_fail (P : Platform) (st : PortState)
    (threads : List JVMSPI_BlockedThreadInfo) (timeout : Int) (r : ReceiveResult)
    (hrecv : javacall_event_receive P.MAX_EVENTS st.buffer (timeTowaitInMillisec timeout)
      st.binaryBuffer P.BINARY_BUFFER_MAX_LEN 0 = some r)
    (hfail : r.result ≠ JAVACALL_OK) :
    midp_slavemode_handle_events P st threads timeout =
      some ⟨-1,
        ⟨r.buffer, r.binaryBuffer, ⟨0, st.newSignal.descriptor, st.newSignal.status, 0⟩,
          P.initEvent⟩,
        threads, []⟩ := by
  unfold midp_slavemode_handle_events
  simp only []
  rw [checkForSystemSignal_fail P st.buffer st.binaryBuffer _ _ threads timeout r hrecv hfail]
  simp [hfail]

/-- The storage shape and the bounds that every reachable port state has. -/
theorem handle_events_step (P : Platform) (st : PortState)
    (threads : List JVMSPI_BlockedThreadInfo) (timeout : Int)
    (hwf : WellFormed P.MAX_EVENTS st.buffer) (hinv : BufferInv P.MAX_EVENTS st.buffer)
    (hrec : RecordsInv st.buffer)
    (hbin : st.binaryBuffer.length = P.BINARY_BUFFER_MAX_LEN) :
    ∃ h, midp_slavemode_handle_events P st threads timeout = some h ∧
      WellFormed P.MAX_EVENTS h.state.buffer ∧ BufferInv P.MAX_EVENTS h.state.buffer ∧
      RecordsInv h.state.buffer ∧
      h.state.binaryBuffer.length = P.BINARY_BUFFER_MAX_LEN ∧
      ((h.ret = 0 ∧ st.buffer.size ≠ 0 ∧ h.state.buffer.size = st.buffer.size - 1) ∨
        (h.ret = -1 ∧ h.state.buffer.size = st.buffer.size ∧ h.blocked_threads = threads ∧
          h.calls = [])) := by
  by_cases hempty : st.buffer.size = 0
  · exact ⟨_, midp_slavemode_handle_events_empty P st threads timeout hempty, hwf, hinv, hrec,
      hbin, Or.inr ⟨rfl, rfl, rfl, rfl⟩⟩
  · obtain ⟨hlen, hdata⟩ := hwf
    obtain ⟨hs0, hs1, hi0, hi1⟩ := hinv
    have hrange := prevIndex_inRange P.MAX_EVENTS st.buffer.index ⟨hi0, hi1⟩
    obtain ⟨e, he⟩ := arrayGet_inRange st.buffer.eventsArray
      (prevIndex P.MAX_EVENTS st.buffer.index) hrange.1 (by omega)
    have hmem := arrayGet_mem _ _ _ he
    have hcap : e.data.length = EVENT_DATA_CAPACITY := hdata e hmem
    have hcapv : EVENT_DATA_CAPACITY = 100 := rfl
    obtain ⟨he0, he1⟩ := hrec e hmem
    by_cases hbig : e.dataLen > (P.BINARY_BUFFER_MAX_LEN : Int)
    · have hrecv := javacall_event_receive_too_large P.MAX_EVENTS st.buffer
        (timeTowaitInMillisec timeout) st.binaryBuffer P.BINARY_BUFFER_MAX_LEN 0 e hempty he
        hbig
      refine ⟨_, midp_slavemode_handle_events_fail P st threads timeout _ hrecv (by simp),
        ⟨hlen, hdata⟩, ⟨hs0, hs1, hrange.1, hrange.2⟩, hrec, hbin,
        Or.inr ⟨rfl, rfl, rfl, rfl⟩⟩
    · have hrecv := javacall_event_receive_ok P.MAX_EVENTS st.buffer
        (timeTowaitInMillisec timeout) st.binaryBuffer P.BINARY_BUFFER_MAX_LEN 0 e hempty he
        (by omega) he0 (by rw [hbin]; omega) (by rw [hcap]; omega)
      refine ⟨_, midp_slavemode_handle_events_ok P st threads timeout _ hrecv rfl,
        ⟨hlen, hdata⟩, ⟨?_, ?_, hrange.1, hrange.2⟩, hrec, ?_, Or.inl ⟨rfl, hempty, rfl⟩⟩
      · show 0 ≤ st.buffer.size - 1
        omega
      · show st.buffer.size - 1 ≤ (P.MAX_EVENTS : Int)
        omega
      · show (e.data.take e.dataLen.toNat ++ st.binaryBuffer.drop e.dataLen.toNat).length =
          P.BINARY_BUFFER_MAX_LEN
        rw [List.length_append, List.length_take, List.length_drop, hcap, hbin]
        omega

/-- The loop over a buffer of `n` records: with `n + 1` invocations or more
allowed, it makes at most `n` invocations that return 0, each removing one
record, followed by one that returns `-1`. -/
theorem handleInvocations_bounded (P : Platform) :
    ∀ (n : Nat) (st : PortState) (threads : List JVMSPI_BlockedThreadInfo) (fuel : Nat),
      WellFormed P.MAX_EVENTS st.buffer → BufferInv P.MAX_EVENTS st.buffer →
      RecordsInv st.buffer → st.binaryBuffer.length = P.BINARY_BUFFER_MAX_LEN →
      st.buffer.size = (n : Int) → n + 1 ≤ fuel →
      ∃ (runs : List HandleResult) (last : HandleResult),
        handleInvocations P fuel st threads = some (runs ++ [last]) ∧
        runs.length ≤ n ∧
        (∀ (i : Nat) (h : HandleResult), runs[i]? = some h →
          h.ret = 0 ∧ h.state.buffer.size = st.buffer.size - ((i : Int) + 1)) ∧
        last.ret = -1 ∧
        last.state.buffer.size = st.buffer.size - (runs.length : Int) := by
  intro n
  induction n with
  | zero =>
    intro st threads fuel hwf hinv hrec hbin hsize hfuel
    obtain ⟨f, rfl⟩ : ∃ f, fuel = f + 1 := ⟨fuel - 1, by omega⟩
    obtain ⟨h, hh, _, _, _, _, hcase⟩ := handle_events_step P st threads 0 hwf hinv hrec hbin
    rcases hcase with ⟨_, hne, _⟩ | ⟨hret, hsz, _, _⟩
    · exact absurd (by simpa using hsize) hne
    · refine ⟨[], h, ?_, by simp, fun i x hx => (by simp at hx), hret, by simpa using hsz⟩
      simp [handleInvocations, hh, hret]
  | succ m ih =>
    intro st threads fuel hwf hinv hrec hbin hsize hfuel
    obtain ⟨f, rfl⟩ : ∃ f, fuel = f + 1 := ⟨fuel - 1, by omega⟩
    obtain ⟨h, hh, hwf1, hinv1, hrec1, hbin1, hcase⟩ :=
      handle_events_step P st threads 0 hwf hinv hrec hbin
    rcases hcase with ⟨hret, _, hsz⟩ | ⟨hret, hsz, _, _⟩
    · have hsize1 : h.state.buffer.size = (m : Int) := by
        rw [hsz, hsize]
        push_cast
        omega
      obtain ⟨runs, last, hrun, hlen, hpt, hlast, hlsz⟩ :=
        ih h.state h.blocked_threads f hwf1 hinv1 hrec1 hbin1 hsize1 (by omega)
      refine ⟨h :: runs, last, ?_, by simp; omega, ?_, hlast, ?_⟩
      · simp [handleInvocations, hh, hret, hrun]
      · intro i x hx
        cases i with
        | zero =>
          simp only [List.getElem?_cons_zero, Option.some.injEq] at hx
          subst hx
          exact ⟨hret, by rw [hsz]; simp⟩
        | succ k =>
          have hx' : runs[k]? = some x := by simpa using hx
          obtain ⟨h1, h2⟩ := hpt k x hx'
          refine ⟨h1, ?_⟩
          rw [h2, hsz]
          push_cast
          omega
      · rw [hlsz, hsz]
        simp only [List.length_cons]
        push_cast
        omega
    · refine ⟨[], h, ?_, by simp, fun i x hx => (by simp at hx), hret, by simpa using hsz⟩
      simp [handleInvocations, hh, hret]

/-- `javanotify_inform_event` returns exactly when its loop's invocation
list is defined, and then it leaves what the last invocation left, with the
external calls of all invocations in order. -/
theorem javanotify_inform_event_of_invocations (P : Platform) :
    ∀ (fuel : Nat) (st : PortState) (threads : List JVMSPI_BlockedThreadInfo)
      (runs : List HandleResult) (last : HandleResult),
      handleInvocations P fuel st threads = some (runs ++ [last]) →
      javanotify_inform_event P fuel st threads =
        some ⟨last.state, last.blocked_threads,
          (runs ++ [last]).foldr (fun h acc => h.calls ++ acc) []⟩ := by
  intro fuel
  induction fuel with
  | zero =>
    intro st threads runs last h
    simp [handleInvocations] at h
  | succ f ih =>
    intro st threads runs last h
    unfold handleInvocations at h
    unfold javanotify_inform_event
    cases hh : midp_slavemode_handle_events P st threads 0 with
    | none => rw [hh] at h; cases h
    | some x =>
      rw [hh] at h
      simp only at h ⊢
      by_cases hret : x.ret = 0
      · rw [if_pos hret] at h ⊢
        cases hrest : handleInvocations P f x.state x.blocked_threads with
        | none => rw [hrest] at h; cases h
        | some rest =>
          rw [hrest] at h
          simp only [Option.some.injEq] at h
          cases runs with
          | nil =>
            simp only [List.nil_append, List.cons.injEq] at h
            obtain ⟨_, hnil⟩ := h
            subst hnil
            cases f with
            | zero => simp [handleInvocations] at hrest
            | succ g =>
              exfalso
              unfold handleInvocations at hrest
              cases hy : midp_slavemode_handle_events P x.state x.blocked_threads 0 with
              | none => rw [hy] at hrest; cases hrest
              | some y =>
                rw [hy] at hrest
                simp only at hrest
                split at hrest
                · split at hrest
                  · cases hrest
                  · cases hrest
                · cases hrest
          | cons t runs' =>
            simp only [List.cons_append, List.cons.injEq] at h
            obtain ⟨hxt, hr⟩ := h
            subst hxt
            subst hr
            rw [ih x.state x.blocked_threads runs' last hrest]
            simp
      · rw [if_neg hret] at h ⊢
        simp only [Option.some.injEq] at h
        cases runs with
        | nil =>
          simp only [List.nil_append, List.cons.injEq, and_true] at h
          subst h
          simp
        | cons t runs' =>
          simp only [List.cons_append, List.cons.injEq] at h
          obtain ⟨_, hr⟩ := h
          exact absurd hr (by simp)


/-- C23: from a port state whose buffer holds `count` records
(`0 ≤ count ≤ MAX_EVENTS`, with the storage shape of the declarations and
every stored `dataLen` within the record capacity), and for every
blocked-thread array, the loop of `javanotify_inform_event` returns once it
is allowed `count + 1` invocations: it makes at most `count + 1` invocations
of `midp_slavemode_handle_events`, each with timeout 0; every invocation but
the last returns 0 and removes exactly one record; the last is the first
that returns `-1`, and it removes none; and `javanotify_inform_event` leaves
what that last invocation left. -/
theorem drain_terminates (P : Platform) (st : PortState)
    (threads : List JVMSPI_BlockedThreadInfo) (fuel : Nat)
    (hwf : WellFormed P.MAX_EVENTS st.buffer) (hinv : BufferInv P.MAX_EVENTS st.buffer)
    (hrec : RecordsInv st.buffer)
    (hbin : st.binaryBuffer.length = P.BINARY_BUFFER_MAX_LEN)
    (hfuel : st.buffer.size.toNat + 1 ≤ fuel) :
    ∃ (runs : List HandleResult) (last : HandleResult),
      handleInvocations P fuel st threads = some (runs ++ [last]) ∧
      (runs ++ [last]).length ≤ st.buffer.size.toNat + 1 ∧
      (∀ (i : Nat) (h : HandleResult), runs[i]? = some h →
        h.ret = 0 ∧ h.state.buffer.size = st.buffer.size - ((i : Int) + 1)) ∧
      last.ret = -1 ∧
      last.state.buffer.size = st.buffer.size - (runs.length : Int) ∧
      javanotify_inform_event P fuel st threads =
        some ⟨last.state, last.blocked_threads,
          (runs ++ [last]).foldr (fun h acc => h.calls ++ acc) []⟩ := by
  have hsize : st.buffer.size = ((st.buffer.size.toNat : Nat) : Int) := by
    obtain ⟨hs0, _⟩ := hinv
    omega
  obtain ⟨runs, last, hrun, hlen, hpt, hlast, hlsz⟩ :=
    handleInvocations_bounded P st.buffer.size.toNat st threads fuel hwf hinv hrec hbin hsize
      hfuel
  refine ⟨runs, last, hrun, ?_, hpt, hlast, hlsz,
    javanotify_inform_event_of_invocations P fuel st threads runs last hrun⟩
  rw [List.length_append, List.length_singleton]
  omega

/-- C23 at a concrete input: the sample platform with the key record queued,
the four sample contexts, and two invocations allowed. -/
theorem drain_terminates_witness :
    (queued keyRecord).buffer.size.toNat + 1 ≤ 2 ∧
    (handleInvocations samplePlatform 2 (queued keyRecord) sampleThreads).map
        (fun l => l.map (fun h => (h.ret, h.state.buffer.size))) =
      some [(0, 0), (-1, 0)] ∧
    ∃ (runs : List HandleResult) (last : HandleResult),
      handleInvocations samplePlatform 2 (queued keyRecord) sampleThreads =
        some (runs ++ [last]) ∧
      (runs ++ [last]).length ≤ (queued keyRecord).buffer.size.toNat + 1 ∧
      (∀ (i : Nat) (h : HandleResult), runs[i]? = some h →
        h.ret = 0 ∧
        h.state.buffer.size = (queued keyRecord).buffer.size - ((i : Int) + 1)) ∧
      last.ret = -1 ∧
      last.state.buffer.size = (queued keyRecord).buffer.size - (runs.length : Int) ∧
      javanotify_inform_event samplePlatform 2 (queued keyRecord) sampleThreads =
        some ⟨last.state, last.blocked_threads,
          (runs ++ [last]).foldr (fun h acc => h.calls ++ acc) []⟩ :=
  ⟨by decide, by decide,
    drain_terminates samplePlatform (queued keyRecord) sampleThreads 2 (by decide)
      (by decide) (by decide) (by decide) (by decide)⟩


/-! ## Multimedia events -/

/-- The type `mediaEventType` leaves in the event, read back: the event type
of the first `case` whose label is the media type, the type the event had
when no label is. -/
theorem mediaEventType_read_type (P : Platform) (mediaType : Int) (e0 : MidpEvent) :
    (mediaEventType P mediaType e0).read .type =
      if mediaType = P.media.JAVACALL_EVENT_MEDIA_END_OF_MEDIA then P.evt.MM_EOM_EVENT
      else if mediaType = P.media.JAVACALL_EVENT_MEDIA_DURATION_UPDATED then
        P.evt.MM_DURATION_EVENT
      else if mediaType = P.media.JAVACALL_EVENT_MEDIA_RECORD_SIZE_LIMIT then
        P.evt.MM_RECORD_LIMIT_EVENT
      else if mediaType = P.media.JAVACALL_EVENT_MEDIA_RECORD_ERROR then
        P.evt.MM_RECORD_ERROR_EVENT
      else if mediaType = P.media.JAVACALL_EVENT_MEDIA_BUFFERING_STARTED then
        P.evt.MM_BUFFERING_START_EVENT
      else if mediaType = P.media.JAVACALL_EVENT_MEDIA_BUFFERING_STOPPED then
        P.evt.MM_BUFFERING_STOP_EVENT
      else if mediaType = P.media.JAVACALL_EVENT_MEDIA_VOLUME_CHANGED then
        P.evt.MM_VOLUME_CHANGED_EVENT
      else if mediaType = P.media.JAVACALL_EVENT_MEDIA_ERROR then
        P.evt.MM_GENERAL_ERROR_EVENT
      else e0.read .type := by
  unfold mediaEventType
  split_ifs <;> simp [MidpEvent.read_write]

/-- The event handed to `StoreMIDPEventInVmThread`, read back, when `type`
and `intParam1` to `intParam3` are four different members. -/
theorem multimediaStoredEvent_read (P : Platform) (m : midp_jc_event_multimedia)
    (h01 : P.slot .type ≠ P.slot .intParam1) (h02 : P.slot .type ≠ P.slot .intParam2)
    (h03 : P.slot .type ≠ P.slot .intParam3) (h12 : P.slot .intParam1 ≠ P.slot .intParam2)
    (h13 : P.slot .intParam1 ≠ P.slot .intParam3)
    (h23 : P.slot .intParam2 ≠ P.slot .intParam3) :
    (multimediaStoredEvent P m).read .type =
      (mediaEventType P m.mediaType P.initEvent).read .type ∧
    (multimediaStoredEvent P m).read .intParam1 = m.playerId ∧
    (multimediaStoredEvent P m).read .intParam2 = m.data ∧
    (multimediaStoredEvent P m).read .intParam3 = m.appId := by
  unfold multimediaStoredEvent
  refine ⟨?_, ?_, ?_, ?_⟩
  · simp [MidpEvent.read_write, h01, h02, h03]
  · simp [MidpEvent.read_write, h12, h13]
  · simp [MidpEvent.read_write, h23]
  · simp [MidpEvent.read_write]

/-- What `midpHandleMultimediaEvent` leaves behind, in terms of the event it
stores and the matcher invocations it makes: one `StoreMIDPEventInVmThread`
call, then the outcome of each matcher invocation. -/
theorem midpHandleMultimediaEvent_eq (P : Platform) (m : midp_jc_event_multimedia)
    (threads : List JVMSPI_BlockedThreadInfo) :
    (multimediaMatcherCalls P m = [] ∨
      multimediaMatcherCalls P m =
        [(toUnsigned (P.sig.NO_SIGNAL : Int), descriptorLine347 m, m.status)]) ∧
    (multimediaMatcherCalls P m = [] →
      midpHandleMultimediaEvent P m threads =
        ⟨JAVACALL_OK, threads,
          [ExtCall.StoreMIDPEventInVmThread (multimediaStoredEvent P m) m.appId]⟩) ∧
    (multimediaMatcherCalls P m ≠ [] →
      midpHandleMultimediaEvent P m threads =
        ⟨JAVACALL_OK,
          (eventUnblockMultimediaJavaThread P.sig.NO_SIGNAL P.sig.MEDIA_START_SIGNAL
            P.sig.MEDIA_LONG_MIDI_EVENT_SIGNAL threads (toUnsigned (P.sig.NO_SIGNAL : Int))
            (descriptorLine347 m) m.status).blocked_threads,
          ExtCall.StoreMIDPEventInVmThread (multimediaStoredEvent P m) m.appId ::
            unblockCalls (eventUnblockMultimediaJavaThread P.sig.NO_SIGNAL
              P.sig.MEDIA_START_SIGNAL P.sig.MEDIA_LONG_MIDI_EVENT_SIGNAL threads
              (toUnsigned (P.sig.NO_SIGNAL : Int)) (descriptorLine347 m) m.status)⟩) ∧
    (multimediaMatcherCalls P m ≠ [] ↔
      (P.evt.MM_GENERAL_ERROR_EVENT = (multimediaStoredEvent P m).read .type
        ∨ P.evt.MM_RECORD_ERROR_EVENT = (multimediaStoredEvent P m).read .type
        ∨ P.evt.MM_EOM_EVENT = (multimediaStoredEvent P m).read .type)) := by
  by_cases hc : P.evt.MM_GENERAL_ERROR_EVENT = (multimediaStoredEvent P m).read .type
      ∨ P.evt.MM_RECORD_ERROR_EVENT = (multimediaStoredEvent P m).read .type
      ∨ P.evt.MM_EOM_EVENT = (multimediaStoredEvent P m).read .type
  · have hcalls : multimediaMatcherCalls P m =
        [(toUnsigned (P.sig.NO_SIGNAL : Int), descriptorLine347 m, m.status)] := by
      unfold multimediaMatcherCalls
      unfold multimediaStoredEvent at hc
      simp only [if_true, if_pos hc]
    refine ⟨Or.inr hcalls, fun h => ?_, fun _ => ?_, ⟨fun _ => hc, fun _ => ?_⟩⟩
    · rw [hcalls] at h; cases h
    · unfold midpHandleMultimediaEvent
      unfold multimediaStoredEvent at hc
      simp only [if_true, if_pos hc]
      rfl
    · rw [hcalls]; simp
  · have hcalls : multimediaMatcherCalls P m = [] := by
      unfold multimediaMatcherCalls
      unfold multimediaStoredEvent at hc
      simp only [if_true, if_neg hc]
    refine ⟨Or.inl hcalls, fun _ => ?_, fun h => absurd hcalls h,
      ⟨fun h => absurd hcalls h, fun h => absurd h hc⟩⟩
    unfold midpHandleMultimediaEvent
    unfold multimediaStoredEvent at hc
    simp only [if_true, if_neg hc]
    rfl


/-- The event type the `switch` of lines 303-330 gives each media type, when
the eight `case` labels are different. -/
theorem mediaEventType_mapping (P : Platform) (mediaType : Int) (e0 : MidpEvent)
    (hmedia : [P.media.JAVACALL_EVENT_MEDIA_END_OF_MEDIA,
      P.media.JAVACALL_EVENT_MEDIA_DURATION_UPDATED,
      P.media.JAVACALL_EVENT_MEDIA_RECORD_SIZE_LIMIT,
      P.media.JAVACALL_EVENT_MEDIA_RECORD_ERROR,
      P.media.JAVACALL_EVENT_MEDIA_BUFFERING_STARTED,
      P.media.JAVACALL_EVENT_MEDIA_BUFFERING_STOPPED,
      P.media.JAVACALL_EVENT_MEDIA_VOLUME_CHANGED,
      P.media.JAVACALL_EVENT_MEDIA_ERROR].Nodup) :
    (mediaType = P.media.JAVACALL_EVENT_MEDIA_END_OF_MEDIA →
      (mediaEventType P mediaType e0).read .type = P.evt.MM_EOM_EVENT) ∧
    (mediaType = P.media.JAVACALL_EVENT_MEDIA_DURATION_UPDATED →
      (mediaEventType P mediaType e0).read .type = P.evt.MM_DURATION_EVENT) ∧
    (mediaType = P.media.JAVACALL_EVENT_MEDIA_RECORD_SIZE_LIMIT →
      (mediaEventType P mediaType e0).read .type = P.evt.MM_RECORD_LIMIT_EVENT) ∧
    (mediaType = P.media.JAVACALL_EVENT_MEDIA_RECORD_ERROR →
      (mediaEventType P mediaType e0).read .type = P.evt.MM_RECORD_ERROR_EVENT) ∧
    (mediaType = P.media.JAVACALL_EVENT_MEDIA_BUFFERING_STARTED →
      (mediaEventType P mediaType e0).read .type = P.evt.MM_BUFFERING_START_EVENT) ∧
    (mediaType = P.media.JAVACALL_EVENT_MEDIA_BUFFERING_STOPPED →
      (mediaEventType P mediaType e0).read .type = P.evt.MM_BUFFERING_STOP_EVENT) ∧
    (mediaType = P.media.JAVACALL_EVENT_MEDIA_VOLUME_CHANGED →
      (mediaEventType P mediaType e0).read .type = P.evt.MM_VOLUME_CHANGED_EVENT) ∧
    (mediaType = P.media.JAVACALL_EVENT_MEDIA_ERROR →
      (mediaEventType P mediaType e0).read .type = P.evt.MM_GENERAL_ERROR_EVENT) ∧
    (mediaType ∉ [P.media.JAVACALL_EVENT_MEDIA_END_OF_MEDIA,
        P.media.JAVACALL_EVENT_MEDIA_DURATION_UPDATED,
        P.media.JAVACALL_EVENT_MEDIA_RECORD_SIZE_LIMIT,
        P.media.JAVACALL_EVENT_MEDIA_RECORD_ERROR,
        P.media.JAVACALL_EVENT_MEDIA_BUFFERING_STARTED,
        P.media.JAVACALL_EVENT_MEDIA_BUFFERING_STOPPED,
        P.media.JAVACALL_EVENT_MEDIA_VOLUME_CHANGED,
        P.media.JAVACALL_EVENT_MEDIA_ERROR] →
      (mediaEventType P mediaType e0).read .type = e0.read .type) := by
  simp only [List.nodup_cons, List.mem_cons, List.mem_singleton, List.not_mem_nil, not_or,
    or_false, List.nodup_nil, and_true] at hmedia
  obtain ⟨⟨a1, a2, a3, a4, a5, a6, a7⟩, ⟨b2, b3, b4, b5, b6, b7⟩, ⟨c3, c4, c5, c6, c7⟩,
    ⟨d4, d5, d6, d7⟩, ⟨e5, e6, e7⟩, ⟨f6, f7⟩, g7, _⟩ := hmedia
  rw [mediaEventType_read_type]
  refine ⟨?_, ?_, ?_, ?_, ?_, ?_, ?_, ?_, ?_⟩
  · intro h; rw [if_pos h]
  · intro h
    rw [if_neg (by rw [h]; exact fun x => a1 x.symm), if_pos h]
  · intro h
    rw [if_neg (by rw [h]; exact fun x => a2 x.symm),
      if_neg (by rw [h]; exact fun x => b2 x.symm), if_pos h]
  · intro h
    rw [if_neg (by rw [h]; exact fun x => a3 x.symm),
      if_neg (by rw [h]; exact fun x => b3 x.symm),
      if_neg (by rw [h]; exact fun x => c3 x.symm), if_pos h]
  · intro h
    rw [if_neg (by rw [h]; exact fun x => a4 x.symm),
      if_neg (by rw [h]; exact fun x => b4 x.symm),
      if_neg (by rw [h]; exact fun x => c4 x.symm),
      if_neg (by rw [h]; exact fun x => d4 x.symm), if_pos h]
  · intro h
    rw [if_neg (by rw [h]; exact fun x => a5 x.symm),
      if_neg (by rw [h]; exact fun x => b5 x.symm),
      if_neg (by rw [h]; exact fun x => c5 x.symm),
      if_neg (by rw [h]; exact fun x => d5 x.symm),
      if_neg (by rw [h]; exact fun x => e5 x.symm), if_pos h]
  · intro h
    rw [if_neg (by rw [h]; exact fun x => a6 x.symm),
      if_neg (by rw [h]; exact fun x => b6 x.symm),
      if_neg (by rw [h]; exact fun x => c6 x.symm),
      if_neg (by rw [h]; exact fun x => d6 x.symm),
      if_neg (by rw [h]; exact fun x => e6 x.symm),
      if_neg (by rw [h]; exact fun x => f6 x.symm), if_pos h]
  · intro h
    rw [if_neg (by rw [h]; exact fun x => a7 x.symm),
      if_neg (by rw [h]; exact fun x => b7 x.symm),
      if_neg (by rw [h]; exact fun x => c7 x.symm),
      if_neg (by rw [h]; exact fun x => d7 x.symm),
      if_neg (by rw [h]; exact fun x => e7 x.symm),
      if_neg (by rw [h]; exact fun x => f7 x.symm),
      if_neg (by rw [h]; exact fun x => g7 x.symm), if_pos h]
  · intro h
    simp only [List.mem_cons, List.mem_singleton, List.not_mem_nil, or_false, not_or] at h
    obtain ⟨n1, n2, n3, n4, n5, n6, n7, n8⟩ := h
    rw [if_neg n1, if_neg n2, if_neg n3, if_neg n4, if_neg n5, if_neg n6, if_neg n7,
      if_neg n8]

/-- The calls of `midpHandleMultimediaEvent`: the one
`StoreMIDPEventInVmThread`, then at most one `midp_thread_unblock`. -/
theorem midpHandleMultimediaEvent_calls (P : Platform) (m : midp_jc_event_multimedia)
    (threads : List JVMSPI_BlockedThreadInfo) :
    (midpHandleMultimediaEvent P m threads).result = JAVACALL_OK ∧
    ∃ ids : List Nat, ids.length ≤ 1 ∧
      (midpHandleMultimediaEvent P m threads).calls =
        ExtCall.StoreMIDPEventInVmThread (multimediaStoredEvent P m) m.appId ::
          ids.map ExtCall.midp_thread_unblock := by
  obtain ⟨_, hnil, hcons, _⟩ := midpHandleMultimediaEvent_eq P m threads
  by_cases hc : multimediaMatcherCalls P m = []
  · rw [hnil hc]
    exact ⟨rfl, [], by simp, rfl⟩
  · rw [hcons hc]
    refine ⟨rfl, (eventUnblockMultimediaJavaThread P.sig.NO_SIGNAL P.sig.MEDIA_START_SIGNAL
      P.sig.MEDIA_LONG_MIDI_EVENT_SIGNAL threads (toUnsigned (P.sig.NO_SIGNAL : Int))
      (descriptorLine347 m) m.status).unblocked, ?_, rfl⟩
    rcases eventUnblockMultimediaJavaThread_shape P.sig.NO_SIGNAL P.sig.MEDIA_START_SIGNAL
      P.sig.MEDIA_LONG_MIDI_EVENT_SIGNAL (toUnsigned (P.sig.NO_SIGNAL : Int))
      (descriptorLine347 m) m.status threads with
      ⟨hr, _⟩ | ⟨_, _, _, _, _, _, _, _, hr⟩
    · rw [hr]; simp
    · rw [hr]; simp


/-- C24: `midpHandleMultimediaEvent` makes exactly one
`StoreMIDPEventInVmThread` call, for the isolate `appId`, before any other
call, and its only other calls are the `midp_thread_unblock` of the matcher
(at most one).  The stored event has `intParam1`, `intParam2`, `intParam3`
equal to `playerId`, `data`, `appId`, and its `type` is the one the `switch`
gives the media type: `MM_EOM_EVENT`, `MM_DURATION_EVENT`,
`MM_RECORD_LIMIT_EVENT`, `MM_RECORD_ERROR_EVENT`, `MM_BUFFERING_START_EVENT`,
`MM_BUFFERING_STOP_EVENT`, `MM_VOLUME_CHANGED_EVENT`,
`MM_GENERAL_ERROR_EVENT`, or the initial type for any other media type.
`eventUnblockMultimediaJavaThread` is invoked exactly when that type is
`MM_GENERAL_ERROR_EVENT`, `MM_RECORD_ERROR_EVENT` or `MM_EOM_EVENT`, and then
once, with `NO_SIGNAL`, the composite descriptor and the event's status.
Assumed: `type` and `intParam1` to `intParam3` are four different members,
the eight `case` labels are different, and `NO_SIGNAL` fits an `int`. -/
theorem multimedia_handling (P : Platform) (m : midp_jc_event_multimedia)
    (threads : List JVMSPI_BlockedThreadInfo)
    (h01 : P.slot .type ≠ P.slot .intParam1) (h02 : P.slot .type ≠ P.slot .intParam2)
    (h03 : P.slot .type ≠ P.slot .intParam3) (h12 : P.slot .intParam1 ≠ P.slot .intParam2)
    (h13 : P.slot .intParam1 ≠ P.slot .intParam3)
    (h23 : P.slot .intParam2 ≠ P.slot .intParam3)
    (hmedia : [P.media.JAVACALL_EVENT_MEDIA_END_OF_MEDIA,
      P.media.JAVACALL_EVENT_MEDIA_DURATION_UPDATED,
      P.media.JAVACALL_EVENT_MEDIA_RECORD_SIZE_LIMIT,
      P.media.JAVACALL_EVENT_MEDIA_RECORD_ERROR,
      P.media.JAVACALL_EVENT_MEDIA_BUFFERING_STARTED,
      P.media.JAVACALL_EVENT_MEDIA_BUFFERING_STOPPED,
      P.media.JAVACALL_EVENT_MEDIA_VOLUME_CHANGED,
      P.media.JAVACALL_EVENT_MEDIA_ERROR].Nodup)
    (hno : P.sig.NO_SIGNAL < 2 ^ 31) :
    (midpHandleMultimediaEvent P m threads).result = JAVACALL_OK ∧
    (∃ ids : List Nat, ids.length ≤ 1 ∧
      (midpHandleMultimediaEvent P m threads).calls =
        ExtCall.StoreMIDPEventInVmThread (multimediaStoredEvent P m) m.appId ::
          ids.map ExtCall.midp_thread_unblock) ∧
    (multimediaStoredEvent P m).read .intParam1 = m.playerId ∧
    (multimediaStoredEvent P m).read .intParam2 = m.data ∧
    (multimediaStoredEvent P m).read .intParam3 = m.appId ∧
    (m.mediaType = P.media.JAVACALL_EVENT_MEDIA_END_OF_MEDIA →
      (multimediaStoredEvent P m).read .type = P.evt.MM_EOM_EVENT) ∧
    (m.mediaType = P.media.JAVACALL_EVENT_MEDIA_DURATION_UPDATED →
      (multimediaStoredEvent P m).read .type = P.evt.MM_DURATION_EVENT) ∧
    (m.mediaType = P.media.JAVACALL_EVENT_MEDIA_RECORD_SIZE_LIMIT →
      (multimediaStoredEvent P m).read .type = P.evt.MM_RECORD_LIMIT_EVENT) ∧
    (m.mediaType = P.media.JAVACALL_EVENT_MEDIA_RECORD_ERROR →
      (multimediaStoredEvent P m).read .type = P.evt.MM_RECORD_ERROR_EVENT) ∧
    (m.mediaType = P.media.JAVACALL_EVENT_MEDIA_BUFFERING_STARTED →
      (multimediaStoredEvent P m).read .type = P.evt.MM_BUFFERING_START_EVENT) ∧
    (m.mediaType = P.media.JAVACALL_EVENT_MEDIA_BUFFERING_STOPPED →
      (multimediaStoredEvent P m).read .type = P.evt.MM_BUFFERING_STOP_EVENT) ∧
    (m.mediaType = P.media.JAVACALL_EVENT_MEDIA_VOLUME_CHANGED →
      (multimediaStoredEvent P m).read .type = P.evt.MM_VOLUME_CHANGED_EVENT) ∧
    (m.mediaType = P.media.JAVACALL_EVENT_MEDIA_ERROR →
      (multimediaStoredEvent P m).read .type = P.evt.MM_GENERAL_ERROR_EVENT) ∧
    (m.mediaType ∉ [P.media.JAVACALL_EVENT_MEDIA_END_OF_MEDIA,
        P.media.JAVACALL_EVENT_MEDIA_DURATION_UPDATED,
        P.media.JAVACALL_EVENT_MEDIA_RECORD_SIZE_LIMIT,
        P.media.JAVACALL_EVENT_MEDIA_RECORD_ERROR,
        P.media.JAVACALL_EVENT_MEDIA_BUFFERING_STARTED,
        P.media.JAVACALL_EVENT_MEDIA_BUFFERING_STOPPED,
        P.media.JAVACALL_EVENT_MEDIA_VOLUME_CHANGED,
        P.media.JAVACALL_EVENT_MEDIA_ERROR] →
      (multimediaStoredEvent P m).read .type = P.initEvent.read .type) ∧
    multimediaMatcherCalls P m =
      (if P.evt.MM_GENERAL_ERROR_EVENT = (multimediaStoredEvent P m).read .type
          ∨ P.evt.MM_RECORD_ERROR_EVENT = (multimediaStoredEvent P m).read .type
          ∨ P.evt.MM_EOM_EVENT = (multimediaStoredEvent P m).read .type then
        [(P.sig.NO_SIGNAL, toInt32 (pack m.appId m.playerId), m.status)]
      else []) ∧
    ((P.evt.MM_GENERAL_ERROR_EVENT = (multimediaStoredEvent P m).read .type
        ∨ P.evt.MM_RECORD_ERROR_EVENT = (multimediaStoredEvent P m).read .type
        ∨ P.evt.MM_EOM_EVENT = (multimediaStoredEvent P m).read .type) →
      midpHandleMultimediaEvent P m threads =
        ⟨JAVACALL_OK,
          (eventUnblockMultimediaJavaThread P.sig.NO_SIGNAL P.sig.MEDIA_START_SIGNAL
            P.sig.MEDIA_LONG_MIDI_EVENT_SIGNAL threads P.sig.NO_SIGNAL
            (toInt32 (pack m.appId m.playerId)) m.status).blocked_threads,
          ExtCall.StoreMIDPEventInVmThread (multimediaStoredEvent P m) m.appId ::
            unblockCalls (eventUnblockMultimediaJavaThread P.sig.NO_SIGNAL
              P.sig.MEDIA_START_SIGNAL P.sig.MEDIA_LONG_MIDI_EVENT_SIGNAL threads
              P.sig.NO_SIGNAL (toInt32 (pack m.appId m.playerId)) m.status)⟩) ∧
    (¬ (P.evt.MM_GENERAL_ERROR_EVENT = (multimediaStoredEvent P m).read .type
        ∨ P.evt.MM_RECORD_ERROR_EVENT = (multimediaStoredEvent P m).read .type
        ∨ P.evt.MM_EOM_EVENT = (multimediaStoredEvent P m).read .type) →
      midpHandleMultimediaEvent P m threads =
        ⟨JAVACALL_OK, threads,
          [ExtCall.StoreMIDPEventInVmThread (multimediaStoredEvent P m) m.appId]⟩) := by
  obtain ⟨hty, hp1, hp2, hp3⟩ := multimediaStoredEvent_read P m h01 h02 h03 h12 h13 h23
  obtain ⟨hcases, hnil, hcons, hiff⟩ := midpHandleMultimediaEvent_eq P m threads
  obtain ⟨hres, hcalls⟩ := midpHandleMultimediaEvent_calls P m threads
  obtain ⟨m1, m2, m3, m4, m5, m6, m7, m8, m9⟩ :=
    mediaEventType_mapping P m.mediaType P.initEvent hmedia
  have hd : descriptorLine347 m = toInt32 (pack m.appId m.playerId) := by
    unfold descriptorLine347
    rw [descriptor_bits_eq_pack]
  have hu : toUnsigned (P.sig.NO_SIGNAL : Int) = P.sig.NO_SIGNAL := toUnsigned_small _ hno
  rw [hd, hu] at hcons hcases
  rw [← hty] at m1 m2 m3 m4 m5 m6 m7 m8 m9
  refine ⟨hres, hcalls, hp1, hp2, hp3, m1, m2, m3, m4, m5, m6, m7, m8, m9, ?_, ?_, ?_⟩
  · by_cases hc : P.evt.MM_GENERAL_ERROR_EVENT = (multimediaStoredEvent P m).read .type
        ∨ P.evt.MM_RECORD_ERROR_EVENT = (multimediaStoredEvent P m).read .type
        ∨ P.evt.MM_EOM_EVENT = (multimediaStoredEvent P m).read .type
    · rw [if_pos hc]
      rcases hcases with h | h
      · exact absurd h (hiff.mpr hc)
      · exact h
    · rw [if_neg hc]
      rcases hcases with h | h
      · exact h
      · exact absurd (hiff.mp (by rw [h]; simp)) hc
  · intro hc
    exact hcons (hiff.mpr hc)
  · intro hc
    refine hnil ?_
    by_contra hne
    exact hc (hiff.mp hne)


/-- C24 at a concrete input: the sample platform, the end-of-media event of
isolate 1 and player 2 with status 5, and three contexts of which the second
waits on the composite descriptor 65538 inside the multimedia range; and the
duration-update event, for which the matcher is not invoked. -/
theorem multimedia_handling_witness :
    samplePlatform.slot .type ≠ samplePlatform.slot .intParam1 ∧
    midpHandleMultimediaEvent samplePlatform sampleEndOfMedia mediaThreads =
      ⟨JAVACALL_OK,
        [⟨21, some ⟨2, 65538, 0, 0⟩⟩, ⟨22, some ⟨20, 65538, 5, 0⟩⟩,
          ⟨23, some ⟨20, 65539, 0, 0⟩⟩],
        [ExtCall.StoreMIDPEventInVmThread
            (multimediaStoredEvent samplePlatform sampleEndOfMedia) 1,
          ExtCall.midp_thread_unblock 22]⟩ ∧
    midpHandleMultimediaEvent samplePlatform sampleDuration mediaThreads =
      ⟨JAVACALL_OK, mediaThreads,
        [ExtCall.StoreMIDPEventInVmThread
            (multimediaStoredEvent samplePlatform sampleDuration) 1]⟩ ∧
    multimediaMatcherCalls samplePlatform sampleEndOfMedia = [(0, 65538, 5)] ∧
    multimediaMatcherCalls samplePlatform sampleDuration = [] ∧
    (midpHandleMultimediaEvent samplePlatform sampleEndOfMedia mediaThreads).result =
      JAVACALL_OK ∧
    (multimediaStoredEvent samplePlatform sampleEndOfMedia).read .intParam1 =
      sampleEndOfMedia.playerId ∧
    (multimediaStoredEvent samplePlatform sampleEndOfMedia).read .intParam2 =
      sampleEndOfMedia.data ∧
    (multimediaStoredEvent samplePlatform sampleEndOfMedia).read .intParam3 =
      sampleEndOfMedia.appId ∧
    (multimediaStoredEvent samplePlatform sampleEndOfMedia).read .type =
      samplePlatform.evt.MM_EOM_EVENT :=
  ⟨by decide, by decide, by decide, by decide, by decide,
    (multimedia_handling samplePlatform sampleEndOfMedia mediaThreads (by decide) (by decide)
      (by decide) (by decide) (by decide) (by decide) (by decide) (by decide)).1,
    (multimedia_handling samplePlatform sampleEndOfMedia mediaThreads (by decide) (by decide)
      (by decide) (by decide) (by decide) (by decide) (by decide) (by decide)).2.2.1,
    (multimedia_handling samplePlatform sampleEndOfMedia mediaThreads (by decide) (by decide)
      (by decide) (by decide) (by decide) (by decide) (by decide) (by decide)).2.2.2.1,
    (multimedia_handling samplePlatform sampleEndOfMedia mediaThreads (by decide) (by decide)
      (by decide) (by decide) (by decide) (by decide) (by decide) (by decide)).2.2.2.2.1,
    (multimedia_handling samplePlatform sampleEndOfMedia mediaThreads (by decide) (by decide)
      (by decide) (by decide) (by decide) (by decide) (by decide)
      (by decide)).2.2.2.2.2.1 (by decide)⟩

/-! ## Network-read routing -/

/-- When no context waits on the pair, no position is the first to. -/
theorem not_FirstAt_of_none (w d : Int) (threads : List JVMSPI_BlockedThreadInfo)
    (hnone : ¬ ∃ t ∈ threads, WaitsOn w d t) : ∀ i, ¬ FirstAt w d threads i := by
  intro i hf
  obtain ⟨t, ht, hw⟩ := FirstAt_get _ _ _ _ hf
  exact hnone ⟨t, List.getElem?_mem ht, hw⟩

/-- C25: `midp_slavemode_handle_events` receives a socket record whose
wait-kind is `NETWORK_READ_SIGNAL`, whose handle is `D` and whose status is
`status`; it returns 0 and takes exactly one of four routes, in this order.
(1) Some context waits on `(NETWORK_READ_SIGNAL, D)`: the first such context
gets `status` and is unblocked, and nothing else is called.  (2) None does
and `findPushBlockedHandle(D)` is non-zero: `midp_thread_signal_list` is
called with `(PUSH_SIGNAL, 0, 0)`.  (3) None does, `findPushBlockedHandle(D)`
is 0 and the build has JSR 120 or JSR 205: `jsr120_check_signal` is called
with `(NETWORK_READ_SIGNAL, D, status)`.  (4) None does,
`findPushBlockedHandle(D)` is 0 and the build has neither: nothing more is
done.  In routes 2 to 4 the code of this file leaves the blocked-thread array
as it was. -/
theorem network_read_routing (P : Platform) (st : PortState)
    (threads : List JVMSPI_BlockedThreadInfo) (timeout : Int) (r : ReceiveResult)
    (D status : Int)
    (hrecv : javacall_event_receive P.MAX_EVENTS st.buffer (timeTowaitInMillisec timeout)
      st.binaryBuffer P.BINARY_BUFFER_MAX_LEN 0 = some r)
    (hok : r.result = JAVACALL_OK)
    (htag : (P.view r.binaryBuffer).eventType = MIDP_JC_EVENT_SOCKET)
    (hkind : (P.view r.binaryBuffer).socketEvent_waitingFor = P.sig.NETWORK_READ_SIGNAL)
    (hhandle : (P.view r.binaryBuffer).socketEvent_handle = D)
    (hstatus : (P.view r.binaryBuffer).socketEvent_status = status)
    (hno : P.sig.NETWORK_READ_SIGNAL ≠ P.sig.NO_SIGNAL)
    (hlt : P.sig.NETWORK_READ_SIGNAL < 2 ^ 31)
    (hdbg : P.cfg.ENABLE_JAVA_DEBUGGER = true →
      P.sig.NETWORK_READ_SIGNAL ≠ P.sig.VM_DEBUG_SIGNAL)
    (hams : P.sig.NETWORK_READ_SIGNAL ≠ P.sig.AMS_SIGNAL)
    (hui : P.sig.NETWORK_READ_SIGNAL ≠ P.sig.UI_SIGNAL) :
    ∃ res, midp_slavemode_handle_events P st threads timeout = some res ∧
      res.ret = 0 ∧
      ((∃ t ∈ threads, WaitsOn P.sig.NETWORK_READ_SIGNAL D t) →
        ∃ (i : Nat) (t : JVMSPI_BlockedThreadInfo), threads[i]? = some t ∧
          FirstAt P.sig.NETWORK_READ_SIGNAL D threads i ∧
          res.blocked_threads = threads.set i (setStatus status t) ∧
          res.calls = [ExtCall.midp_thread_unblock t.thread_id]) ∧
      ((¬ ∃ t ∈ threads, WaitsOn P.sig.NETWORK_READ_SIGNAL D t) →
        P.findPushBlockedHandle D ≠ 0 →
        res.blocked_threads = threads ∧
        res.calls = [ExtCall.findPushBlockedHandle D,
          ExtCall.midp_thread_signal_list P.sig.PUSH_SIGNAL 0 0]) ∧
      ((¬ ∃ t ∈ threads, WaitsOn P.sig.NETWORK_READ_SIGNAL D t) →
        P.findPushBlockedHandle D = 0 →
        (P.cfg.ENABLE_JSR_120 = true ∨ P.cfg.ENABLE_JSR_205 = true) →
        res.blocked_threads = threads ∧
        res.calls = [ExtCall.findPushBlockedHandle D,
          ExtCall.jsr120_check_signal P.sig.NETWORK_READ_SIGNAL D status]) ∧
      ((¬ ∃ t ∈ threads, WaitsOn P.sig.NETWORK_READ_SIGNAL D t) →
        P.findPushBlockedHandle D = 0 →
        ¬ (P.cfg.ENABLE_JSR_120 = true ∨ P.cfg.ENABLE_JSR_205 = true) →
        res.blocked_threads = threads ∧
        res.calls = [ExtCall.findPushBlockedHandle D]) := by
  have hrun := midp_slavemode_handle_events_ok P st threads timeout r hrecv hok
  have hdec : decodeEvent P (P.view r.binaryBuffer)
      ⟨0, st.newSignal.descriptor, st.newSignal.status, 0⟩ P.initEvent threads =
      ⟨⟨P.sig.NETWORK_READ_SIGNAL, D, status,
          (P.view r.binaryBuffer).socketEvent_extraData⟩, P.initEvent, threads, []⟩ := by
    simp only [decodeEvent, htag, hkind, hhandle, hstatus]
  rw [hdec, dispatchSignal_read P _ _ threads rfl hdbg hams hui] at hrun
  refine ⟨_, hrun, rfl, ?_, ?_, ?_, ?_⟩
  · intro hw
    obtain ⟨i, t, hti, hfirst⟩ := exists_FirstAt _ _ threads hw
    have hmatch := eventUnblockJavaThread_exact_set P.sig.NO_SIGNAL
      P.sig.NETWORK_READ_SIGNAL D status hno hlt threads i t hti hfirst
    refine ⟨i, t, hti, hfirst, ?_, ?_⟩
    · simp [dispatchNetworkRead, toUnsigned_small _ hlt, hmatch]
    · simp [dispatchNetworkRead, toUnsigned_small _ hlt, hmatch, unblockCalls]
  · intro hnone hpush
    have hmatch := eventUnblockJavaThread_exact_none P.sig.NO_SIGNAL
      P.sig.NETWORK_READ_SIGNAL D status hno hlt threads (not_FirstAt_of_none _ _ _ hnone)
    constructor
    · simp [dispatchNetworkRead, toUnsigned_small _ hlt, hmatch, hpush]
    · simp [dispatchNetworkRead, toUnsigned_small _ hlt, hmatch, hpush, unblockCalls]
  · intro hnone hpush hcfg
    have hmatch := eventUnblockJavaThread_exact_none P.sig.NO_SIGNAL
      P.sig.NETWORK_READ_SIGNAL D status hno hlt threads (not_FirstAt_of_none _ _ _ hnone)
    constructor
    · simp [dispatchNetworkRead, toUnsigned_small _ hlt, hmatch, hpush, hcfg]
    · simp [dispatchNetworkRead, toUnsigned_small _ hlt, hmatch, hpush, hcfg, unblockCalls]
  · intro hnone hpush hcfg
    have hmatch := eventUnblockJavaThread_exact_none P.sig.NO_SIGNAL
      P.sig.NETWORK_READ_SIGNAL D status hno hlt threads (not_FirstAt_of_none _ _ _ hnone)
    constructor
    · simp [dispatchNetworkRead, toUnsigned_small _ hlt, hmatch, hpush, hcfg]
    · simp [dispatchNetworkRead, toUnsigned_small _ hlt, hmatch, hpush, hcfg, unblockCalls]


/-- C25 at concrete inputs: the queued socket record `[3, 2, 7, 5, 9]`
(wait-kind `NETWORK_READ_SIGNAL = 2`, handle 7, status 5).  With the four
sample contexts the sample platform takes route 1; with no contexts the
platform with a push handle takes route 2, the sample platform route 3, and
the platform built without JSR 120 and JSR 205 route 4. -/
theorem network_read_routing_witness :
    javacall_event_receive samplePlatform.MAX_EVENTS (queued socketRecord).buffer
        (timeTowaitInMillisec 0) (queued socketRecord).binaryBuffer
        samplePlatform.BINARY_BUFFER_MAX_LEN 0 =
      some ⟨JAVACALL_OK, [3, 2, 7, 5, 9, 0, 0, 0], 5,
        { (queued socketRecord).buffer with index := 0, size := 0 }⟩ ∧
    (midp_slavemode_handle_events samplePlatform (queued socketRecord) sampleThreads 0).map
        (fun res => (res.ret, res.blocked_threads, res.calls)) =
      some (0,
        [⟨10, none⟩, ⟨11, some ⟨2, 7, 5, 0⟩⟩, ⟨12, some ⟨3, 7, 0, 0⟩⟩,
          ⟨13, some ⟨3, 7, 0, 0⟩⟩],
        [ExtCall.midp_thread_unblock 11]) ∧
    (midp_slavemode_handle_events samplePlatformPush (queued socketRecord) [] 0).map
        (fun res => (res.ret, res.blocked_threads, res.calls)) =
      some (0, [],
        [ExtCall.findPushBlockedHandle 7, ExtCall.midp_thread_signal_list 8 0 0]) ∧
    (midp_slavemode_handle_events samplePlatform (queued socketRecord) [] 0).map
        (fun res => (res.ret, res.blocked_threads, res.calls)) =
      some (0, [], [ExtCall.findPushBlockedHandle 7, ExtCall.jsr120_check_signal 2 7 5]) ∧
    (midp_slavemode_handle_events samplePlatformPlain (queued socketRecord) [] 0).map
        (fun res => (res.ret, res.blocked_threads, res.calls)) =
      some (0, [], [ExtCall.findPushBlockedHandle 7]) ∧
    ∃ res, midp_slavemode_handle_events samplePlatform (queued socketRecord) sampleThreads
        0 = some res ∧
      res.ret = 0 ∧
      ((∃ t ∈ sampleThreads, WaitsOn samplePlatform.sig.NETWORK_READ_SIGNAL 7 t) →
        ∃ (i : Nat) (t : JVMSPI_BlockedThreadInfo), sampleThreads[i]? = some t ∧
          FirstAt samplePlatform.sig.NETWORK_READ_SIGNAL 7 sampleThreads i ∧
          res.blocked_threads = sampleThreads.set i (setStatus 5 t) ∧
          res.calls = [ExtCall.midp_thread_unblock t.thread_id]) ∧
      ((¬ ∃ t ∈ sampleThreads, WaitsOn samplePlatform.sig.NETWORK_READ_SIGNAL 7 t) →
        samplePlatform.findPushBlockedHandle 7 ≠ 0 →
        res.blocked_threads = sampleThreads ∧
        res.calls = [ExtCall.findPushBlockedHandle 7,
          ExtCall.midp_thread_signal_list samplePlatform.sig.PUSH_SIGNAL 0 0]) ∧
      ((¬ ∃ t ∈ sampleThreads, WaitsOn samplePlatform.sig.NETWORK_READ_SIGNAL 7 t) →
        samplePlatform.findPushBlockedHandle 7 = 0 →
        (samplePlatform.cfg.ENABLE_JSR_120 = true ∨
          samplePlatform.cfg.ENABLE_JSR_205 = true) →
        res.blocked_threads = sampleThreads ∧
        res.calls = [ExtCall.findPushBlockedHandle 7,
          ExtCall.jsr120_check_signal samplePlatform.sig.NETWORK_READ_SIGNAL 7 5]) ∧
      ((¬ ∃ t ∈ sampleThreads, WaitsOn samplePlatform.sig.NETWORK_READ_SIGNAL 7 t) →
        samplePlatform.findPushBlockedHandle 7 = 0 →
        ¬ (samplePlatform.cfg.ENABLE_JSR_120 = true ∨
          samplePlatform.cfg.ENABLE_JSR_205 = true) →
        res.blocked_threads = sampleThreads ∧
        res.calls = [ExtCall.findPushBlockedHandle 7]) :=
  ⟨by decide, by decide, by decide, by decide, by decide,
    network_read_routing samplePlatform (queued socketRecord) sampleThreads 0
      ⟨JAVACALL_OK, [3, 2, 7, 5, 9, 0, 0, 0], 5,
        { (queued socketRecord).buffer with index := 0, size := 0 }⟩ 7 5
      (by decide) (by decide) (by decide) (by decide) (by decide) (by decide) (by decide)
      (by decide) (by decide) (by decide) (by decide)⟩

end SlaveMode
